import Mathlib

/-!
# X event handling of `windows/event.c`, desktop window of `controls/desktop.c`

A shallow embedding of the X11-event-to-window-message layer: the keyboard
translator (`EVENT_key`), the pointer and button tracker, the event dispatcher
(`EVENT_ProcessEvent`) and the wait loop (`EVENT_WaitXEvent`); and of the desktop
window class: its paint routine (`DESKTOP_DoEraseBkgnd`), its pattern
(`DESKTOP_SetPattern`) and its wallpaper (`SetDeskWallPaper32`).

Conventions of the embedding.

* The module's global variables are the fields of `State`; every handler is a
  function `State → State`.
* Calls into collaborators that are not part of `event.c` (the message queue's
  `hardware_event`, the timer subsystem, Xlib requests, ...) are appended, in
  call order, to the trace `State.out`; what such a collaborator answers is read
  from the environment `Env`.  Collaborators are assumed not to write the
  globals of `event.c` behind its back.
* Debug-channel output (`dprintf_*`) is not modelled.
* C integers are `Nat`/`Int`; a narrowing conversion is written out as an
  explicit `%`.
-/

namespace Wine

/-! ## Constants of the X11 and Windows headers -/

/-- X event type codes (`X.h`); `event_names` in `event.c` lists them in this order. -/
def KeyPress : Nat := 2
def KeyRelease : Nat := 3
def ButtonPress : Nat := 4
def ButtonRelease : Nat := 5
def MotionNotify : Nat := 6
def FocusIn : Nat := 9
def FocusOut : Nat := 10
def Expose : Nat := 12
def GraphicsExpose : Nat := 13
def NoExpose : Nat := 14
def CreateNotify : Nat := 16
def DestroyNotify : Nat := 17
def UnmapNotify : Nat := 18
def MapNotify : Nat := 19
def ReparentNotify : Nat := 21
def ConfigureNotify : Nat := 22
def GravityNotify : Nat := 24
def CirculateNotify : Nat := 26
def SelectionClear : Nat := 29
def SelectionRequest : Nat := 30
def SelectionNotify : Nat := 31
def ClientMessage : Nat := 33

/-- X modifier and button masks (`X.h`). -/
def ShiftMask : Nat := 0x01
def ControlMask : Nat := 0x04
def Mod1Mask : Nat := 0x08
def Button1Mask : Nat := 0x100
def Button2Mask : Nat := 0x200
def Button3Mask : Nat := 0x400

/-- Further Xlib constants: `XK_Return` (`keysymdef.h`), the atom `None`, the
predefined atoms of `Xatom.h`, `NotifyPointer`, `PropModeReplace`. -/
def XK_Return : Nat := 0xFF0D
def None : Nat := 0
def XA_PRIMARY : Nat := 1
def XA_STRING : Nat := 31
def NotifyPointer : Int := 5
def PropModeReplace : Nat := 0

/-- Virtual-key codes.  They are declared in `windows.h`, which is not among the
source files; the values are those of the Windows API that header reproduces. -/
def VK_CANCEL : Nat := 0x03
def VK_BACK : Nat := 0x08
def VK_TAB : Nat := 0x09
def VK_CLEAR : Nat := 0x0C
def VK_RETURN : Nat := 0x0D
def VK_SHIFT : Nat := 0x10
def VK_CONTROL : Nat := 0x11
def VK_MENU : Nat := 0x12
def VK_PAUSE : Nat := 0x13
def VK_CAPITAL : Nat := 0x14
def VK_ESCAPE : Nat := 0x1B
def VK_PRIOR : Nat := 0x21
def VK_NEXT : Nat := 0x22
def VK_END : Nat := 0x23
def VK_HOME : Nat := 0x24
def VK_LEFT : Nat := 0x25
def VK_UP : Nat := 0x26
def VK_RIGHT : Nat := 0x27
def VK_DOWN : Nat := 0x28
def VK_SELECT : Nat := 0x29
def VK_EXECUTE : Nat := 0x2B
def VK_SNAPSHOT : Nat := 0x2C
def VK_INSERT : Nat := 0x2D
def VK_DELETE : Nat := 0x2E
def VK_HELP : Nat := 0x2F
def VK_NUMPAD0 : Nat := 0x60
def VK_NUMPAD1 : Nat := 0x61
def VK_NUMPAD2 : Nat := 0x62
def VK_NUMPAD3 : Nat := 0x63
def VK_NUMPAD4 : Nat := 0x64
def VK_NUMPAD5 : Nat := 0x65
def VK_NUMPAD6 : Nat := 0x66
def VK_NUMPAD7 : Nat := 0x67
def VK_NUMPAD8 : Nat := 0x68
def VK_NUMPAD9 : Nat := 0x69
def VK_MULTIPLY : Nat := 0x6A
def VK_ADD : Nat := 0x6B
def VK_SEPARATOR : Nat := 0x6C
def VK_SUBTRACT : Nat := 0x6D
def VK_DECIMAL : Nat := 0x6E
def VK_DIVIDE : Nat := 0x6F
def VK_F1 : Nat := 0x70
def VK_F2 : Nat := 0x71
def VK_F3 : Nat := 0x72
def VK_F4 : Nat := 0x73
def VK_F5 : Nat := 0x74
def VK_F6 : Nat := 0x75
def VK_F7 : Nat := 0x76
def VK_F8 : Nat := 0x77
def VK_F9 : Nat := 0x78
def VK_F10 : Nat := 0x79
def VK_F11 : Nat := 0x7A
def VK_F12 : Nat := 0x7B
def VK_F13 : Nat := 0x7C
def VK_F14 : Nat := 0x7D
def VK_F15 : Nat := 0x7E
def VK_F16 : Nat := 0x7F
def VK_NUMLOCK : Nat := 0x90
def VK_SCROLL : Nat := 0x91

/-- Window message numbers and flag values of `windows.h` (Windows API values). -/
def WM_WINDOWPOSCHANGING : Nat := 0x0046
def WM_WINDOWPOSCHANGED : Nat := 0x0047
def WM_KEYDOWN : Nat := 0x0100
def WM_KEYUP : Nat := 0x0101
def WM_SYSKEYDOWN : Nat := 0x0104
def WM_SYSKEYUP : Nat := 0x0105
def WM_SYSCOMMAND : Nat := 0x0112
def WM_MOUSEMOVE : Nat := 0x0200
def WM_LBUTTONDOWN : Nat := 0x0201
def WM_LBUTTONUP : Nat := 0x0202
def WM_RBUTTONDOWN : Nat := 0x0204
def WM_RBUTTONUP : Nat := 0x0205
def WM_MBUTTONDOWN : Nat := 0x0207
def WM_MBUTTONUP : Nat := 0x0208
def SC_CLOSE : Nat := 0xF060
def MK_LBUTTON : Nat := 0x0001
def MK_RBUTTON : Nat := 0x0002
def MK_SHIFT : Nat := 0x0004
def MK_CONTROL : Nat := 0x0008
def MK_MBUTTON : Nat := 0x0010
def SWP_NOSIZE : Nat := 0x0001
def SWP_NOMOVE : Nat := 0x0002
def SWP_NOZORDER : Nat := 0x0004
def SWP_NOACTIVATE : Nat := 0x0010
def RDW_INVALIDATE : Nat := 0x0001
def RDW_ERASE : Nat := 0x0004
def RDW_ALLCHILDREN : Nat := 0x0080
def RDW_ERASENOW : Nat := 0x0200
def RDW_FRAME : Nat := 0x0400

/-- The number of buttons: `#define NB_BUTTONS 3`. -/
def NB_BUTTONS : Int := 3

/-! ## Machine words -/

/-- An 8-bit `BYTE`. -/
abbrev BYTE := Fin 256

/-- `LOWORD`: the low 16 bits. -/
def LOWORD (x : Nat) : Nat := x % 65536

/-- `HIBYTE`: bits 8..15 of a word. -/
def HIBYTE (x : Nat) : Nat := (x / 256) % 256

/-- `LOBYTE`: the low 8 bits. -/
def LOBYTE (x : Nat) : Nat := x % 256

/-- Subtraction of two `DWORD` tick counts, wrapping at 32 bits. -/
def subDWORD (a b : Nat) : Nat := (a % 4294967296 + (4294967296 - b % 4294967296)) % 4294967296

/-- Conversion of an `int` to a 16-bit signed field (`INT16`). -/
def toINT16 (x : Int) : Int := (x + 32768) % 65536 - 32768

/-- The value an `INT32` variable holds after an addition: the sum, wrapped into
the 32-bit two's-complement range when it leaves it (what the machine's `add`
does; ISO C leaves a signed overflow undefined). -/
def toINT32 (x : Int) : Int := (x + 2147483648) % 4294967296 - 2147483648

/-! ## Data -/

/-- A rectangle (`RECT16`/`RECT32`). -/
structure RECT where
  left : Int
  top : Int
  right : Int
  bottom : Int
deriving DecidableEq, Repr

/-- The fields of a window record `WND` that `event.c` reads or writes.  A record
is addressed by its window handle (`WIN_FindWndPtr`); `pWnd->hwndSelf` is that handle. -/
structure WND where
  window : Nat
  rectWindow : RECT
  rectClient : RECT
  flags : Nat
deriving DecidableEq, Repr

/-- An X event.  The C type is a union selected by `type`; the embedding lists the
members that `event.c` reads side by side.  `window` is the member that
`XAnyEvent` calls `window` (the window the event was reported to). -/
structure XEvent where
  type : Nat
  window : Nat
  x_root : Int := 0
  y_root : Int := 0
  time : Nat := 0
  state : Nat := 0
  keycode : Nat := 0
  button : Nat := 0
  detail : Int := 0
  x : Int := 0
  y : Int := 0
  width : Int := 0
  height : Int := 0
  count : Int := 0
  requestor : Nat := 0
  selection : Nat := 0
  target : Nat := 0
  property : Nat := 0
  format : Int := 0
  message_type : Nat := 0
  data_l0 : Nat := 0
deriving DecidableEq, Repr

/-- What `XLookupString (event, Str, 1, &keysym, &cs)` hands back: the number of
characters stored, the first character of `Str` and the key symbol. -/
structure Lookup where
  ascii_chars : Nat
  Str0 : Int
  keysym : Nat
deriving DecidableEq, Repr

/-- A `WINDOWPOS16` descriptor. -/
structure WINDOWPOS where
  hwnd : Nat
  x : Int
  y : Int
  cx : Int
  cy : Int
  flags : Nat
deriving DecidableEq, Repr

/-- A region handle, described by how it was built. -/
inductive Rgn where
  | rect (r : RECT)
  | diff (a b : Rgn)
deriving DecidableEq, Repr

/-- The outcome of `select` on the display connection: it reports the descriptor
readable (return value 1) after some events arrived, or it times out, or it fails. -/
inductive SelectResult where
  | ready (arrived : List XEvent)
  | timeout
  | error
deriving DecidableEq, Repr

/-- A call into a collaborator outside `event.c`, with its arguments. -/
inductive Effect where
  | hardware_event (message wParam lParam : Nat) (xPos yPos : Int) (time extraInfo : Nat)
  | DEBUG_EnterDebugger
  | unknownKeyReport
  | select (tv_sec tv_usec : Int)
  | TIMER_ExpireTimers
  | XSync
  | WINPOS_ChangeActiveWindow (hwnd : Nat) (fChangeFocus : Bool)
  | SetFocus32 (hwnd : Nat)
  | FOCUS_SetXFocus (hwnd : Nat)
  | PAINT_RedrawWindow (hwnd : Nat) (rect : Option RECT) (hrgn : Option Rgn) (flags control : Nat)
  | SendMessage16 (hwnd msg wParam : Nat) (winpos : Option WINDOWPOS)
  | WINPOS_SendNCCalcSize (hwnd : Nat) (newWindowRect oldWindowRect oldClientRect : RECT)
  | OpenClipboard (hwnd : Nat)
  | CloseClipboard
  | XChangeProperty (w property type format mode : Nat) (data : List Nat)
  | XSendEvent (w : Nat) (event : XEvent)
  | CLIPBOARD_ReadSelection (w prop : Nat)
  | CLIPBOARD_ReleaseSelection (hwnd : Nat)
  | XGrabPointer (win : Nat)
  | XUngrabPointer
  | DeleteObject (hrgn : Rgn)
deriving DecidableEq, Repr

/-- Answers of the collaborators and values declared outside `event.c`. -/
structure Env where
  /-- the result of `XLookupString` for a key event -/
  XLookupString : XEvent → Lookup
  /-- `HOOK_GetHook (WH_JOURNALPLAYBACK, 0)`: the hook handle, 0 when none is installed -/
  journalHook : Nat
  /-- the two unnamed bits of `KEYLP`, which `EVENT_key` never writes -/
  keylpPad : Nat
  /-- `MSG_WineStartTicks` -/
  MSG_WineStartTicks : Nat
  /-- `TIMER_GetNextExpiration ()` -/
  TIMER_GetNextExpiration : Int
  /-- what `select` reports when `EVENT_WaitXEvent` calls it -/
  selectResult : SelectResult
  /-- the events that `XSync` brings into the queue -/
  syncArrivals : List XEvent
  /-- the handle of the desktop window, `none` while `WIN_GetDesktop ()` is NULL -/
  desktop : Option Nat
  /-- `GetActiveWindow ()`, `GetFocus32 ()` and `IsChild`, as answered after the
  collaborator calls made so far -/
  GetActiveWindow : List Effect → Nat
  GetFocus32 : List Effect → Nat
  IsChild : List Effect → Nat → Nat → Bool
  /-- the flag bit `WIN_MANAGED` of `win.h` -/
  WIN_MANAGED : Nat
  /-- the control flag `RDW_C_USEHRGN` of `win.h` -/
  RDW_C_USEHRGN : Nat
  /-- whether `SEGPTR_NEW (WINDOWPOS16)` succeeds -/
  segptrAlloc : Bool
  /-- the descriptor as the receiver of WM_WINDOWPOSCHANGING leaves it -/
  afterPosChanging : WINDOWPOS → WINDOWPOS
  /-- the client rectangle `WINPOS_SendNCCalcSize` computes -/
  WINPOS_SendNCCalcSize : Nat → RECT → RECT → RECT → WINDOWPOS → RECT
  /-- `CLIPBOARD_IsPresent (CF_TEXT)` -/
  clipboardHasText : Bool
  /-- whether `OpenClipboard` succeeds -/
  clipboardOpens : Bool
  /-- the bytes of the clipboard text up to its terminating NUL -/
  clipboardText : List Nat
  /-- the atoms `XInternAtom` returns for WM_PROTOCOLS and WM_DELETE_WINDOW -/
  wmProtocols : Nat
  wmDeleteWindow : Nat
  /-- `WIN_GetXWindow` -/
  WIN_GetXWindow : Nat → Nat
  /-- whether `XGrabPointer` on a window returns `GrabSuccess` -/
  grabSucceeds : Nat → Bool

/-- The global variables of `event.c` (and the `desktopX`, `desktopY` it assigns),
the window records, the Xlib event queue and the trace of collaborator calls. -/
structure State where
  KeyStateTable : Nat → BYTE
  AsyncKeyStateTable : Nat → BYTE
  /-- the two button arrays, entries 0, 1, 2; they are read at an `int` index, and
  an index outside 0..2 addresses memory next to the array -/
  MouseButtonsStates : Int → Nat
  AsyncMouseButtonsStates : Int → Nat
  KeyDown : Bool
  lastEventChar : Int
  captureWnd : Nat
  InputEnabled : Bool
  desktopX : Int
  desktopY : Int
  /-- the association `winContext`: X window ↦ registered window record -/
  winContext : Nat → Option Nat
  /-- the window records, by handle (`WIN_FindWndPtr`) -/
  wnd : Nat → Option WND
  /-- the events Xlib has queued, oldest first -/
  queue : List XEvent
  /-- the collaborator calls made so far, oldest first -/
  out : List Effect

/-- Record a collaborator call. -/
def State.emit (s : State) (e : Effect) : State := { s with out := s.out ++ [e] }

/-! ## Keyboard translation tables -/

def special_key : List Nat :=
  [ VK_BACK, VK_TAB, 0, VK_CLEAR, 0, VK_RETURN, 0, 0,           -- FF08
    0, 0, 0, VK_PAUSE, VK_SCROLL, 0, 0, 0,                      -- FF10
    0, 0, 0, VK_ESCAPE ]                                        -- FF18

def cursor_key : List Nat :=
  [ VK_HOME, VK_LEFT, VK_UP, VK_RIGHT, VK_DOWN, VK_PRIOR,
                                       VK_NEXT, VK_END ]        -- FF50

def misc_key : List Nat :=
  [ VK_SELECT, VK_SNAPSHOT, VK_EXECUTE, VK_INSERT, 0, 0, 0, 0,  -- FF60
    VK_CANCEL, VK_HELP, VK_CANCEL, VK_MENU ]                    -- FF68

def keypad_key : List Nat :=
  [ VK_MENU, VK_NUMLOCK,                                        -- FF7E
    0, 0, 0, 0, 0, 0, 0, 0,                                     -- FF80
    0, 0, 0, 0, 0, VK_RETURN, 0, 0,                             -- FF88
    0, 0, 0, 0, 0, 0, 0, 0,                                     -- FF90
    0, 0, 0, 0, 0, 0, 0, 0,                                     -- FF98
    0, 0, 0, 0, 0, 0, 0, 0,                                     -- FFA0
    0, 0, VK_MULTIPLY, VK_ADD, VK_SEPARATOR, VK_SUBTRACT,
                               VK_DECIMAL, VK_DIVIDE,           -- FFA8
    VK_NUMPAD0, VK_NUMPAD1, VK_NUMPAD2, VK_NUMPAD3, VK_NUMPAD4,
                            VK_NUMPAD5, VK_NUMPAD6, VK_NUMPAD7, -- FFB0
    VK_NUMPAD8, VK_NUMPAD9 ]                                    -- FFB8

def function_key : List Nat :=
  [ VK_F1, VK_F2,                                               -- FFBE
    VK_F3, VK_F4, VK_F5, VK_F6, VK_F7, VK_F8, VK_F9, VK_F10,    -- FFC0
    VK_F11, VK_F12, VK_F13, VK_F14, VK_F15, VK_F16 ]            -- FFC8

def modifier_key : List Nat :=
  [ VK_SHIFT, VK_SHIFT, VK_CONTROL, VK_CONTROL, VK_CAPITAL,
                                                0, 0,           -- FFE1
    0, VK_MENU, VK_MENU ]                                       -- FFE8

/-- The C library's `isalnum`, in the "C" locale, on a byte. -/
def isalnum (c : Nat) : Bool :=
  (0x30 ≤ c && c ≤ 0x39) || (0x41 ≤ c && c ≤ 0x5A) || (0x61 ≤ c && c ≤ 0x7A)

/-- The C library's `toupper`, in the "C" locale. -/
def toupper (c : Nat) : Nat := if 0x61 ≤ c && c ≤ 0x7A then c - 0x20 else c

/-- The C library's `isspace`, in the "C" locale: space, `\t`, `\n`, `\v`, `\f`, `\r`. -/
def isspace (c : Nat) : Bool := c = 0x20 || (0x09 ≤ c && c ≤ 0x0D)

/-- The bit-field view `lp1` of the union `KEYLP`.  `pad` stands for the two
unnamed bits between `extended` and `reserved`. -/
structure KEYLP where
  count : Nat
  code : Nat
  extended : Nat
  pad : Nat
  reserved : Nat
  context : Nat
  previous : Nat
  transition : Nat
deriving DecidableEq, Repr

/-- The view `lp2` of the union `KEYLP`: the fields packed into one 32-bit word,
the first field in the lowest bits. -/
def KEYLP.lp2 (k : KEYLP) : Nat :=
  k.count % 65536 + (k.code % 256) * 2 ^ 16 + (k.extended % 2) * 2 ^ 24
    + (k.pad % 4) * 2 ^ 25 + (k.reserved % 4) * 2 ^ 27 + (k.context % 2) * 2 ^ 29
    + (k.previous % 2) * 2 ^ 30 + (k.transition % 2) * 2 ^ 31

/-- What the classification part of `EVENT_key` computes from the key symbol:
the locals `vkey` and `extended`, and whether the "Unknown key!" report was printed. -/
structure Translation where
  vkey : Nat
  extended : Bool
  reported : Bool
deriving DecidableEq, Repr

/-- The `switch (key)` of `EVENT_key` for a character key that is neither
alphanumeric nor white space; `none` is the `default:` label. -/
def EVENT_key.punctuation (key : Nat) : Option Nat :=
  if key = 0x21 then some 0x31            -- vkcase('!','1')
  else if key = 0x40 then some 0x32       -- vkcase('@','2')
  else if key = 0x23 then some 0x33       -- vkcase('#','3')
  else if key = 0x24 then some 0x34       -- vkcase('$','4')
  else if key = 0x25 then some 0x35       -- vkcase('%','5')
  else if key = 0x5E then some 0x36       -- vkcase('^','6')
  else if key = 0x26 then some 0x37       -- vkcase('&','7')
  else if key = 0x2A then some 0x38       -- vkcase('*','8')
  else if key = 0x28 then some 0x39       -- vkcase('(','9')
  else if key = 0x29 then some 0x30       -- vkcase(')','0')
  else if key = 0x60 ∨ key = 0x7E then some 0xc0   -- grave accent, tilde
  else if key = 0x2D ∨ key = 0x5F then some 0xbd   -- minus, underscore
  else if key = 0x3D ∨ key = 0x2B then some 0xbb   -- equals, plus
  else if key = 0x5B ∨ key = 0x7B then some 0xdb   -- left bracket, left brace
  else if key = 0x5D ∨ key = 0x7D then some 0xdd   -- right bracket, right brace
  else if key = 0x3B ∨ key = 0x3A then some 0xba   -- semicolon, colon
  else if key = 0x27 ∨ key = 0x22 then some 0xde   -- apostrophe, double quote
  else if key = 0x2C ∨ key = 0x3C then some 0xbc   -- comma, less-than
  else if key = 0x2E ∨ key = 0x3E then some 0xbe   -- full stop, greater-than
  else if key = 0x2F ∨ key = 0x3F then some 0xbf   -- slash, question mark
  else if key = 0x5C ∨ key = 0x7C then some 0xdc   -- backslash, vertical bar
  else none

/-- The classification part of `EVENT_key`: from `key_type = HIBYTE(xkey)` and
`key = LOBYTE(xkey)` to the virtual key.  `vkey` starts as 0 and `extended` as FALSE. -/
def EVENT_key.translate (key_type key : Nat) : Translation :=
  if key_type = 0xFF then                          -- non-character key
    if key ≥ 0x08 ∧ key ≤ 0x1B then               -- special key
      { vkey := special_key.getD (key - 0x08) 0, extended := false, reported := false }
    else if key ≥ 0x50 ∧ key ≤ 0x57 then          -- cursor key
      { vkey := cursor_key.getD (key - 0x50) 0, extended := false, reported := false }
    else if key ≥ 0x60 ∧ key ≤ 0x6B then          -- miscellaneous key
      { vkey := misc_key.getD (key - 0x60) 0, extended := false, reported := false }
    else if key ≥ 0x7E ∧ key ≤ 0xB9 then          -- keypad key
      { vkey := keypad_key.getD (key - 0x7E) 0, extended := true, reported := false }
    else if key ≥ 0xBE ∧ key ≤ 0xCD then          -- function key
      { vkey := function_key.getD (key - 0xBE) 0, extended := true, reported := false }
    else if key ≥ 0xE1 ∧ key ≤ 0xEA then          -- modifier key
      { vkey := modifier_key.getD (key - 0xE1) 0, extended := false, reported := false }
    else if key = 0xFF then                        -- DEL key
      { vkey := VK_DELETE, extended := false, reported := false }
    else { vkey := 0, extended := false, reported := false }
  else if key_type = 0 then                        -- character key
    if isalnum key then
      { vkey := toupper key, extended := false, reported := false }
    else if isspace key then
      { vkey := key, extended := false, reported := false }
    else
      match EVENT_key.punctuation key with
      | some val => { vkey := val, extended := false, reported := false }
      | none => { vkey := 0, extended := false, reported := true }
  else { vkey := 0, extended := false, reported := false }

/-- The virtual key `EVENT_key` computes for a key symbol. -/
def EVENT_key.vkey (keysym : Nat) : Nat :=
  (EVENT_key.translate (HIBYTE (LOWORD keysym)) (LOBYTE (LOWORD keysym))).vkey

/-- The classification part of `EVENT_key` with every read of a static table
checked against the table's length: the result is `none` when a read
`table[key - base]` lies outside the table, and otherwise what
`EVENT_key.translate` computes.
```c
    if (key_type == 0xFF)                          /* non-character key */
    {
	if (key >= 0x08 && key <= 0x1B)            /* special key */
	    vkey = special_key[key - 0x08];
	else if (key >= 0x50 && key <= 0x57)       /* cursor key */
	    vkey = cursor_key[key - 0x50];
	else if (key >= 0x60 && key <= 0x6B)       /* miscellaneous key */
	    vkey = misc_key[key - 0x60];
	else if (key >= 0x7E && key <= 0xB9)       /* keypad key */
	{ vkey = keypad_key[key - 0x7E]; extended = TRUE; }
	else if (key >= 0xBE && key <= 0xCD)       /* function key */
	{ vkey = function_key[key - 0xBE]; extended = TRUE; }
	else if (key >= 0xE1 && key <= 0xEA)       /* modifier key */
	    vkey = modifier_key[key - 0xE1];
	else if (key == 0xFF)                      /* DEL key */
	    vkey = VK_DELETE;
    }
    else if (key_type == 0)                        /* character key */
    { ... no table is read ... }
```
-/
def EVENT_key.translateChecked (key_type key : Nat) : Option Translation :=
  if key_type = 0xFF then                          -- non-character key
    if key ≥ 0x08 ∧ key ≤ 0x1B then               -- special key
      special_key[key - 0x08]?.map fun v => { vkey := v, extended := false, reported := false }
    else if key ≥ 0x50 ∧ key ≤ 0x57 then          -- cursor key
      cursor_key[key - 0x50]?.map fun v => { vkey := v, extended := false, reported := false }
    else if key ≥ 0x60 ∧ key ≤ 0x6B then          -- miscellaneous key
      misc_key[key - 0x60]?.map fun v => { vkey := v, extended := false, reported := false }
    else if key ≥ 0x7E ∧ key ≤ 0xB9 then          -- keypad key
      keypad_key[key - 0x7E]?.map fun v => { vkey := v, extended := true, reported := false }
    else if key ≥ 0xBE ∧ key ≤ 0xCD then          -- function key
      function_key[key - 0xBE]?.map fun v => { vkey := v, extended := true, reported := false }
    else if key ≥ 0xE1 ∧ key ≤ 0xEA then          -- modifier key
      modifier_key[key - 0xE1]?.map fun v => { vkey := v, extended := false, reported := false }
    else if key = 0xFF then                        -- DEL key
      some { vkey := VK_DELETE, extended := false, reported := false }
    else some { vkey := 0, extended := false, reported := false }
  else if key_type = 0 then                        -- character key
    if isalnum key then
      some { vkey := toupper key, extended := false, reported := false }
    else if isspace key then
      some { vkey := key, extended := false, reported := false }
    else
      match EVENT_key.punctuation key with
      | some val => some { vkey := val, extended := false, reported := false }
      | none => some { vkey := 0, extended := false, reported := true }
  else some { vkey := 0, extended := false, reported := false }

/-- The `if (event->type == KeyPress)` branch of `EVENT_key`. -/
def EVENT_key.press (env : Env) (event : XEvent) (lk : Lookup) (tr : Translation)
    (s : State) : State :=
  let vkey := tr.vkey
  -- if (!(KeyStateTable[vkey] & 0x80)) KeyStateTable[vkey] ^= 0x01;
  let t1 : Nat → BYTE :=
    if s.KeyStateTable vkey &&& 0x80 = 0 then
      Function.update s.KeyStateTable vkey (s.KeyStateTable vkey ^^^ 0x01)
    else s.KeyStateTable
  -- KeyStateTable[vkey] |= 0x80;
  let t2 : Nat → BYTE := Function.update t1 vkey (t1 vkey ||| 0x80)
  let keylp : KEYLP :=
    { count := 1
      code := (LOBYTE event.keycode + 256 - 8) % 256
      extended := if tr.extended then 1 else 0
      pad := env.keylpPad
      reserved := if lk.ascii_chars ≠ 0 then 1 else 0
      context := if event.state &&& Mod1Mask ≠ 0 ∨ t2 VK_MENU &&& 0x80 ≠ 0 then 1 else 0
      previous := if s.KeyDown then 0 else 1
      transition := 0 }
  let s1 : State := { s with KeyStateTable := t2 }
  let s2 := s1.emit
    (.hardware_event (if t2 VK_MENU &&& 0x80 ≠ 0 then WM_SYSKEYDOWN else WM_KEYDOWN)
      vkey keylp.lp2 (event.x_root - s.desktopX) (event.y_root - s.desktopY)
      (subDWORD event.time env.MSG_WineStartTicks) 0)
  -- KeyDown = TRUE;  if( ascii_chars ) lastEventChar = Str[0];
  { s2 with
    KeyDown := true
    lastEventChar := if lk.ascii_chars ≠ 0 then lk.Str0 else s2.lastEventChar }

/-- The `else` branch of `EVENT_key` (a key release). -/
def EVENT_key.release (env : Env) (event : XEvent) (tr : Translation) (s : State) : State :=
  let vkey := tr.vkey
  let sysKey : BYTE := s.KeyStateTable VK_MENU
  -- KeyStateTable[vkey] &= ~0x80;  (in a BYTE the mask is 0x7F)
  let t1 : Nat → BYTE := Function.update s.KeyStateTable vkey (s.KeyStateTable vkey &&& 0x7F)
  let keylp : KEYLP :=
    { count := 1
      code := (LOBYTE event.keycode + 256 - 8) % 256
      extended := if tr.extended then 1 else 0
      pad := env.keylpPad
      reserved := 0
      context := if event.state &&& Mod1Mask ≠ 0 then 1 else 0
      previous := 1
      transition := 1 }
  let s1 : State := { s with KeyStateTable := t1 }
  let s2 := s1.emit
    (.hardware_event (if sysKey &&& 0x80 ≠ 0 then WM_SYSKEYUP else WM_KEYUP)
      vkey keylp.lp2 (event.x_root - s.desktopX) (event.y_root - s.desktopY)
      (subDWORD event.time env.MSG_WineStartTicks) 0)
  { s2 with KeyDown := false }

/-- `EVENT_key`: handle an X key event. -/
def EVENT_key (env : Env) (event : XEvent) (s : State) : State :=
  let lk := env.XLookupString event
  -- Ctrl-Alt-Return enters the debugger
  let s0 :=
    if lk.keysym = XK_Return ∧ event.type = KeyPress ∧
        event.state &&& ControlMask ≠ 0 ∧ event.state &&& Mod1Mask ≠ 0 then
      s.emit .DEBUG_EnterDebugger
    else s
  let xkey := LOWORD lk.keysym
  let key_type := HIBYTE xkey
  let key := LOBYTE xkey
  let tr := EVENT_key.translate key_type key
  let s1 := if tr.reported then s0.emit .unknownKeyReport else s0
  if event.type = KeyPress then EVENT_key.press env event lk tr s1
  else EVENT_key.release env event tr s1

/-! ## Pointer and button tracker -/

/-- `EVENT_XStateToKeyState`: translate an X event state to a Windows key state. -/
def EVENT_XStateToKeyState (state : Nat) : Nat :=
  let k0 : Nat := 0
  let k1 := if state &&& Button1Mask ≠ 0 then k0 ||| MK_LBUTTON else k0
  let k2 := if state &&& Button2Mask ≠ 0 then k1 ||| MK_MBUTTON else k1
  let k3 := if state &&& Button3Mask ≠ 0 then k2 ||| MK_RBUTTON else k2
  let k4 := if state &&& ShiftMask ≠ 0 then k3 ||| MK_SHIFT else k3
  let k5 := if state &&& ControlMask ≠ 0 then k4 ||| MK_CONTROL else k4
  k5 % 65536

/-- `EVENT_MotionNotify`. -/
def EVENT_MotionNotify (env : Env) (event : XEvent) (s : State) : State :=
  s.emit (.hardware_event WM_MOUSEMOVE (EVENT_XStateToKeyState event.state) 0
    (event.x_root - s.desktopX) (event.y_root - s.desktopY)
    (subDWORD event.time env.MSG_WineStartTicks) 0)

/-- Read a three-entry message table at an `int` index; an index outside the
table (which the callers exclude above, but not below) yields 0. -/
def messageAt (messages : List Nat) (buttonNum : Int) : Nat :=
  if 0 ≤ buttonNum then messages.getD buttonNum.toNat 0 else 0

/-- `int buttonNum = event->button - 1;` with `button` an `unsigned int`: the
subtraction wraps at 32 bits and the result is read as a signed `int`. -/
def buttonNumOf (button : Nat) : Int :=
  let b := button % 4294967296
  if b = 0 then -1                                   -- 0xFFFFFFFF as an int
  else if b - 1 < 2147483648 then Int.ofNat (b - 1)
  else Int.ofNat (b - 1) - 4294967296

/-- `EVENT_ButtonPress`. -/
def EVENT_ButtonPress (env : Env) (event : XEvent) (s : State) : State :=
  let messages : List Nat := [WM_LBUTTONDOWN, WM_MBUTTONDOWN, WM_RBUTTONDOWN]
  let buttonNum := buttonNumOf event.button
  if buttonNum ≥ NB_BUTTONS then s
  else
    let s1 : State :=
      { s with
        MouseButtonsStates := Function.update s.MouseButtonsStates buttonNum 0x8000
        AsyncMouseButtonsStates := Function.update s.AsyncMouseButtonsStates buttonNum 0x8000 }
    s1.emit (.hardware_event (messageAt messages buttonNum)
      (EVENT_XStateToKeyState event.state) 0
      (event.x_root - s.desktopX) (event.y_root - s.desktopY)
      (subDWORD event.time env.MSG_WineStartTicks) 0)

/-- `EVENT_ButtonRelease`. -/
def EVENT_ButtonRelease (env : Env) (event : XEvent) (s : State) : State :=
  let messages : List Nat := [WM_LBUTTONUP, WM_MBUTTONUP, WM_RBUTTONUP]
  let buttonNum := buttonNumOf event.button
  if buttonNum ≥ NB_BUTTONS then s
  else
    let s1 : State :=
      { s with MouseButtonsStates := Function.update s.MouseButtonsStates buttonNum 0 }
    s1.emit (.hardware_event (messageAt messages buttonNum)
      (EVENT_XStateToKeyState event.state) 0
      (event.x_root - s.desktopX) (event.y_root - s.desktopY)
      (subDWORD event.time env.MSG_WineStartTicks) 0)

/-! ## Focus, exposure, geometry, selection -/

/-- `EVENT_FocusIn`. -/
def EVENT_FocusIn (env : Env) (hwnd : Nat) (event : XEvent) (s : State) : State :=
  if event.detail = NotifyPointer then s
  else
    let s1 :=
      if hwnd ≠ env.GetActiveWindow s.out then s.emit (.WINPOS_ChangeActiveWindow hwnd false)
      else s
    if hwnd ≠ env.GetFocus32 s1.out ∧ ¬ env.IsChild s1.out hwnd (env.GetFocus32 s1.out) then
      s1.emit (.SetFocus32 hwnd)
    else s1

/-- `EVENT_FocusOut`. -/
def EVENT_FocusOut (env : Env) (hwnd : Nat) (event : XEvent) (s : State) : State :=
  if event.detail = NotifyPointer then s
  else
    let s1 :=
      if hwnd = env.GetActiveWindow s.out then s.emit (.WINPOS_ChangeActiveWindow 0 false)
      else s
    if hwnd = env.GetFocus32 s1.out ∨ env.IsChild s1.out hwnd (env.GetFocus32 s1.out) then
      s1.emit (.SetFocus32 0)
    else s1

/-- The rectangle both expose handlers compute: the event area made relative to
the client area instead of the window. -/
def exposeRect (w : WND) (event : XEvent) : RECT :=
  let left := event.x - (w.rectClient.left - w.rectWindow.left)
  let top := event.y - (w.rectClient.top - w.rectWindow.top)
  { left := left, top := top, right := left + event.width, bottom := top + event.height }

/-- `EVENT_Expose`.  The record `pWnd` points to is looked up by its handle; a
registered record is taken to be live. -/
def EVENT_Expose (hwnd : Nat) (event : XEvent) (s : State) : State :=
  match s.wnd hwnd with
  | none => s
  | some w =>
    s.emit (.PAINT_RedrawWindow hwnd (some (exposeRect w event)) none
      (RDW_INVALIDATE ||| RDW_FRAME ||| RDW_ALLCHILDREN ||| RDW_ERASE |||
        (if event.count ≠ 0 then 0 else RDW_ERASENOW)) 0)

/-- `EVENT_GraphicsExpose`. -/
def EVENT_GraphicsExpose (hwnd : Nat) (event : XEvent) (s : State) : State :=
  match s.wnd hwnd with
  | none => s
  | some w =>
    s.emit (.PAINT_RedrawWindow hwnd (some (exposeRect w event)) none
      (RDW_INVALIDATE ||| RDW_ALLCHILDREN ||| RDW_ERASE |||
        (if event.count ≠ 0 then 0 else RDW_ERASENOW)) 0)

/-- The `WINDOWPOS16` descriptor `EVENT_ConfigureNotify` fills in, with the flags
for unchanged attributes. -/
def EVENT_ConfigureNotify.winpos (hwnd : Nat) (event : XEvent) (w : WND) : WINDOWPOS :=
  let x := toINT16 event.x
  let y := toINT16 event.y
  let cx := toINT16 event.width
  let cy := toINT16 event.height
  let f0 := SWP_NOACTIVATE ||| SWP_NOZORDER
  let f1 := if x = w.rectWindow.left ∧ y = w.rectWindow.top then f0 ||| SWP_NOMOVE else f0
  let f2 :=
    if cx = w.rectWindow.right - w.rectWindow.left ∧
        cy = w.rectWindow.bottom - w.rectWindow.top then f1 ||| SWP_NOSIZE else f1
  { hwnd := hwnd, x := x, y := y, cx := cx, cy := cy, flags := f2 }

/-- `EVENT_ConfigureNotify`. -/
def EVENT_ConfigureNotify (env : Env) (hwnd : Nat) (event : XEvent) (s : State) : State :=
  if env.desktop = none ∨ env.desktop = some hwnd then
    { s with desktopX := event.x, desktopY := event.y }
  else
    match s.wnd hwnd with
    | none => s
    | some w =>
      if w.flags &&& env.WIN_MANAGED = 0 then s
      else if ¬ env.segptrAlloc then s
      else
        let winpos := EVENT_ConfigureNotify.winpos hwnd event w
        -- Send WM_WINDOWPOSCHANGING
        let s1 := s.emit (.SendMessage16 hwnd WM_WINDOWPOSCHANGING 0 (some winpos))
        let winpos1 := env.afterPosChanging winpos
        -- Calculate new position and size
        let newWindowRect : RECT :=
          { left := toINT16 event.x, right := toINT16 (event.x + event.width),
            top := toINT16 event.y, bottom := toINT16 (event.y + event.height) }
        let s2 := s1.emit
          (.WINPOS_SendNCCalcSize winpos1.hwnd newWindowRect w.rectWindow w.rectClient)
        let newClientRect :=
          env.WINPOS_SendNCCalcSize winpos1.hwnd newWindowRect w.rectWindow w.rectClient winpos1
        let hrgnNewPos := Rgn.rect newWindowRect
        let hrgnOldPos := Rgn.diff (Rgn.rect w.rectWindow) hrgnNewPos
        -- Set new size and position
        let s3 : State :=
          { s2 with
            wnd := Function.update s2.wnd hwnd
              (some { w with rectWindow := newWindowRect, rectClient := newClientRect }) }
        let s4 := s3.emit (.SendMessage16 hwnd WM_WINDOWPOSCHANGED 0 (some winpos1))
        let s5 := s4.emit (.PAINT_RedrawWindow 0 none (some hrgnOldPos)
          (RDW_INVALIDATE ||| RDW_ALLCHILDREN ||| RDW_ERASE ||| RDW_ERASENOW) env.RDW_C_USEHRGN)
        (s5.emit (.DeleteObject hrgnOldPos)).emit (.DeleteObject hrgnNewPos)

/-- `EVENT_SelectionRequest`.  When `CLIPBOARD_IsPresent (CF_TEXT)` holds,
`GetClipboardData (CF_TEXT)` is taken to deliver the text. -/
def EVENT_SelectionRequest (env : Env) (hwnd : Nat) (event : XEvent) (s : State) : State :=
  let request := event.requestor
  let r : Nat × State :=
    if event.target = XA_STRING then
      let rprop0 := event.property
      let rprop1 := if rprop0 = None then event.target else rprop0
      if event.selection ≠ XA_PRIMARY then (None, s)
      else if ¬ env.clipboardHasText then (None, s)
      else
        let s1 := s.emit (.OpenClipboard hwnd)
        let s2 := s1.emit (.XChangeProperty request rprop1 XA_STRING 8 PropModeReplace
          env.clipboardText)
        (rprop1, if env.clipboardOpens then s2.emit .CloseClipboard else s2)
    else (None, s)
  let result : XEvent :=
    { type := SelectionNotify, window := request, requestor := request,
      selection := event.selection, property := r.1, target := event.target,
      time := event.time }
  r.2.emit (.XSendEvent event.requestor result)

/-- `EVENT_SelectionNotify`. -/
def EVENT_SelectionNotify (event : XEvent) (s : State) : State :=
  if event.selection ≠ XA_PRIMARY then s
  else
    let s1 := if event.target ≠ XA_STRING then s.emit (.CLIPBOARD_ReadSelection 0 None) else s
    s1.emit (.CLIPBOARD_ReadSelection event.requestor event.property)

/-- `EVENT_SelectionClear`. -/
def EVENT_SelectionClear (hwnd : Nat) (event : XEvent) (s : State) : State :=
  if event.selection ≠ XA_PRIMARY then s
  else s.emit (.CLIPBOARD_ReleaseSelection hwnd)

/-- `EVENT_ClientMessage`. -/
def EVENT_ClientMessage (env : Env) (hwnd : Nat) (event : XEvent) (s : State) : State :=
  if event.format ≠ 32 ∨ event.message_type ≠ env.wmProtocols ∨
      event.data_l0 ≠ env.wmDeleteWindow then s
  else s.emit (.SendMessage16 hwnd WM_SYSCOMMAND SC_CLOSE none)

/-- `EVENT_MapNotify`. -/
def EVENT_MapNotify (env : Env) (hWnd : Nat) (s : State) : State :=
  let hwndFocus := env.GetFocus32 s.out
  if hwndFocus ≠ 0 ∧ env.IsChild s.out hWnd hwndFocus then s.emit (.FOCUS_SetXFocus hwndFocus)
  else s

/-! ## Event dispatcher and wait loop -/

/-- Xlib's `XCheckTypedWindowEvent (display, w, type, &event)`: the first queued
event for window `w` of type `type` is removed from the queue and returned;
`none` (False) when no queued event matches. -/
def XCheckTypedWindowEvent (w type : Nat) : List XEvent → Option (XEvent × List XEvent)
  | [] => none
  | e :: q =>
    if e.window = w ∧ e.type = type then some (e, q)
    else
      match XCheckTypedWindowEvent w type q with
      | none => none
      | some (found, rest) => some (found, e :: rest)

/-- The loop `while (XCheckTypedWindowEvent (display, window, MotionNotify, event));`
of `EVENT_ProcessEvent`: each successful check overwrites `event`.  The first
argument bounds the number of iterations; the queue length always suffices. -/
def EVENT_ProcessEvent.motionLoop : Nat → Nat → XEvent → List XEvent → XEvent × List XEvent
  | 0, _, event, q => (event, q)
  | n + 1, w, event, q =>
    match XCheckTypedWindowEvent w MotionNotify q with
    | none => (event, q)
    | some (found, rest) => EVENT_ProcessEvent.motionLoop n w found rest

/-- `EVENT_ProcessEvent`: process an X event. -/
def EVENT_ProcessEvent (env : Env) (event : XEvent) (s : State) : State :=
  match s.winContext event.window with
  | none => s                       -- Not for a registered window
  | some hwndSelf =>
    if event.type = KeyPress ∨ event.type = KeyRelease then
      if env.journalHook = 0 then EVENT_key env event s else s
    else if event.type = ButtonPress then
      if env.journalHook = 0 then EVENT_ButtonPress env event s else s
    else if event.type = ButtonRelease then
      if env.journalHook = 0 then EVENT_ButtonRelease env event s else s
    else if event.type = MotionNotify then
      if env.journalHook = 0 then
        let r := EVENT_ProcessEvent.motionLoop s.queue.length event.window event s.queue
        EVENT_MotionNotify env r.1 { s with queue := r.2 }
      else s
    else if event.type = FocusIn then EVENT_FocusIn env hwndSelf event s
    else if event.type = FocusOut then EVENT_FocusOut env hwndSelf event s
    else if event.type = Expose then EVENT_Expose hwndSelf event s
    else if event.type = GraphicsExpose then EVENT_GraphicsExpose hwndSelf event s
    else if event.type = ConfigureNotify then EVENT_ConfigureNotify env hwndSelf event s
    else if event.type = SelectionRequest then EVENT_SelectionRequest env hwndSelf event s
    else if event.type = SelectionNotify then EVENT_SelectionNotify event s
    else if event.type = SelectionClear then EVENT_SelectionClear hwndSelf event s
    else if event.type = ClientMessage then EVENT_ClientMessage env hwndSelf event s
    else if event.type = MapNotify then EVENT_MapNotify env hwndSelf s
    else s                          -- NoExpose, the structure notifications, default

/-- `EVENT_RegisterWindow`: associate an X window to a window record. -/
def EVENT_RegisterWindow (hwnd : Nat) (s : State) : State :=
  match s.wnd hwnd with
  | none => s
  | some w => { s with winContext := Function.update s.winContext w.window (some hwnd) }

/-- The loop `do { XNextEvent (display, &event); EVENT_ProcessEvent (&event); }
while (XPending (display));` of `EVENT_WaitXEvent`.  `XNextEvent` takes the oldest
queued event and blocks while the queue is empty: the result is then `none`, as it
is when the iteration bound `fuel` is used up. -/
def EVENT_WaitXEvent.drain (env : Env) : Nat → State → Option State
  | 0, _ => none
  | fuel + 1, s =>
    match s.queue with
    | [] => none
    | event :: rest =>
      let s1 := EVENT_ProcessEvent env event { s with queue := rest }
      if s1.queue.isEmpty then some s1 else EVENT_WaitXEvent.drain env fuel s1

/-- `EVENT_WaitXEvent` (the build without `CONFIG_IPC`): wait for an X event,
optionally sleeping until one arrives.  `XPending` is the length of the queue. -/
def EVENT_WaitXEvent (env : Env) (fuel : Nat) (sleep : Bool) (s : State) :
    Option (Bool × State) :=
  if s.queue.isEmpty then
    let maxWait : Int := if sleep then env.TIMER_GetNextExpiration else 0
    let tv_usec := (maxWait.tmod 1000) * 1000
    let tv_sec := maxWait.tdiv 1000
    let s1 := s.emit (.select tv_sec tv_usec)
    match env.selectResult with
    | .ready arrived =>
      (EVENT_WaitXEvent.drain env fuel { s1 with queue := s1.queue ++ arrived }).map
        (fun s2 => (true, s2))
    | _ =>
      -- Timeout or error
      some (false, s1.emit .TIMER_ExpireTimers)
  else
    (EVENT_WaitXEvent.drain env fuel s).map (fun s2 => (true, s2))

/-- The loop of `EVENT_Synchronize`: `while (XPending (display)) { XNextEvent;
EVENT_ProcessEvent }`. -/
def EVENT_Synchronize.drain (env : Env) : Nat → State → Option State
  | 0, _ => none
  | fuel + 1, s =>
    match s.queue with
    | [] => some s
    | event :: rest =>
      EVENT_Synchronize.drain env fuel (EVENT_ProcessEvent env event { s with queue := rest })

/-- `EVENT_Synchronize`: synchronize with the X server. -/
def EVENT_Synchronize (env : Env) (fuel : Nat) (s : State) : Option State :=
  let s1 := s.emit .XSync
  EVENT_Synchronize.drain env fuel { s1 with queue := s1.queue ++ env.syncArrivals }

/-! ## Capture and hardware input -/

/-- `ReleaseCapture`. -/
def ReleaseCapture (s : State) : State :=
  if s.captureWnd = 0 then s
  else { s.emit .XUngrabPointer with captureWnd := 0 }

/-- `SetCapture`: the returned handle and the state left behind. -/
def SetCapture (env : Env) (hwnd : Nat) (s : State) : Nat × State :=
  let old_capture_wnd := s.captureWnd
  if hwnd = 0 then (old_capture_wnd, ReleaseCapture s)
  else
    let win := env.WIN_GetXWindow hwnd
    if win = 0 then (0, s)
    else
      let s1 := s.emit (.XGrabPointer win)
      if env.grabSucceeds win then (old_capture_wnd, { s1 with captureWnd := hwnd })
      else (0, s1)

/-- `GetCapture`. -/
def GetCapture (s : State) : Nat := s.captureWnd

/-- `EnableHardwareInput`: the returned value and the state left behind. -/
def EnableHardwareInput (bEnable : Bool) (s : State) : Bool × State :=
  let bOldState := s.InputEnabled
  (bOldState && !bEnable, { s with InputEnabled := bEnable })

/-! ## Sample data -/

/-- A small keyboard mapping for examples: key codes 38 and 56 are the letters
`a` and `b`, 10 is the digit `1`, 36 is Return, 64 is Alt_L, 67 is F1, 87 is KP_1 and
94 gives the character `0xA7`, which `EVENT_key` has no virtual key for. -/
def sampleLookup (e : XEvent) : Lookup :=
  if e.keycode = 38 then { ascii_chars := 1, Str0 := 0x61, keysym := 0x61 }
  else if e.keycode = 56 then { ascii_chars := 1, Str0 := 0x62, keysym := 0x62 }
  else if e.keycode = 10 then { ascii_chars := 1, Str0 := 0x31, keysym := 0x31 }
  else if e.keycode = 36 then { ascii_chars := 1, Str0 := 0x0D, keysym := 0xFF0D }
  else if e.keycode = 64 then { ascii_chars := 0, Str0 := 0, keysym := 0xFFE9 }
  else if e.keycode = 67 then { ascii_chars := 0, Str0 := 0, keysym := 0xFFBE }
  else if e.keycode = 87 then { ascii_chars := 1, Str0 := 0x31, keysym := 0xFFB1 }
  else if e.keycode = 94 then { ascii_chars := 1, Str0 := -89, keysym := 0xA7 }
  else { ascii_chars := 0, Str0 := 0, keysym := 0 }

/-- An environment for examples: no hook is installed, `select` times out. -/
def sampleEnv : Env :=
  { XLookupString := sampleLookup
    journalHook := 0
    keylpPad := 0
    MSG_WineStartTicks := 0
    TIMER_GetNextExpiration := 0
    selectResult := .timeout
    syncArrivals := []
    desktop := none
    GetActiveWindow := fun _ => 0
    GetFocus32 := fun _ => 0
    IsChild := fun _ _ _ => false
    WIN_MANAGED := 0
    RDW_C_USEHRGN := 0
    segptrAlloc := true
    afterPosChanging := fun p => p
    WINPOS_SendNCCalcSize := fun _ r _ _ _ => r
    clipboardHasText := false
    clipboardOpens := true
    clipboardText := []
    wmProtocols := 0
    wmDeleteWindow := 0
    WIN_GetXWindow := fun h => h
    grabSucceeds := fun _ => true }

/-- The state at start-up: all tables zero, `KeyDown` FALSE, `InputEnabled` TRUE,
no capture, every X window with number below 100 registered under its own number. -/
def sampleState : State :=
  { KeyStateTable := fun _ => 0
    AsyncKeyStateTable := fun _ => 0
    MouseButtonsStates := fun _ => 0
    AsyncMouseButtonsStates := fun _ => 0
    KeyDown := false
    lastEventChar := 0
    captureWnd := 0
    InputEnabled := true
    desktopX := 0
    desktopY := 0
    winContext := fun w => if w < 100 then some w else none
    wnd := fun _ => none
    queue := []
    out := [] }

/-- Sample key events on window 1: a press and a release of the letter `a`, a
press of the letter `b`. -/
def pressA : XEvent := { type := KeyPress, window := 1, keycode := 38 }
def releaseA : XEvent := { type := KeyRelease, window := 1, keycode := 38 }
def pressB : XEvent := { type := KeyPress, window := 1, keycode := 56 }

/-! ## Auxiliary definitions for the statements -/

/-- The state in which `EVENT_key` reaches its press/release branch: the debugger
call and the unknown-key report only extend the trace. -/
def EVENT_key.entry (env : Env) (event : XEvent) (s : State) : State :=
  let lk := env.XLookupString event
  let s0 :=
    if lk.keysym = XK_Return ∧ event.type = KeyPress ∧
        event.state &&& ControlMask ≠ 0 ∧ event.state &&& Mod1Mask ≠ 0 then
      s.emit .DEBUG_EnterDebugger
    else s
  if (EVENT_key.translate (HIBYTE (LOWORD lk.keysym)) (LOBYTE (LOWORD lk.keysym))).reported then
    s0.emit .unknownKeyReport
  else s0

/-- Whether a collaborator call is a `hardware_event`, i.e. a message handed to
the message queue. -/
def Effect.isMessage : Effect → Bool
  | .hardware_event .. => true
  | _ => false

/-- The messages handed to the message queue so far, oldest first. -/
def State.messages (s : State) : List Effect := s.out.filter Effect.isMessage

/-- The `lParam` of a `hardware_event` call (0 for any other call). -/
def Effect.lParam : Effect → Nat
  | .hardware_event _ _ lParam _ _ _ _ => lParam
  | _ => 0

/-- Handle a list of key events in order. -/
def EVENT_key.run (env : Env) (events : List XEvent) (s : State) : State :=
  events.foldl (fun st e => EVENT_key env e st) s

/-- The shifted digits as the specification lists them: the character and the
digit whose code it is given. -/
def spec_shiftedDigits : List (Nat × Nat) :=
  [ (0x21, 0x31),   -- exclamation mark, 1
    (0x40, 0x32),   -- at sign, 2
    (0x23, 0x33),   -- number sign, 3
    (0x24, 0x34),   -- dollar, 4
    (0x25, 0x35),   -- percent, 5
    (0x5E, 0x36),   -- circumflex, 6
    (0x26, 0x37),   -- ampersand, 7
    (0x2A, 0x38),   -- asterisk, 8
    (0x28, 0x39),   -- left parenthesis, 9
    (0x29, 0x30) ]  -- right parenthesis, 0

/-- The symbol pairs as the specification lists them: both members of the pair
and the code they share. -/
def spec_symbolPairs : List (Nat × Nat × Nat) :=
  [ (0x60, 0x7E, 0xC0),   -- grave accent, tilde
    (0x2D, 0x5F, 0xBD),   -- minus, underscore
    (0x3D, 0x2B, 0xBB),   -- equals, plus
    (0x5B, 0x7B, 0xDB),   -- left bracket, left brace
    (0x5D, 0x7D, 0xDD),   -- right bracket, right brace
    (0x3B, 0x3A, 0xBA),   -- semicolon, colon
    (0x27, 0x22, 0xDE),   -- apostrophe, double quote
    (0x2C, 0x3C, 0xBC),   -- comma, less-than
    (0x2E, 0x3E, 0xBE),   -- full stop, greater-than
    (0x2F, 0x3F, 0xBF),   -- slash, question mark
    (0x5C, 0x7C, 0xDC) ]  -- backslash, vertical bar

/-- The virtual key of a character-class key symbol with low byte `k`, in the
words of the specification: the upper-case ASCII code of a letter or digit, a
white-space character itself, the digit of a shifted digit, the shared code of a
symbol pair, and 0 for every other `k`. -/
def spec_characterVkey (k : Nat) : Nat :=
  if 0x61 ≤ k ∧ k ≤ 0x7A then k - 0x20                       -- lower-case letter
  else if (0x41 ≤ k ∧ k ≤ 0x5A) ∨ (0x30 ≤ k ∧ k ≤ 0x39) then k   -- upper-case letter, digit
  else if k ∈ [0x20, 0x09, 0x0A, 0x0B, 0x0C, 0x0D] then k        -- white space
  else
    match spec_shiftedDigits.find? (fun p => p.1 = k) with
    | some p => p.2
    | none =>
      match spec_symbolPairs.find? (fun p => p.1 = k ∨ p.2.1 = k) with
      | some p => p.2.2
      | none => 0

/-- Whether the low byte of a function-class key symbol lies in none of the six
sub-ranges of `EVENT_key` and is not 0xFF (Delete). -/
def spec_outsideSubranges (kk : Nat) : Prop :=
  ¬ (0x08 ≤ kk ∧ kk ≤ 0x1B) ∧ ¬ (0x50 ≤ kk ∧ kk ≤ 0x57) ∧ ¬ (0x60 ≤ kk ∧ kk ≤ 0x6B) ∧
  ¬ (0x7E ≤ kk ∧ kk ≤ 0xB9) ∧ ¬ (0xBE ≤ kk ∧ kk ≤ 0xCD) ∧ ¬ (0xE1 ≤ kk ∧ kk ≤ 0xEA) ∧
  kk ≠ 0xFF

instance (kk : Nat) : Decidable (spec_outsideSubranges kk) := by
  unfold spec_outsideSubranges
  infer_instance

/-- A key press whose key code the sample mapping turns into the character 0xA7,
for which `EVENT_key` has no virtual key. -/
def pressSection : XEvent := { type := KeyPress, window := 1, keycode := 94 }

/-- Whether an event is an event of type `type` for window `w`: the test of
`XCheckTypedWindowEvent`. -/
def XEvent.isTyped (w type : Nat) (e : XEvent) : Bool := e.window = w && e.type = type

/-- The queued `MotionNotify` events for window `w`, oldest first. -/
def motionsFor (w : Nat) (q : List XEvent) : List XEvent := q.filter (XEvent.isTyped w MotionNotify)

/-- The queue without its `MotionNotify` events for window `w`. -/
def withoutMotionsFor (w : Nat) (q : List XEvent) : List XEvent :=
  q.filter (fun e => !XEvent.isTyped w MotionNotify e)

/-- Sample motion events for window 1, at different pointer positions. -/
def motion1 : XEvent := { type := MotionNotify, window := 1, x_root := 10, y_root := 10 }
def motion2 : XEvent := { type := MotionNotify, window := 1, x_root := 20, y_root := 15 }
def motion3 : XEvent := { type := MotionNotify, window := 1, x_root := 30, y_root := 25 }

/-- A state extends another one when its trace continues the other's trace
without a call of `TIMER_ExpireTimers`. -/
def State.Extends (s s1 : State) : Prop :=
  ∃ l, s1.out = s.out ++ l ∧ Effect.TIMER_ExpireTimers ∉ l

/-- Pass the events of a list to `EVENT_ProcessEvent` one after the other, oldest
first, each with the later ones still queued. -/
def dispatchInOrder (env : Env) : List XEvent → State → State
  | [], s => s
  | event :: rest, s => dispatchInOrder env rest (EVENT_ProcessEvent env event { s with queue := rest })

/-- Sample button events on window 1: a press and a release of button 2 with the
shift key held. -/
def pressButton2 : XEvent :=
  { type := ButtonPress, window := 1, button := 2, state := 0x01, x_root := 40, y_root := 30 }
def releaseButton2 : XEvent :=
  { type := ButtonRelease, window := 1, button := 2, state := 0x201, x_root := 41, y_root := 30 }

/-- The key state `EVENT_XStateToKeyState` builds, as a function of the five
tests it makes (button 1, button 2, button 3, shift, control). -/
def keyStateOfTests (b1 b2 b3 sh ct : Bool) : Nat :=
  ((((((0 ||| (if b1 then MK_LBUTTON else 0)) ||| (if b2 then MK_MBUTTON else 0)) |||
    (if b3 then MK_RBUTTON else 0)) ||| (if sh then MK_SHIFT else 0)) |||
    (if ct then MK_CONTROL else 0))) % 65536

/-- An environment for the capture examples: window 8 has no X window, and the
pointer grab is denied on the X window of window 9. -/
def captureEnv : Env :=
  { sampleEnv with
    WIN_GetXWindow := fun h => if h = 8 then 0 else h
    grabSucceeds := fun win => decide (win ≠ 9) }

/-- An environment whose clipboard holds the text `hello`. -/
def clipboardEnv : Env :=
  { sampleEnv with
    clipboardHasText := true
    clipboardText := [0x68, 0x65, 0x6C, 0x6C, 0x6F] }

/-- Sample selection requests from requestor window 9 for the primary selection
as plain text: one naming property 77, one naming no property. -/
def requestText : XEvent :=
  { type := SelectionRequest, window := 1, requestor := 9, selection := XA_PRIMARY,
    target := XA_STRING, property := 77, time := 1000 }
def requestTextNoProperty : XEvent :=
  { type := SelectionRequest, window := 1, requestor := 9, selection := XA_PRIMARY,
    target := XA_STRING, property := None, time := 1000 }

/-- The selection-notify reply `EVENT_SelectionRequest` builds for a request, with
a given property. -/
def selectionReply (event : XEvent) (rprop : Nat) : XEvent :=
  { type := SelectionNotify, window := event.requestor, requestor := event.requestor,
    selection := event.selection, property := rprop, target := event.target,
    time := event.time }

/-- Whether a collaborator call is an `XSendEvent`. -/
def Effect.isXSendEvent : Effect → Bool
  | .XSendEvent .. => true
  | _ => false

/-- Whether a collaborator call is an `XChangeProperty`. -/
def Effect.isXChangeProperty : Effect → Bool
  | .XChangeProperty .. => true
  | _ => false

/-- Whether a value fits a signed 16-bit field (`INT16`). -/
def fitsINT16 (v : Int) : Prop := -32768 ≤ v ∧ v ≤ 32767

instance (v : Int) : Decidable (fitsINT16 v) := by
  unfold fitsINT16
  infer_instance

/-- An environment with a desktop window (handle 50) in which bit 0x80 of the
window flags stands for `WIN_MANAGED`. -/
def managedEnv : Env := { sampleEnv with desktop := some 50, WIN_MANAGED := 0x80 }

/-- The same environment with `SEGPTR_NEW` failing. -/
def managedEnvNoMemory : Env := { managedEnv with segptrAlloc := false }

/-- A state with one managed top-level window, handle 7, at (10, 20) with size
100 by 60, and one window that is not managed, handle 6. -/
def managedState : State :=
  { sampleState with
    wnd := fun h =>
      if h = 7 then
        some { window := 7, rectWindow := { left := 10, top := 20, right := 110, bottom := 80 },
               rectClient := { left := 12, top := 40, right := 108, bottom := 78 },
               flags := 0x80 }
      else if h = 6 then
        some { window := 6, rectWindow := { left := 0, top := 0, right := 50, bottom := 50 },
               rectClient := { left := 0, top := 0, right := 50, bottom := 50 },
               flags := 0 }
      else none }

/-- Sample configure notifications: window 7 moved to (30, 20) with its size
kept, and a notification with a width of 40000. -/
def configureMove : XEvent :=
  { type := ConfigureNotify, window := 7, x := 30, y := 20, width := 100, height := 60 }
def configureWide : XEvent :=
  { type := ConfigureNotify, window := 7, x := 30, y := 20, width := 40000, height := 60 }

/-- A keyboard mapping for examples that extends the sample mapping: key code 136
is the Cancel key (`XK_Cancel`, 0xFF69), key code 146 is the Help key (`XK_Help`,
0xFF6A). -/
def miscKeyEnv : Env :=
  { sampleEnv with
    XLookupString := fun e =>
      if e.keycode = 136 then { ascii_chars := 0, Str0 := 0, keysym := 0xFF69 }
      else if e.keycode = 146 then { ascii_chars := 0, Str0 := 0, keysym := 0xFF6A }
      else sampleLookup e }

/-- Presses of the Cancel key and of the Help key on window 1. -/
def pressCancel : XEvent := { type := KeyPress, window := 1, keycode := 136 }
def pressHelp : XEvent := { type := KeyPress, window := 1, keycode := 146 }

/-! ## The desktop window (`controls/desktop.c`)

The functions of `desktop.c` are embedded in the same style as those of `event.c`:
the `DESKTOP` record in the window's extra bytes and the desktop window's
`hrgnUpdate` are the fields of `DesktopState`, calls into GDI and the file API are
appended to the trace `DesktopState.calls`, and what those collaborators answer is
read from `DesktopEnv`.  Heap bookkeeping (`HeapAlloc`, `HeapFree`) is not traced;
whether an allocation succeeds is read from the environment.  `WIN_GetDesktop` and
`WIN_FindWndPtr` are taken to return the desktop window's record.  The loop
counters `x` and `y` of the tiling loops are `INT32`: `x += cx` and `y += cy` wrap
(`toINT32`).  The centring offsets are computed in `Int`: for a client rectangle
and a bitmap size with extents from 0 to 2147483647 the sums stay within `INT32`
(`centre_fits`). -/

/-- The raster operation `SRCCOPY` and the system colour index `COLOR_BACKGROUND`
(`windows.h`). -/
def SRCCOPY : Nat := 0xCC0020
def COLOR_BACKGROUND : Nat := 1

/-- A `SIZE32`. -/
structure SIZE where
  cx : Int
  cy : Int
deriving DecidableEq, Repr

/-- The `DESKTOP` record (`desktop.h`), without the monitor pointer. -/
structure DESKTOP where
  hbrushPattern : Nat
  hbitmapWallPaper : Nat
  bitmapSize : SIZE
  fTileWallPaper : Int
deriving DecidableEq, Repr

/-- A call of `desktop.c` into GDI, USER or the file API, with its arguments.  A
file name is the list of its bytes; the bits handed to `CreateBitmap32` are the
eight pattern words. -/
inductive DesktopCall where
  | DeleteObject32 (handle : Nat)
  | SetBkColor32 (hdc color : Nat)
  | SetTextColor32 (hdc color : Nat)
  | FillRect32 (hdc : Nat) (rect : RECT) (hbrush : Nat)
  | CreateCompatibleDC32 (hdc : Nat)
  | SelectObject32 (hdc handle : Nat)
  | BitBlt32 (hdcDst : Nat) (xDst yDst width height : Int) (hdcSrc : Nat)
      (xSrc ySrc : Int) (rop : Nat)
  | DeleteDC32 (hdc : Nat)
  | GetDC32 (hwnd : Nat)
  | ReleaseDC32 (hwnd hdc : Nat)
  | lopen32 (path : List Nat)
  | lclose32 (file : Nat)
  | CreateDIBitmap32 (hdc file : Nat)
  | CreateBitmap32 (width height planes bpp : Nat) (bits : List Nat)
  | CreatePatternBrush32 (hbitmap : Nat)
  | CreateSolidBrush32 (color : Nat)
deriving DecidableEq, Repr

/-- What the collaborators of `desktop.c` answer. -/
structure DesktopEnv where
  /-- the width and height of a window's client area -/
  clientArea : Nat → SIZE
  GetSysColor32 : Nat → Nat
  /-- the handles the GDI constructors return -/
  CreateCompatibleDC32 : Nat → Nat
  GetDC32 : Nat → Nat
  CreateBitmap32 : List Nat → Nat
  CreatePatternBrush32 : Nat → Nat
  CreateSolidBrush32 : Nat → Nat
  /-- `CreateDIBitmap32` on the contents read from a file; 0 when it fails -/
  CreateDIBitmap32 : Nat → Nat → Nat
  /-- `bmWidth` and `bmHeight` that `GetObject32A` stores for a bitmap -/
  bmWidth : Nat → Int
  bmHeight : Nat → Int
  /-- `_lopen32` of a path: the file handle, `none` for `HFILE_ERROR32` -/
  lopen32 : List Nat → Option Nat
  /-- the bytes of the Windows directory's name (`GetWindowsDirectory32A`) -/
  GetWindowsDirectory32A : List Nat
  /-- whether `HeapAlloc` of the buffer for the second path succeeds -/
  allocPath : Bool
  /-- whether `HeapAlloc` of the buffer for a file's contents succeeds -/
  allocFile : Nat → Bool
  /-- the `UINT32` byte count `_lread32` returns for a file -/
  lread32 : Nat → Nat
  /-- `bfType` and `bfSize` of the file header found in the buffer after the read -/
  bfType : Nat → Nat
  bfSize : Nat → Nat
  /-- the `[desktop]` entries of the profile, `none` when an entry is missing -/
  profilePattern : Option (List Nat)
  profileWallPaper : Option (List Nat)
  profileTileWallPaper : Option Int

/-- The rectangle `GetClientRect32( hwnd, &rect )` stores: client coordinates are
relative to the client area's own upper-left corner, so the rectangle is
`(0, 0, width, height)`. -/
def DesktopEnv.GetClientRect32 (env : DesktopEnv) (hwnd : Nat) : RECT :=
  { left := 0, top := 0, right := (env.clientArea hwnd).cx, bottom := (env.clientArea hwnd).cy }

/-- The state `desktop.c` works on. -/
structure DesktopState where
  /-- the `DESKTOP` record in the desktop window's extra bytes -/
  desktop : DESKTOP
  /-- the desktop window's `hrgnUpdate` -/
  hrgnUpdate : Nat
  /-- the collaborator calls made so far, oldest first -/
  calls : List DesktopCall

/-- Record a collaborator call. -/
def DesktopState.call (s : DesktopState) (c : DesktopCall) : DesktopState :=
  { s with calls := s.calls ++ [c] }

/-- The bytes of a C string literal. -/
def cstr (s : String) : List Nat := s.toList.map Char.toNat

/-- `GetProfileString32A( "desktop", key, "(None)", buffer, size )`: the entry, or
the default when the entry is missing, cut to the buffer. -/
def GetProfileString32A (entry : Option (List Nat)) (size : Nat) : List Nat :=
  (entry.getD (cstr "(None)")).take (size - 1)

/-- The part of `DESKTOP_LoadBitmap` after the file is open: read it, check the
header, create the bitmap.
```c
    size = _llseek32( file, 0, 2 );
    if (!(buffer = HeapAlloc( GetProcessHeap(), 0, size )))
    { _lclose32( file ); return 0; }
    _llseek32( file, 0, 0 );
    size = _lread32( file, buffer, size );
    _lclose32( file );
    if ((fileHeader->bfType != 0x4d42) || (size < fileHeader->bfSize))
    { HeapFree( GetProcessHeap(), 0, buffer ); return 0; }
    hbitmap = CreateDIBitmap32( hdc, ... );
    return hbitmap;
```
`size` is a `LONG` and `bfSize` a `DWORD`, so the comparison is unsigned: it
compares the `UINT32` that `_lread32` returned. -/
def DESKTOP_LoadBitmap.read (env : DesktopEnv) (hdc file : Nat) (s : DesktopState) :
    Nat × DesktopState :=
  if env.allocFile file = false then (0, s.call (.lclose32 file))
  else
    let size := env.lread32 file
    let s1 := s.call (.lclose32 file)
    if env.bfType file ≠ 0x4d42 ∨ size < env.bfSize file then (0, s1)
    else (env.CreateDIBitmap32 hdc file, s1.call (.CreateDIBitmap32 hdc file))

/-- The second path `DESKTOP_LoadBitmap` tries: the Windows directory, a
backslash, the file name. -/
def DESKTOP_LoadBitmap.path (env : DesktopEnv) (filename : List Nat) : List Nat :=
  env.GetWindowsDirectory32A ++ [0x5C] ++ filename

/-- `DESKTOP_LoadBitmap`: the handle of the bitmap loaded from the file, 0 on failure.
```c
    if ((file = _lopen32( filename, OF_READ )) == HFILE_ERROR32)
    {
        UINT32 len = GetWindowsDirectory32A( NULL, 0 );
        if (!(buffer = HeapAlloc( GetProcessHeap(), 0, len + strlen(filename) + 2 )))
            return 0;
        GetWindowsDirectory32A( buffer, len + 1 );
        strcat( buffer, "\\" );  strcat( buffer, filename );
        file = _lopen32( buffer, OF_READ );
        HeapFree( GetProcessHeap(), 0, buffer );
    }
    if (file == HFILE_ERROR32) return 0;
```
-/
def DESKTOP_LoadBitmap (env : DesktopEnv) (hdc : Nat) (filename : List Nat)
    (s : DesktopState) : Nat × DesktopState :=
  let s1 := s.call (.lopen32 filename)
  match env.lopen32 filename with
  | some file => DESKTOP_LoadBitmap.read env hdc file s1
  | none =>
    if env.allocPath = false then (0, s1)
    else
      let s2 := s1.call (.lopen32 (DESKTOP_LoadBitmap.path env filename))
      match env.lopen32 (DESKTOP_LoadBitmap.path env filename) with
      | none => (0, s2)
      | some file => DESKTOP_LoadBitmap.read env hdc file s2

/-- The first half of `DESKTOP_DoEraseBkgnd`: drop the update region and paint the
pattern where the wallpaper will not cover.
```c
    if (Wnd->hrgnUpdate > 1) DeleteObject32( Wnd->hrgnUpdate );
    Wnd->hrgnUpdate = 0;
    GetClientRect32( hwnd, &rect );
    if (!desktopPtr->hbitmapWallPaper ||
        (!desktopPtr->fTileWallPaper &&
         ((desktopPtr->bitmapSize.cx < rect.right) ||
          (desktopPtr->bitmapSize.cy < rect.bottom))))
    {
        SetBkColor32( hdc, RGB(0,0,0) );
        SetTextColor32( hdc, GetSysColor32(COLOR_BACKGROUND) );
        FillRect32( hdc, &rect, desktopPtr->hbrushPattern );
    }
```
-/
def DESKTOP_DoEraseBkgnd.pattern (env : DesktopEnv) (hwnd hdc : Nat) (s : DesktopState) :
    DesktopState :=
  let s1 := if s.hrgnUpdate > 1 then s.call (.DeleteObject32 s.hrgnUpdate) else s
  let s2 : DesktopState := { s1 with hrgnUpdate := 0 }
  let rect := env.GetClientRect32 hwnd
  if s.desktop.hbitmapWallPaper = 0 ∨
      (s.desktop.fTileWallPaper = 0 ∧
        (s.desktop.bitmapSize.cx < rect.right ∨ s.desktop.bitmapSize.cy < rect.bottom)) then
    ((s2.call (.SetBkColor32 hdc 0)).call
      (.SetTextColor32 hdc (env.GetSysColor32 COLOR_BACKGROUND))).call
      (.FillRect32 hdc rect s.desktop.hbrushPattern)
  else s2

/-- The inner tiling loop, from column `x` on; `none` when the fuel runs out.  The
counter `x` is an `INT32`, so `x += cx` is `toINT32 (x + cx)`.
```c
    for (x = 0; x < rect.right; x += desktopPtr->bitmapSize.cx)
        BitBlt32( hdc, x, y, desktopPtr->bitmapSize.cx,
                  desktopPtr->bitmapSize.cy, hMemDC, 0, 0, SRCCOPY );
```
-/
def DESKTOP_DoEraseBkgnd.rowLoop (hdc hMemDC : Nat) (size : SIZE) (right y : Int) :
    Nat → Int → Option (List DesktopCall)
  | 0, x => if x < right then none else some []
  | fuel + 1, x =>
    if x < right then
      (DESKTOP_DoEraseBkgnd.rowLoop hdc hMemDC size right y fuel (toINT32 (x + size.cx))).map
        (fun l => .BitBlt32 hdc x y size.cx size.cy hMemDC 0 0 SRCCOPY :: l)
    else some []

/-- The outer tiling loop, from row `y` on; every row runs the inner loop with
`fuel0`.  The counter `y` is an `INT32`, so `y += cy` is `toINT32 (y + cy)`.
```c
    for (y = 0; y < rect.bottom; y += desktopPtr->bitmapSize.cy)
        for (x = 0; x < rect.right; x += desktopPtr->bitmapSize.cx) ...
```
-/
def DESKTOP_DoEraseBkgnd.tileLoop (hdc hMemDC : Nat) (size : SIZE) (right bottom : Int)
    (fuel0 : Nat) : Nat → Int → Option (List DesktopCall)
  | 0, y => if y < bottom then none else some []
  | fuel + 1, y =>
    if y < bottom then
      match DESKTOP_DoEraseBkgnd.rowLoop hdc hMemDC size right y fuel0 0,
          DESKTOP_DoEraseBkgnd.tileLoop hdc hMemDC size right bottom fuel0 fuel
            (toINT32 (y + size.cy)) with
      | some row, some rest => some (row ++ rest)
      | _, _ => none
    else some []

/-- `DESKTOP_DoEraseBkgnd`, the handler of `WM_ERASEBKGND`: the value returned and
the state after it, `none` when the tiling loops do not end within `fuel` rounds.
```c
    if (desktopPtr->hbitmapWallPaper)
    {
        INT32 x, y;
        HDC32 hMemDC = CreateCompatibleDC32( hdc );
        SelectObject32( hMemDC, desktopPtr->hbitmapWallPaper );
        if (desktopPtr->fTileWallPaper) { ... the tiling loops ... }
        else
        {
            x = (rect.left + rect.right - desktopPtr->bitmapSize.cx) / 2;
            y = (rect.top + rect.bottom - desktopPtr->bitmapSize.cy) / 2;
            if (x < 0) x = 0;
            if (y < 0) y = 0;
            BitBlt32( hdc, x, y, desktopPtr->bitmapSize.cx,
                      desktopPtr->bitmapSize.cy, hMemDC, 0, 0, SRCCOPY );
        }
        DeleteDC32( hMemDC );
    }
    return 1;
```
-/
def DESKTOP_DoEraseBkgnd (env : DesktopEnv) (fuel : Nat) (hwnd hdc : Nat)
    (s : DesktopState) : Option (Int × DesktopState) :=
  let s1 := DESKTOP_DoEraseBkgnd.pattern env hwnd hdc s
  let rect := env.GetClientRect32 hwnd
  let size := s.desktop.bitmapSize
  if s.desktop.hbitmapWallPaper ≠ 0 then
    let hMemDC := env.CreateCompatibleDC32 hdc
    let s2 := (s1.call (.CreateCompatibleDC32 hdc)).call
      (.SelectObject32 hMemDC s.desktop.hbitmapWallPaper)
    if s.desktop.fTileWallPaper ≠ 0 then
      match DESKTOP_DoEraseBkgnd.tileLoop hdc hMemDC size rect.right rect.bottom fuel fuel 0 with
      | none => none
      | some blits =>
        some (1, ({ s2 with calls := s2.calls ++ blits } : DesktopState).call (.DeleteDC32 hMemDC))
    else
      let x := (rect.left + rect.right - size.cx).tdiv 2
      let y := (rect.top + rect.bottom - size.cy).tdiv 2
      let x := if x < 0 then 0 else x
      let y := if y < 0 then 0 else y
      some (1, (s2.call (.BitBlt32 hdc x y size.cx size.cy hMemDC 0 0 SRCCOPY)).call
        (.DeleteDC32 hMemDC))
  else some (1, s1)

/-- The C library's `isdigit`. -/
def isdigit (c : Nat) : Bool := 0x30 ≤ c && c ≤ 0x39

/-- How one `%d` conversion of `sscanf` ends. -/
inductive Conversion where
  /-- the input ends before the number -/
  | inputFailure
  /-- the next character cannot start a number -/
  | matchingFailure
  /-- a number was read; `rest` is the input after it -/
  | value (v : Int) (rest : List Nat)
deriving DecidableEq, Repr

/-- The value of a run of decimal digits. -/
def sscanf.decimal (digits : List Nat) : Int :=
  digits.foldl (fun acc c => acc * 10 + Int.ofNat (c - 0x30)) 0

/-- One `%d` conversion of the C library's `sscanf` (ISO C, 7.19.6.2): white space
is skipped; an optional sign and a non-empty run of decimal digits are read.  The
input ending before any character of the number is an input failure; a character
that cannot start a number, or a sign that no digit follows, is a matching
failure.  A number outside the range of `int` is given its mathematical value. -/
def sscanf.d (s : List Nat) : Conversion :=
  match s.dropWhile isspace with
  | [] => .inputFailure
  | c :: rest =>
    let s2 := if c = 0x2D ∨ c = 0x2B then rest else c :: rest
    let digits := s2.takeWhile isdigit
    if digits.isEmpty then .matchingFailure
    else .value (if c = 0x2D then - sscanf.decimal digits else sscanf.decimal digits)
      (s2.drop digits.length)

/-- The conversions of `sscanf` still to do: the value `sscanf` returns and the
numbers it has stored, in order.  The white space of the format between two
conversions matches what the next `%d` skips anyway.  When the input ends before
the first conversion the value returned is `EOF`, which is -1. -/
def sscanf.conversions : Nat → List Nat → List Int → Int × List Int
  | 0, _, stored => (stored.length, stored)
  | n + 1, s, stored =>
    match sscanf.d s with
    | .inputFailure => (if stored.isEmpty then -1 else stored.length, stored)
    | .matchingFailure => (stored.length, stored)
    | .value v rest => sscanf.conversions n rest (stored ++ [v])

/-- The call `sscanf( pattern, " %d %d %d %d %d %d %d %d", &pat[0], ..., &pat[7] )`. -/
def sscanf (pattern : List Nat) : Int × List Int := sscanf.conversions 8 pattern []

/-- The condition `pattern && sscanf( pattern, " %d ...", &pat[0], ... )` of
`DESKTOP_SetPattern`: the numbers `sscanf` has stored when the condition holds,
`none` when it does not; `pattern` is `none` for a null pointer, for which `sscanf`
is not called. -/
def DESKTOP_SetPattern.scanned (pattern : Option (List Nat)) : Option (List Int) :=
  match pattern with
  | none => none
  | some text => if (sscanf text).1 ≠ 0 then some (sscanf text).2 else none

/-- The branch of `DESKTOP_SetPattern` that installs a pattern brush; `pat` is all
zero (`memset`) but for the numbers stored.
```c
	for (i = 0; i < 8; i++) pattern[i] = pat[i] & 0xffff;
	hbitmap = CreateBitmap32( 8, 8, 1, 1, (LPSTR)pattern );
	desktopPtr->hbrushPattern = CreatePatternBrush32( hbitmap );
	DeleteObject32( hbitmap );
```
-/
def DESKTOP_SetPattern.patternBrush (env : DesktopEnv) (stored : List Int)
    (s : DesktopState) : DesktopState :=
  let pat : List Int := (List.range 8).map (fun i => stored.getD i 0)
  let words : List Nat := pat.map (fun v => (v % 65536).toNat)
  let hbitmap := env.CreateBitmap32 words
  let s1 := s.call (.CreateBitmap32 8 8 1 1 words)
  let s2 := s1.call (.CreatePatternBrush32 hbitmap)
  let s3 : DesktopState :=
    { s2 with desktop := { s2.desktop with hbrushPattern := env.CreatePatternBrush32 hbitmap } }
  s3.call (.DeleteObject32 hbitmap)

/-- The branch of `DESKTOP_SetPattern` that installs a solid brush.
```c
    else desktopPtr->hbrushPattern = CreateSolidBrush32( GetSysColor32(COLOR_BACKGROUND) );
```
-/
def DESKTOP_SetPattern.solidBrush (env : DesktopEnv) (s : DesktopState) : DesktopState :=
  let color := env.GetSysColor32 COLOR_BACKGROUND
  let s1 := s.call (.CreateSolidBrush32 color)
  { s1 with desktop := { s1.desktop with hbrushPattern := env.CreateSolidBrush32 color } }

/-- `DESKTOP_SetPattern`; `pattern` is `none` for a null pointer.
```c
    if (desktopPtr->hbrushPattern) DeleteObject32( desktopPtr->hbrushPattern );
    memset( pat, 0, sizeof(pat) );
    if (pattern && sscanf( pattern, " %d %d %d %d %d %d %d %d",
			   &pat[0], &pat[1], &pat[2], &pat[3],
			   &pat[4], &pat[5], &pat[6], &pat[7] ))
    { ... the pattern brush ... }
    else desktopPtr->hbrushPattern = CreateSolidBrush32( GetSysColor32(COLOR_BACKGROUND) );
    return TRUE;
```
-/
def DESKTOP_SetPattern (env : DesktopEnv) (pattern : Option (List Nat)) (s : DesktopState) :
    Bool × DesktopState :=
  let s1 :=
    if s.desktop.hbrushPattern ≠ 0 then s.call (.DeleteObject32 s.desktop.hbrushPattern) else s
  match DESKTOP_SetPattern.scanned pattern with
  | some stored => (true, DESKTOP_SetPattern.patternBrush env stored s1)
  | none => (true, DESKTOP_SetPattern.solidBrush env s1)

/-- `SetDeskPattern`: set the pattern from the profile.
```c
    GetProfileString32A( "desktop", "Pattern", "(None)", buffer, 100 );
    return DESKTOP_SetPattern( buffer );
```
-/
def SetDeskPattern (env : DesktopEnv) (s : DesktopState) : Bool × DesktopState :=
  DESKTOP_SetPattern env (some (GetProfileString32A env.profilePattern 100)) s

/-- The file name `SetDeskWallPaper32` loads; `filename` is `none` for `(LPSTR)-1`.
```c
    if (filename == (LPSTR)-1)
    {
	GetProfileString32A( "desktop", "WallPaper", "(None)", buffer, 256 );
	filename = buffer;
    }
```
-/
def SetDeskWallPaper32.filename (env : DesktopEnv) (filename : Option (List Nat)) : List Nat :=
  match filename with
  | none => GetProfileString32A env.profileWallPaper 256
  | some name => name

/-- `SetDeskWallPaper32`.
```c
    hdc = GetDC32( 0 );
    hbitmap = DESKTOP_LoadBitmap( hdc, filename );
    ReleaseDC32( 0, hdc );
    if (desktopPtr->hbitmapWallPaper) DeleteObject32( desktopPtr->hbitmapWallPaper );
    desktopPtr->hbitmapWallPaper = hbitmap;
    desktopPtr->fTileWallPaper = GetProfileInt32A( "desktop", "TileWallPaper", 0 );
    if (hbitmap)
    {
	BITMAP32 bmp;
	GetObject32A( hbitmap, sizeof(bmp), &bmp );
	desktopPtr->bitmapSize.cx = (bmp.bmWidth != 0) ? bmp.bmWidth : 1;
	desktopPtr->bitmapSize.cy = (bmp.bmHeight != 0) ? bmp.bmHeight : 1;
    }
    return TRUE;
```
-/
def SetDeskWallPaper32 (env : DesktopEnv) (filename : Option (List Nat)) (s : DesktopState) :
    Bool × DesktopState :=
  let name := SetDeskWallPaper32.filename env filename
  let hdc := env.GetDC32 0
  let loaded := DESKTOP_LoadBitmap env hdc name (s.call (.GetDC32 0))
  let hbitmap := loaded.1
  let s1 := loaded.2.call (.ReleaseDC32 0 hdc)
  let s2 :=
    if s.desktop.hbitmapWallPaper ≠ 0 then s1.call (.DeleteObject32 s.desktop.hbitmapWallPaper)
    else s1
  let d1 : DESKTOP :=
    { s.desktop with
      hbitmapWallPaper := hbitmap
      fTileWallPaper := env.profileTileWallPaper.getD 0 }
  let d2 : DESKTOP :=
    if hbitmap ≠ 0 then
      { d1 with
        bitmapSize :=
          { cx := if env.bmWidth hbitmap ≠ 0 then env.bmWidth hbitmap else 1
            cy := if env.bmHeight hbitmap ≠ 0 then env.bmHeight hbitmap else 1 } }
    else d1
  (true, { s2 with desktop := d2 })

/-- The number of steps of size `b` needed to reach `a` from 0: `a / b` rounded up,
0 when `a` is not positive. -/
def ceilDiv (a b : Int) : Nat := ((a + b - 1) / b).toNat

/-- The blit of the wallpaper at column `i`, row `j` of the tiling. -/
def tileAt (hdc hMemDC : Nat) (size : SIZE) (i j : Nat) : DesktopCall :=
  .BitBlt32 hdc (i * size.cx) (j * size.cy) size.cx size.cy hMemDC 0 0 SRCCOPY

/-- The blits of a tiling with the given numbers of columns and rows, row by row
from the top and from left to right in each row. -/
def tiles (hdc hMemDC : Nat) (size : SIZE) (columns rows : Nat) : List DesktopCall :=
  (List.range rows).flatMap fun j => (List.range columns).map fun i => tileAt hdc hMemDC size i j

/-- Whether a call paints with `FillRect32`, blits with `BitBlt32`, or destroys an
object with `DeleteObject32`. -/
def DesktopCall.isFillRect32 : DesktopCall → Bool
  | .FillRect32 _ _ _ => true
  | _ => false

def DesktopCall.isBitBlt32 : DesktopCall → Bool
  | .BitBlt32 _ _ _ _ _ _ _ _ _ => true
  | _ => false

def DesktopCall.isDeleteObject32 : DesktopCall → Bool
  | .DeleteObject32 _ => true
  | _ => false

/-- A desktop environment for examples: a 640 by 480 client rectangle, the file
`wall.bmp` present with a sound header, a 300 by 200 bitmap in it, no `[desktop]`
entry in the profile. -/
def desktopEnv : DesktopEnv :=
  { clientArea := fun _ => { cx := 640, cy := 480 }
    GetSysColor32 := fun _ => 0x808000
    CreateCompatibleDC32 := fun _ => 74
    GetDC32 := fun _ => 75
    CreateBitmap32 := fun _ => 73
    CreatePatternBrush32 := fun _ => 72
    CreateSolidBrush32 := fun _ => 71
    CreateDIBitmap32 := fun _ _ => 76
    bmWidth := fun _ => 300
    bmHeight := fun _ => 200
    lopen32 := fun path => if path = cstr "wall.bmp" then some 3 else none
    GetWindowsDirectory32A := cstr "C:"
    allocPath := true
    allocFile := fun _ => true
    lread32 := fun _ => 1000
    bfType := fun _ => 0x4d42
    bfSize := fun _ => 1000
    profilePattern := none
    profileWallPaper := none
    profileTileWallPaper := none }

/-- The desktop after `WM_NCCREATE` with a solid brush installed: no wallpaper. -/
def desktopState : DesktopState :=
  { desktop :=
      { hbrushPattern := 71, hbitmapWallPaper := 0, bitmapSize := { cx := 0, cy := 0 },
        fTileWallPaper := 0 }
    hrgnUpdate := 0
    calls := [] }

/-- The desktop with the 300 by 200 wallpaper set, tiled and centred. -/
def tiledState : DesktopState :=
  { desktopState with
    desktop :=
      { hbrushPattern := 71, hbitmapWallPaper := 76, bitmapSize := { cx := 300, cy := 200 },
        fTileWallPaper := 1 } }

def centredState : DesktopState :=
  { desktopState with
    desktop :=
      { hbrushPattern := 71, hbitmapWallPaper := 76, bitmapSize := { cx := 300, cy := 200 },
        fTileWallPaper := 0 } }

/-- An environment whose client area is 1610612736 wide and 1 high. -/
def wideEnv : DesktopEnv :=
  { desktopEnv with clientArea := fun _ => { cx := 1610612736, cy := 1 } }

/-- The desktop with a wallpaper 1073741824 wide and 1 high, tiled. -/
def wideState : DesktopState :=
  { desktopState with
    desktop :=
      { hbrushPattern := 71, hbitmapWallPaper := 76,
        bitmapSize := { cx := 1073741824, cy := 1 }, fTileWallPaper := 1 } }

/-- The condition under which, in the words of the specification, the pattern is
not painted: a wallpaper bitmap is set, and tiling is enabled or the bitmap covers
the visible area. -/
def spec_wallpaperCovers (d : DESKTOP) (rect : RECT) : Prop :=
  d.hbitmapWallPaper ≠ 0 ∧
    (d.fTileWallPaper ≠ 0 ∨ (rect.right ≤ d.bitmapSize.cx ∧ rect.bottom ≤ d.bitmapSize.cy))

instance (d : DESKTOP) (rect : RECT) : Decidable (spec_wallpaperCovers d rect) := by
  unfold spec_wallpaperCovers
  infer_instance

/-- The causes of a failed bitmap load that the specification lists, for the file
name `name`: the file is missing under both paths; an allocation fails (of the
buffer for the second path, or of the buffer for the contents of the file that was
opened); the file that was opened has a bad signature; or its header declares more
bytes than were read. -/
def spec_loadFails (env : DesktopEnv) (name : List Nat) : Prop :=
  (env.lopen32 name = none ∧ env.lopen32 (DESKTOP_LoadBitmap.path env name) = none) ∨
  (env.lopen32 name = none ∧ env.allocPath = false) ∨
  ∃ file,
    (env.lopen32 name = some file ∨
      (env.lopen32 name = none ∧ env.allocPath = true ∧
        env.lopen32 (DESKTOP_LoadBitmap.path env name) = some file)) ∧
    (env.allocFile file = false ∨ env.bfType file ≠ 0x4d42 ∨
      env.lread32 file < env.bfSize file)

/-- Whether a call creates a brush. -/
def DesktopCall.isCreateSolidBrush32 : DesktopCall → Bool
  | .CreateSolidBrush32 _ => true
  | _ => false

def DesktopCall.isCreatePatternBrush32 : DesktopCall → Bool
  | .CreatePatternBrush32 _ => true
  | _ => false

/-- The sample environment with the profile entry `Pattern=` present and empty. -/
def emptyPatternEnv : DesktopEnv := { desktopEnv with profilePattern := some [] }

/-- A keyboard mapping for examples that extends the sample mapping: key code 150
gives the vendor-specific key symbol 0x1000FFA8, a key symbol above 0xFFFF whose
low word 0xFFA8 lies in the keypad range. -/
def vendorKeyEnv : Env :=
  { sampleEnv with
    XLookupString := fun e =>
      if e.keycode = 150 then { ascii_chars := 0, Str0 := 0, keysym := 0x1000FFA8 }
      else sampleLookup e }

/-- A press of the key with key code 150 on window 1. -/
def pressVendor : XEvent := { type := KeyPress, window := 1, keycode := 150 }

/-- What is still pending once `event` has been passed to `EVENT_ProcessEvent` with
`rest` queued behind it: `rest`, but without its motion events for the window of
`event` when `event` is a motion event that reaches `EVENT_MotionNotify` (its
window is registered and no journal playback hook is installed), which coalesces
them. -/
def spec_pendingAfter (env : Env) (s : State) (event : XEvent) (rest : List XEvent) :
    List XEvent :=
  if (s.winContext event.window).isSome ∧ event.type = MotionNotify ∧ env.journalHook = 0 then
    withoutMotionsFor event.window rest
  else rest

/-- One dispatch pass over the pending events, as the specification describes it:
the oldest pending event is passed to `EVENT_ProcessEvent` with the others queued
behind it, then the pass goes on with what is still pending.  The result is the
list of the events passed to `EVENT_ProcessEvent`, oldest first, and the state
after the pass.  The first argument bounds the number of dispatches; the number
of pending events always suffices. -/
def spec_dispatchPass (env : Env) : Nat → List XEvent → State → List XEvent × State
  | 0, _, s => ([], s)
  | _ + 1, [], s => ([], s)
  | n + 1, event :: rest, s =>
    let r := spec_dispatchPass env n (spec_pendingAfter env s event rest)
      (EVENT_ProcessEvent env event { s with queue := rest })
    (event :: r.1, r.2)

/-- A backlog for examples: a motion event followed by a press and a release of the
letter `a`. -/
def sampleBacklog : List XEvent := [motion1, pressA, releaseA]

/-- The message identifier of a `hardware_event` call, 0 for another call. -/
def Effect.msg : Effect → Nat
  | .hardware_event msg _ _ _ _ _ _ => msg
  | _ => 0

/-! # Theorems -/

/-! ## Lemmas on bytes and on the trace -/

set_option maxRecDepth 100000 in
theorem byte_press_down (b : BYTE) :
    ((if b &&& 0x80 = 0 then b ^^^ 0x01 else b) ||| 0x80) &&& 0x80 = 0x80 := by
  revert b; decide

set_option maxRecDepth 100000 in
theorem byte_press_toggle (b : BYTE) :
    (((if b &&& 0x80 = 0 then b ^^^ 0x01 else b) ||| 0x80) &&& 0x01 ≠ b &&& 0x01) ↔
      b &&& 0x80 = 0 := by
  revert b; decide

set_option maxRecDepth 100000 in
theorem byte_release_down (b : BYTE) : (b &&& 0x7F) &&& 0x80 = 0 := by
  revert b; decide

set_option maxRecDepth 100000 in
theorem byte_release_toggle (b : BYTE) : (b &&& 0x7F) &&& 0x01 = b &&& 0x01 := by
  revert b; decide

@[simp] theorem emit_KeyStateTable (s : State) (e : Effect) :
    (s.emit e).KeyStateTable = s.KeyStateTable := rfl

@[simp] theorem emit_KeyDown (s : State) (e : Effect) : (s.emit e).KeyDown = s.KeyDown := rfl

@[simp] theorem emit_desktopX (s : State) (e : Effect) : (s.emit e).desktopX = s.desktopX := rfl

@[simp] theorem emit_desktopY (s : State) (e : Effect) : (s.emit e).desktopY = s.desktopY := rfl

@[simp] theorem emit_queue (s : State) (e : Effect) : (s.emit e).queue = s.queue := rfl

@[simp] theorem emit_out (s : State) (e : Effect) : (s.emit e).out = s.out ++ [e] := rfl

theorem entry_KeyStateTable (env : Env) (event : XEvent) (s : State) :
    (EVENT_key.entry env event s).KeyStateTable = s.KeyStateTable := by
  unfold EVENT_key.entry
  simp only []
  split_ifs <;> rfl

theorem entry_KeyDown (env : Env) (event : XEvent) (s : State) :
    (EVENT_key.entry env event s).KeyDown = s.KeyDown := by
  unfold EVENT_key.entry
  simp only []
  split_ifs <;> rfl

theorem entry_desktop (env : Env) (event : XEvent) (s : State) :
    (EVENT_key.entry env event s).desktopX = s.desktopX ∧
      (EVENT_key.entry env event s).desktopY = s.desktopY := by
  unfold EVENT_key.entry
  simp only []
  split_ifs <;> exact ⟨rfl, rfl⟩

theorem EVENT_key_eq (env : Env) (event : XEvent) (s : State) :
    EVENT_key env event s =
      if event.type = KeyPress then
        EVENT_key.press env event (env.XLookupString event)
          (EVENT_key.translate (HIBYTE (LOWORD (env.XLookupString event).keysym))
            (LOBYTE (LOWORD (env.XLookupString event).keysym)))
          (EVENT_key.entry env event s)
      else
        EVENT_key.release env event
          (EVENT_key.translate (HIBYTE (LOWORD (env.XLookupString event).keysym))
            (LOBYTE (LOWORD (env.XLookupString event).keysym)))
          (EVENT_key.entry env event s) := rfl

/-- The key-state table a press leaves. -/
theorem press_KeyStateTable (env : Env) (event : XEvent) (lk : Lookup) (tr : Translation)
    (s : State) :
    (EVENT_key.press env event lk tr s).KeyStateTable =
      Function.update s.KeyStateTable tr.vkey
        ((if s.KeyStateTable tr.vkey &&& 0x80 = 0 then s.KeyStateTable tr.vkey ^^^ 0x01
          else s.KeyStateTable tr.vkey) ||| 0x80) := by
  unfold EVENT_key.press
  simp only []
  split_ifs <;> simp

/-- The key-state table a release leaves. -/
theorem release_KeyStateTable (env : Env) (event : XEvent) (tr : Translation) (s : State) :
    (EVENT_key.release env event tr s).KeyStateTable =
      Function.update s.KeyStateTable tr.vkey (s.KeyStateTable tr.vkey &&& 0x7F) := rfl

/-- **C1.** For every `KeyStateTable` state and every key event that `EVENT_key`
translates to virtual key `v`: a press sets the down-bit (0x80) of `v` and flips
its toggle-bit (0x01) exactly when the down-bit of `v` was clear before the event;
a release clears the down-bit of `v` and leaves its toggle-bit as it was; in both
cases every table entry other than `v` is unchanged. -/
theorem EVENT_key_updates_KeyStateTable (env : Env) (event : XEvent) (s : State) :
    (event.type = KeyPress →
      (EVENT_key env event s).KeyStateTable (EVENT_key.vkey (env.XLookupString event).keysym)
          &&& 0x80 = 0x80 ∧
      ((EVENT_key env event s).KeyStateTable (EVENT_key.vkey (env.XLookupString event).keysym)
          &&& 0x01 ≠
        s.KeyStateTable (EVENT_key.vkey (env.XLookupString event).keysym) &&& 0x01 ↔
        s.KeyStateTable (EVENT_key.vkey (env.XLookupString event).keysym) &&& 0x80 = 0)) ∧
    (event.type = KeyRelease →
      (EVENT_key env event s).KeyStateTable (EVENT_key.vkey (env.XLookupString event).keysym)
          &&& 0x80 = 0 ∧
      (EVENT_key env event s).KeyStateTable (EVENT_key.vkey (env.XLookupString event).keysym)
          &&& 0x01 =
        s.KeyStateTable (EVENT_key.vkey (env.XLookupString event).keysym) &&& 0x01) ∧
    (∀ i, i ≠ EVENT_key.vkey (env.XLookupString event).keysym →
      (EVENT_key env event s).KeyStateTable i = s.KeyStateTable i) := by
  rw [EVENT_key_eq]
  refine ⟨?_, ?_, ?_⟩
  · intro h
    rw [if_pos h, press_KeyStateTable, entry_KeyStateTable]
    simp only [EVENT_key.vkey, Function.update_same]
    exact ⟨byte_press_down _, byte_press_toggle _⟩
  · intro h
    have h2 : ¬ event.type = KeyPress := by rw [h]; decide
    rw [if_neg h2, release_KeyStateTable, entry_KeyStateTable]
    simp only [EVENT_key.vkey, Function.update_same]
    exact ⟨byte_release_down _, byte_release_toggle _⟩
  · intro i hi
    split_ifs
    · rw [press_KeyStateTable, entry_KeyStateTable]
      exact Function.update_noteq hi _ _
    · rw [release_KeyStateTable, entry_KeyStateTable]
      exact Function.update_noteq hi _ _

set_option maxRecDepth 100000 in
theorem byte_press_of_down (b : BYTE) (h : b &&& 0x80 ≠ 0) :
    (if b &&& 0x80 = 0 then b ^^^ 0x01 else b) ||| 0x80 = b := by
  revert b; decide

set_option maxRecDepth 100000 in
theorem byte_release_press_toggle (b : BYTE) :
    ((if (b &&& 0x7F) &&& 0x80 = 0 then (b &&& 0x7F) ^^^ 0x01 else b &&& 0x7F) ||| 0x80)
      &&& 0x01 ≠ b &&& 0x01 := by
  revert b; decide

/-- The table after a press of a key, whatever the event's other members are. -/
theorem EVENT_key_press_table (env : Env) (event : XEvent) (s : State)
    (h : event.type = KeyPress) :
    (EVENT_key env event s).KeyStateTable =
      Function.update s.KeyStateTable (EVENT_key.vkey (env.XLookupString event).keysym)
        ((if s.KeyStateTable (EVENT_key.vkey (env.XLookupString event).keysym) &&& 0x80 = 0 then
            s.KeyStateTable (EVENT_key.vkey (env.XLookupString event).keysym) ^^^ 0x01
          else s.KeyStateTable (EVENT_key.vkey (env.XLookupString event).keysym)) ||| 0x80) := by
  rw [EVENT_key_eq, if_pos h, press_KeyStateTable, entry_KeyStateTable]
  rfl

/-- The table after a release of a key. -/
theorem EVENT_key_release_table (env : Env) (event : XEvent) (s : State)
    (h : event.type = KeyRelease) :
    (EVENT_key env event s).KeyStateTable =
      Function.update s.KeyStateTable (EVENT_key.vkey (env.XLookupString event).keysym)
        (s.KeyStateTable (EVENT_key.vkey (env.XLookupString event).keysym) &&& 0x7F) := by
  have h2 : ¬ event.type = KeyPress := by rw [h]; decide
  rw [EVENT_key_eq, if_neg h2, release_KeyStateTable, entry_KeyStateTable]
  rfl

/-- The bits of the pressed key after a press. -/
theorem EVENT_key_press_bits (env : Env) (event : XEvent) (s : State)
    (h : event.type = KeyPress) :
    (EVENT_key env event s).KeyStateTable (EVENT_key.vkey (env.XLookupString event).keysym)
        &&& 0x80 = 0x80 ∧
    ((EVENT_key env event s).KeyStateTable (EVENT_key.vkey (env.XLookupString event).keysym)
        &&& 0x01 ≠
      s.KeyStateTable (EVENT_key.vkey (env.XLookupString event).keysym) &&& 0x01 ↔
      s.KeyStateTable (EVENT_key.vkey (env.XLookupString event).keysym) &&& 0x80 = 0) := by
  rw [EVENT_key_press_table env event s h, Function.update_same]
  exact ⟨byte_press_down _, byte_press_toggle _⟩

/-- A press of a key that is already down leaves the table as it is. -/
theorem EVENT_key_press_held (env : Env) (event : XEvent) (s : State)
    (h : event.type = KeyPress)
    (hd : s.KeyStateTable (EVENT_key.vkey (env.XLookupString event).keysym) &&& 0x80 ≠ 0) :
    (EVENT_key env event s).KeyStateTable = s.KeyStateTable := by
  rw [EVENT_key_press_table env event s h, byte_press_of_down _ hd]
  exact Function.update_eq_self _ _

/-- Presses of a key that is down, one after another, leave the table as it is. -/
theorem run_presses_held (env : Env) (v : Nat) (presses : List XEvent) :
    ∀ s : State,
      (∀ e ∈ presses, e.type = KeyPress ∧ EVENT_key.vkey (env.XLookupString e).keysym = v) →
      s.KeyStateTable v &&& 0x80 ≠ 0 →
      (EVENT_key.run env presses s).KeyStateTable = s.KeyStateTable := by
  induction presses with
  | nil => intro s _ _; rfl
  | cons e es ih =>
    intro s hall hd
    have he := hall e (List.mem_cons_self _ _)
    have hstep : (EVENT_key env e s).KeyStateTable = s.KeyStateTable :=
      EVENT_key_press_held env e s he.1 (by rw [he.2]; exact hd)
    have hrest := ih (EVENT_key env e s)
      (fun x hx => hall x (List.mem_cons_of_mem _ hx)) (by rw [hstep]; exact hd)
    show (EVENT_key.run env es (EVENT_key env e s)).KeyStateTable = s.KeyStateTable
    rw [hrest, hstep]

/-- **C2.** For every virtual key `v` and every table state in which `v` is up, a
run of n ≥ 1 consecutive press events for `v` (`p :: ps`) leaves the same
`KeyStateTable` as the single press `p`, with the toggle-bit of `v` flipped once;
and a later release of `v` followed by a run of presses of `v` (`p2 :: ps2`) flips
the toggle-bit of `v` exactly once more, sets its down-bit and changes no other entry. -/
theorem EVENT_key_toggles_once_per_edge (env : Env) (v : Nat) (s : State)
    (p : XEvent) (ps : List XEvent) (r p2 : XEvent) (ps2 : List XEvent)
    (hup : s.KeyStateTable v &&& 0x80 = 0)
    (hp : ∀ e ∈ p :: ps, e.type = KeyPress ∧ EVENT_key.vkey (env.XLookupString e).keysym = v)
    (hr : r.type = KeyRelease ∧ EVENT_key.vkey (env.XLookupString r).keysym = v)
    (hp2 : ∀ e ∈ p2 :: ps2,
      e.type = KeyPress ∧ EVENT_key.vkey (env.XLookupString e).keysym = v) :
    (EVENT_key.run env (p :: ps) s).KeyStateTable = (EVENT_key env p s).KeyStateTable ∧
    (EVENT_key.run env (p :: ps) s).KeyStateTable v &&& 0x01 ≠ s.KeyStateTable v &&& 0x01 ∧
    (EVENT_key.run env (r :: p2 :: ps2) (EVENT_key.run env (p :: ps) s)).KeyStateTable =
      (EVENT_key env p2 (EVENT_key env r (EVENT_key.run env (p :: ps) s))).KeyStateTable ∧
    (EVENT_key.run env (r :: p2 :: ps2) (EVENT_key.run env (p :: ps) s)).KeyStateTable v
        &&& 0x01 ≠
      (EVENT_key.run env (p :: ps) s).KeyStateTable v &&& 0x01 ∧
    (EVENT_key.run env (r :: p2 :: ps2) (EVENT_key.run env (p :: ps) s)).KeyStateTable v
        &&& 0x80 = 0x80 ∧
    (∀ i, i ≠ v →
      (EVENT_key.run env (r :: p2 :: ps2) (EVENT_key.run env (p :: ps) s)).KeyStateTable i =
        (EVENT_key.run env (p :: ps) s).KeyStateTable i) := by
  have hpp := hp p (List.mem_cons_self _ _)
  have hpp2 := hp2 p2 (List.mem_cons_self _ _)
  -- the first run of presses
  have hfirst : (EVENT_key env p s).KeyStateTable v &&& 0x80 ≠ 0 := by
    have h1 := EVENT_key_press_bits env p s hpp.1
    rw [hpp.2] at h1
    rw [h1.1]; decide
  have hrun1 : (EVENT_key.run env (p :: ps) s).KeyStateTable = (EVENT_key env p s).KeyStateTable :=
    run_presses_held env v ps (EVENT_key env p s)
      (fun x hx => hp x (List.mem_cons_of_mem _ hx)) hfirst
  have htog1 : (EVENT_key env p s).KeyStateTable v &&& 0x01 ≠ s.KeyStateTable v &&& 0x01 := by
    have h1 := EVENT_key_press_bits env p s hpp.1
    rw [hpp.2] at h1
    exact h1.2.2 hup
  -- the release and the second run
  generalize EVENT_key.run env (p :: ps) s = s1 at hrun1 ⊢
  have hsecond : (EVENT_key env p2 (EVENT_key env r s1)).KeyStateTable v &&& 0x80 ≠ 0 := by
    have h1 := EVENT_key_press_bits env p2 (EVENT_key env r s1) hpp2.1
    rw [hpp2.2] at h1
    rw [h1.1]; decide
  have hrun2 : (EVENT_key.run env (r :: p2 :: ps2) s1).KeyStateTable =
      (EVENT_key env p2 (EVENT_key env r s1)).KeyStateTable :=
    run_presses_held env v ps2 (EVENT_key env p2 (EVENT_key env r s1))
      (fun x hx => hp2 x (List.mem_cons_of_mem _ hx)) hsecond
  have htab : (EVENT_key env p2 (EVENT_key env r s1)).KeyStateTable =
      Function.update s1.KeyStateTable v
        ((if (s1.KeyStateTable v &&& 0x7F) &&& 0x80 = 0 then (s1.KeyStateTable v &&& 0x7F) ^^^ 0x01
          else s1.KeyStateTable v &&& 0x7F) ||| 0x80) := by
    rw [EVENT_key_press_table env p2 _ hpp2.1, EVENT_key_release_table env r s1 hr.1,
      hpp2.2, hr.2]
    simp
  refine ⟨hrun1, ?_, hrun2, ?_, ?_, ?_⟩
  · rw [hrun1]; exact htog1
  · rw [hrun2, htab, Function.update_same]
    exact byte_release_press_toggle _
  · rw [hrun2, htab, Function.update_same]
    exact byte_press_down _
  · intro i hi
    rw [hrun2, htab]
    exact Function.update_noteq hi _ _

theorem EVENT_key_toggles_once_per_edge_witness :
    sampleState.KeyStateTable 0x41 &&& 0x80 = 0 ∧
    (EVENT_key.run sampleEnv [pressA, pressA] sampleState).KeyStateTable 0x41 &&& 0x01 ≠
      sampleState.KeyStateTable 0x41 &&& 0x01 ∧
    (EVENT_key.run sampleEnv [releaseA, pressA, pressA]
        (EVENT_key.run sampleEnv [pressA, pressA] sampleState)).KeyStateTable 0x41 &&& 0x01 ≠
      (EVENT_key.run sampleEnv [pressA, pressA] sampleState).KeyStateTable 0x41 &&& 0x01 :=
  have h := EVENT_key_toggles_once_per_edge sampleEnv 0x41 sampleState pressA [pressA]
    releaseA pressA [pressA] (by decide) (by decide) (by decide) (by decide)
  ⟨by decide, h.2.1, h.2.2.2.1⟩

/-! ## The key message and its transition descriptor -/

theorem entry_messages (env : Env) (event : XEvent) (s : State) :
    (EVENT_key.entry env event s).messages = s.messages := by
  unfold EVENT_key.entry State.messages
  simp only []
  split_ifs <;> simp [State.emit, Effect.isMessage]

/-- The trace after the press branch: one `hardware_event` call is appended. -/
theorem press_out (env : Env) (event : XEvent) (lk : Lookup) (tr : Translation) (s : State) :
    (EVENT_key.press env event lk tr s).out = s.out ++
      [.hardware_event
        (if (EVENT_key.press env event lk tr s).KeyStateTable VK_MENU &&& 0x80 ≠ 0
          then WM_SYSKEYDOWN else WM_KEYDOWN)
        tr.vkey
        (KEYLP.lp2
          { count := 1
            code := (LOBYTE event.keycode + 256 - 8) % 256
            extended := if tr.extended then 1 else 0
            pad := env.keylpPad
            reserved := if lk.ascii_chars ≠ 0 then 1 else 0
            context :=
              if event.state &&& Mod1Mask ≠ 0 ∨
                  (EVENT_key.press env event lk tr s).KeyStateTable VK_MENU &&& 0x80 ≠ 0
              then 1 else 0
            previous := if s.KeyDown then 0 else 1
            transition := 0 })
        (event.x_root - s.desktopX) (event.y_root - s.desktopY)
        (subDWORD event.time env.MSG_WineStartTicks) 0] := by
  rfl

/-- The trace after the release branch: one `hardware_event` call is appended. -/
theorem release_out (env : Env) (event : XEvent) (tr : Translation) (s : State) :
    (EVENT_key.release env event tr s).out = s.out ++
      [.hardware_event
        (if s.KeyStateTable VK_MENU &&& 0x80 ≠ 0 then WM_SYSKEYUP else WM_KEYUP)
        tr.vkey
        (KEYLP.lp2
          { count := 1
            code := (LOBYTE event.keycode + 256 - 8) % 256
            extended := if tr.extended then 1 else 0
            pad := env.keylpPad
            reserved := 0
            context := if event.state &&& Mod1Mask ≠ 0 then 1 else 0
            previous := 1
            transition := 1 })
        (event.x_root - s.desktopX) (event.y_root - s.desktopY)
        (subDWORD event.time env.MSG_WineStartTicks) 0] := rfl

theorem messages_append_hardware_event (out : List Effect) (message wParam lParam : Nat)
    (xPos yPos : Int) (time extraInfo : Nat) :
    (out ++ [Effect.hardware_event message wParam lParam xPos yPos time extraInfo]).filter
        Effect.isMessage =
      out.filter Effect.isMessage ++
        [Effect.hardware_event message wParam lParam xPos yPos time extraInfo] := by
  simp [List.filter_append, Effect.isMessage]

/-- The messages after a key press: exactly one is added. -/
theorem EVENT_key_press_messages (env : Env) (event : XEvent) (s : State)
    (h : event.type = KeyPress) :
    (EVENT_key env event s).messages = s.messages ++
      [.hardware_event
        (if (EVENT_key env event s).KeyStateTable VK_MENU &&& 0x80 ≠ 0
          then WM_SYSKEYDOWN else WM_KEYDOWN)
        (EVENT_key.vkey (env.XLookupString event).keysym)
        (KEYLP.lp2
          { count := 1
            code := (LOBYTE event.keycode + 256 - 8) % 256
            extended :=
              if (EVENT_key.translate (HIBYTE (LOWORD (env.XLookupString event).keysym))
                (LOBYTE (LOWORD (env.XLookupString event).keysym))).extended then 1 else 0
            pad := env.keylpPad
            reserved := if (env.XLookupString event).ascii_chars ≠ 0 then 1 else 0
            context :=
              if event.state &&& Mod1Mask ≠ 0 ∨
                  (EVENT_key env event s).KeyStateTable VK_MENU &&& 0x80 ≠ 0
              then 1 else 0
            previous := if s.KeyDown then 0 else 1
            transition := 0 })
        (event.x_root - s.desktopX) (event.y_root - s.desktopY)
        (subDWORD event.time env.MSG_WineStartTicks) 0] := by
  have hm := entry_messages env event s
  have hk := entry_KeyDown env event s
  have hd := entry_desktop env event s
  rw [EVENT_key_eq, if_pos h]
  unfold State.messages at hm ⊢
  rw [press_out, messages_append_hardware_event, hm, hk, hd.1, hd.2]
  rfl

/-- The messages after a key release: exactly one is added. -/
theorem EVENT_key_release_messages (env : Env) (event : XEvent) (s : State)
    (h : event.type ≠ KeyPress) :
    (EVENT_key env event s).messages = s.messages ++
      [.hardware_event
        (if s.KeyStateTable VK_MENU &&& 0x80 ≠ 0 then WM_SYSKEYUP else WM_KEYUP)
        (EVENT_key.vkey (env.XLookupString event).keysym)
        (KEYLP.lp2
          { count := 1
            code := (LOBYTE event.keycode + 256 - 8) % 256
            extended :=
              if (EVENT_key.translate (HIBYTE (LOWORD (env.XLookupString event).keysym))
                (LOBYTE (LOWORD (env.XLookupString event).keysym))).extended then 1 else 0
            pad := env.keylpPad
            reserved := 0
            context := if event.state &&& Mod1Mask ≠ 0 then 1 else 0
            previous := 1
            transition := 1 })
        (event.x_root - s.desktopX) (event.y_root - s.desktopY)
        (subDWORD event.time env.MSG_WineStartTicks) 0] := by
  have hm := entry_messages env event s
  have hk := entry_KeyStateTable env event s
  have hd := entry_desktop env event s
  rw [EVENT_key_eq, if_neg h]
  unfold State.messages at hm ⊢
  rw [release_out, messages_append_hardware_event, hm, hk, hd.1, hd.2]
  rfl

/-- **C3.** For every key event, `EVENT_key` emits exactly one key message whose
kind is decided by the Alt virtual key: on a press it is WM_SYSKEYDOWN exactly when
the down-bit of `VK_MENU` is set in `KeyStateTable` at emission time (after the
table update of the press itself) and WM_KEYDOWN otherwise; on a release it is
WM_SYSKEYUP exactly when the down-bit of `VK_MENU` was set before the down-bit of
the released key was cleared, and WM_KEYUP otherwise. -/
theorem EVENT_key_message_kind (env : Env) (event : XEvent) (s : State) :
    (event.type = KeyPress →
      ∃ msg lParam xPos yPos time,
        (EVENT_key env event s).messages = s.messages ++
          [.hardware_event msg (EVENT_key.vkey (env.XLookupString event).keysym)
            lParam xPos yPos time 0] ∧
        (msg = WM_SYSKEYDOWN ↔ (EVENT_key env event s).KeyStateTable VK_MENU &&& 0x80 ≠ 0) ∧
        (msg = WM_KEYDOWN ↔ (EVENT_key env event s).KeyStateTable VK_MENU &&& 0x80 = 0)) ∧
    (event.type = KeyRelease →
      ∃ msg lParam xPos yPos time,
        (EVENT_key env event s).messages = s.messages ++
          [.hardware_event msg (EVENT_key.vkey (env.XLookupString event).keysym)
            lParam xPos yPos time 0] ∧
        (msg = WM_SYSKEYUP ↔ s.KeyStateTable VK_MENU &&& 0x80 ≠ 0) ∧
        (msg = WM_KEYUP ↔ s.KeyStateTable VK_MENU &&& 0x80 = 0)) := by
  constructor
  · intro h
    refine ⟨_, _, _, _, _, EVENT_key_press_messages env event s h, ?_, ?_⟩
    · by_cases hm : (EVENT_key env event s).KeyStateTable VK_MENU &&& 0x80 = 0
      · simp [hm, WM_SYSKEYDOWN, WM_KEYDOWN]
      · simp [hm]
    · by_cases hm : (EVENT_key env event s).KeyStateTable VK_MENU &&& 0x80 = 0
      · simp [hm]
      · simp [hm, WM_SYSKEYDOWN, WM_KEYDOWN]
  · intro h
    have h2 : event.type ≠ KeyPress := by rw [h]; decide
    refine ⟨_, _, _, _, _, EVENT_key_release_messages env event s h2, ?_, ?_⟩
    · by_cases hm : s.KeyStateTable VK_MENU &&& 0x80 = 0
      · simp [hm, WM_SYSKEYUP, WM_KEYUP]
      · simp [hm]
    · by_cases hm : s.KeyStateTable VK_MENU &&& 0x80 = 0
      · simp [hm]
      · simp [hm, WM_SYSKEYUP, WM_KEYUP]

/-! ### Bit fields of the packed descriptor -/

theorem lp2_count (k : KEYLP) : k.lp2 % 2 ^ 16 = k.count % 65536 := by
  unfold KEYLP.lp2
  norm_num
  omega

theorem lp2_code (k : KEYLP) : k.lp2 / 2 ^ 16 % 256 = k.code % 256 := by
  unfold KEYLP.lp2
  norm_num
  omega

theorem lp2_extended (k : KEYLP) : k.lp2 / 2 ^ 24 % 2 = k.extended % 2 := by
  unfold KEYLP.lp2
  norm_num
  omega

theorem lp2_context (k : KEYLP) : k.lp2 / 2 ^ 29 % 2 = k.context % 2 := by
  unfold KEYLP.lp2
  norm_num
  omega

theorem lp2_previous (k : KEYLP) : k.lp2 / 2 ^ 30 % 2 = k.previous % 2 := by
  unfold KEYLP.lp2
  norm_num
  omega

theorem lp2_transition (k : KEYLP) : k.lp2 / 2 ^ 31 % 2 = k.transition % 2 := by
  unfold KEYLP.lp2
  norm_num
  omega

/-- The local `extended` is set exactly for the keypad and function-key ranges
of the key symbol word. -/
theorem translate_extended (keysym : Nat) :
    (EVENT_key.translate (HIBYTE (LOWORD keysym)) (LOBYTE (LOWORD keysym))).extended = true ↔
      (0xFF7E ≤ LOWORD keysym ∧ LOWORD keysym ≤ 0xFFB9) ∨
      (0xFFBE ≤ LOWORD keysym ∧ LOWORD keysym ≤ 0xFFCD) := by
  have hx : LOWORD keysym < 65536 := Nat.mod_lt _ (by decide)
  generalize LOWORD keysym = x at hx ⊢
  unfold EVENT_key.translate HIBYTE LOBYTE
  split_ifs
  all_goals first
    | (simp only [true_iff]; omega)
    | (simp only [Bool.false_eq_true, false_iff]; omega)
    | (split <;> simp only [Bool.false_eq_true, false_iff] <;> omega)

theorem EVENT_key_KeyDown (env : Env) (event : XEvent) (s : State) :
    (EVENT_key env event s).KeyDown = true ↔ event.type = KeyPress := by
  rw [EVENT_key_eq]
  split_ifs with h
  · exact ⟨fun _ => h, fun _ => rfl⟩
  · exact ⟨fun hk => absurd hk (by simp [EVENT_key.release]), fun hp => absurd hp h⟩

/-- **C4 (as the code has it).** The previous-state bit (bit 30) of the descriptor
emitted for a key press is 1 exactly when the flag `KeyDown` is clear; `KeyDown`
is one flag for the whole keyboard, set by every press and cleared by every
release, whichever key the event is for. -/
theorem EVENT_key_previous_bit_follows_KeyDown (env : Env) (event : XEvent) (s : State) :
    (∀ (earlier : XEvent) (s0 : State),
      (EVENT_key env earlier s0).KeyDown = true ↔ earlier.type = KeyPress) ∧
    (event.type = KeyPress →
      ∃ msg lParam xPos yPos time,
        (EVENT_key env event s).messages = s.messages ++
          [.hardware_event msg (EVENT_key.vkey (env.XLookupString event).keysym)
            lParam xPos yPos time 0] ∧
        (lParam / 2 ^ 30 % 2 = 1 ↔ s.KeyDown = false)) := by
  refine ⟨fun earlier s0 => EVENT_key_KeyDown env earlier s0, fun h => ?_⟩
  refine ⟨_, _, _, _, _, EVENT_key_press_messages env event s h, ?_⟩
  rw [lp2_previous]
  cases s.KeyDown <;> simp

/-- **C4, counterexample.** From the start-up state the letter `a` is pressed and
then, while it is held, the letter `b`: key `B` (0x42) is up immediately before its
press, yet bit 30 of the descriptor emitted for it is 0. -/
theorem EVENT_key_previous_bit_counterexample :
    EVENT_key.vkey (sampleEnv.XLookupString pressB).keysym = 0x42 ∧
    (EVENT_key sampleEnv pressA sampleState).KeyStateTable 0x42 &&& 0x80 = 0 ∧
    ((EVENT_key sampleEnv pressB (EVENT_key sampleEnv pressA sampleState)).out.getLast?.map
      Effect.lParam) = some 137363457 ∧
    137363457 / 2 ^ 30 % 2 = 0 := by
  decide

/-- **C5.** For every key event with hardware key code `c = event.keycode` and
modifier mask `m = event.state`, the transition descriptor `EVENT_key` hands to the
message queue has repeat count 1 (bits 0-15), scan code `((c mod 256) - 8) mod 256`
(bits 16-23), extended flag (bit 24) equal to 1 exactly when the low 16 bits of the
key symbol (`xkey = LOWORD(keysym)`, the word `EVENT_key` classifies) lie in the
numeric-pad range 0xFF7E-0xFFB9 or the function-key range 0xFFBE-0xFFCD, and: on a
press, transition bit (bit 31) 0 and context bit (bit 29) 1
exactly when `m` contains `Mod1Mask` or the down-bit of `VK_MENU` is set (in the
table as the press leaves it); on a release, previous-state bit (bit 30) 1 and
transition bit 1. -/
theorem EVENT_key_transition_descriptor (env : Env) (event : XEvent) (s : State) :
    ∃ msg lParam xPos yPos time,
      (EVENT_key env event s).messages = s.messages ++
        [.hardware_event msg (EVENT_key.vkey (env.XLookupString event).keysym)
          lParam xPos yPos time 0] ∧
      lParam % 2 ^ 16 = 1 ∧
      ((lParam / 2 ^ 16 % 256 : Nat) : Int) = ((event.keycode : Int) % 256 - 8) % 256 ∧
      (lParam / 2 ^ 24 % 2 = 1 ↔
        (0xFF7E ≤ LOWORD (env.XLookupString event).keysym ∧
          LOWORD (env.XLookupString event).keysym ≤ 0xFFB9) ∨
        (0xFFBE ≤ LOWORD (env.XLookupString event).keysym ∧
          LOWORD (env.XLookupString event).keysym ≤ 0xFFCD)) ∧
      (event.type = KeyPress →
        lParam / 2 ^ 31 % 2 = 0 ∧
        (lParam / 2 ^ 29 % 2 = 1 ↔
          event.state &&& Mod1Mask ≠ 0 ∨
            (EVENT_key env event s).KeyStateTable VK_MENU &&& 0x80 ≠ 0)) ∧
      (event.type = KeyRelease → lParam / 2 ^ 30 % 2 = 1 ∧ lParam / 2 ^ 31 % 2 = 1) := by
  have hcode : (((LOBYTE event.keycode + 256 - 8) % 256 % 256 : Nat) : Int) =
      ((event.keycode : Int) % 256 - 8) % 256 := by
    unfold LOBYTE
    omega
  have hext : ∀ b : Bool, ((if b = true then 1 else 0) % 2 = 1 ↔ b = true) := by
    intro b; cases b <;> simp
  by_cases h : event.type = KeyPress
  · refine ⟨_, _, _, _, _, EVENT_key_press_messages env event s h, ?_, ?_, ?_, ?_, ?_⟩
    · exact (lp2_count _).trans rfl
    · rw [lp2_code]; exact hcode
    · rw [lp2_extended, hext]; exact translate_extended _
    · intro _
      refine ⟨(lp2_transition _).trans rfl, ?_⟩
      rw [lp2_context]
      by_cases hc : event.state &&& Mod1Mask ≠ 0 ∨
          (EVENT_key env event s).KeyStateTable VK_MENU &&& 0x80 ≠ 0
      · rw [if_pos hc]; exact ⟨fun _ => hc, fun _ => rfl⟩
      · rw [if_neg hc]; exact ⟨fun h0 => absurd h0 (by simp), fun h1 => absurd h1 hc⟩
    · intro hr; rw [hr] at h; exact absurd h (by decide)
  · refine ⟨_, _, _, _, _, EVENT_key_release_messages env event s h, ?_, ?_, ?_, ?_, ?_⟩
    · exact (lp2_count _).trans rfl
    · rw [lp2_code]; exact hcode
    · rw [lp2_extended, hext]; exact translate_extended _
    · intro hp; exact absurd hp h
    · intro _
      exact ⟨(lp2_previous _).trans rfl, (lp2_transition _).trans rfl⟩

/-- **C5, counterexample.** A press of a key whose key symbol is 0x1000FFA8: the
key symbol lies in neither the numeric-pad range 0xFF7E-0xFFB9 nor the function-key
range 0xFFBE-0xFFCD, but its low word 0xFFA8 lies in the former, and bit 24 of the
descriptor emitted (0x418E0001) is 1. -/
theorem EVENT_key_extended_flag_counterexample :
    (vendorKeyEnv.XLookupString pressVendor).keysym = 0x1000FFA8 ∧
    ¬ ((0xFF7E ≤ (vendorKeyEnv.XLookupString pressVendor).keysym ∧
        (vendorKeyEnv.XLookupString pressVendor).keysym ≤ 0xFFB9) ∨
      (0xFFBE ≤ (vendorKeyEnv.XLookupString pressVendor).keysym ∧
        (vendorKeyEnv.XLookupString pressVendor).keysym ≤ 0xFFCD)) ∧
    LOWORD (vendorKeyEnv.XLookupString pressVendor).keysym = 0xFFA8 ∧
    ((EVENT_key vendorKeyEnv pressVendor sampleState).out.getLast?.map Effect.lParam) =
      some 1099825153 ∧
    1099825153 / 2 ^ 24 % 2 = 1 := by
  decide

/-! ## The virtual key of a key symbol -/

set_option maxRecDepth 100000 in
theorem translate_character (k : Fin 256) :
    (EVENT_key.translate 0 k.val).vkey = spec_characterVkey k.val := by
  revert k; decide

theorem messages_of_key_event (env : Env) (event : XEvent) (s : State) :
    ∃ msg lParam xPos yPos time,
      (EVENT_key env event s).messages = s.messages ++
        [.hardware_event msg (EVENT_key.vkey (env.XLookupString event).keysym)
          lParam xPos yPos time 0] := by
  by_cases h : event.type = KeyPress
  · exact ⟨_, _, _, _, _, EVENT_key_press_messages env event s h⟩
  · exact ⟨_, _, _, _, _, EVENT_key_release_messages env event s h⟩

/-- **C6.** For every key symbol whose high byte is 0 (character class) with low
byte `k`, the virtual-key code computed by `EVENT_key` is the one the
specification names (`spec_characterVkey k`): the upper-case ASCII code of a letter
or digit, `k` itself for white space, the digit for a shifted digit, the shared
code for both members of a symbol pair, and 0 for every other `k`; whatever the
code is, and so also when it is 0, the key message is emitted with it as its
virtual key. -/
theorem EVENT_key_character_class (env : Env) (event : XEvent) (s : State)
    (h : HIBYTE (LOWORD (env.XLookupString event).keysym) = 0) :
    EVENT_key.vkey (env.XLookupString event).keysym =
      spec_characterVkey (LOBYTE (LOWORD (env.XLookupString event).keysym)) ∧
    ∃ msg lParam xPos yPos time,
      (EVENT_key env event s).messages = s.messages ++
        [.hardware_event msg
          (spec_characterVkey (LOBYTE (LOWORD (env.XLookupString event).keysym)))
          lParam xPos yPos time 0] := by
  have hk : LOBYTE (LOWORD (env.XLookupString event).keysym) < 256 := Nat.mod_lt _ (by decide)
  have hv : EVENT_key.vkey (env.XLookupString event).keysym =
      spec_characterVkey (LOBYTE (LOWORD (env.XLookupString event).keysym)) := by
    unfold EVENT_key.vkey
    rw [h]
    exact translate_character ⟨_, hk⟩
  refine ⟨hv, ?_⟩
  rw [← hv]
  exact messages_of_key_event env event s

/-- **C6, witness.** The sample key code 94 gives the character 0xA7, a character
key that is neither alphanumeric, white space nor in the punctuation table: its
virtual key is 0 and the key-down message is emitted with virtual key 0. -/
theorem EVENT_key_character_class_witness :
    HIBYTE (LOWORD (sampleEnv.XLookupString pressSection).keysym) = 0 ∧
    spec_characterVkey (LOBYTE (LOWORD (sampleEnv.XLookupString pressSection).keysym)) = 0 ∧
    EVENT_key.vkey (sampleEnv.XLookupString pressSection).keysym =
      spec_characterVkey (LOBYTE (LOWORD (sampleEnv.XLookupString pressSection).keysym)) :=
  ⟨by decide, by decide,
    (EVENT_key_character_class sampleEnv pressSection sampleState (by decide)).1⟩

theorem vkey_LOWORD (keysym : Nat) : EVENT_key.vkey keysym = EVENT_key.vkey (LOWORD keysym) := by
  unfold EVENT_key.vkey LOWORD
  rw [Nat.mod_mod]

set_option maxRecDepth 100000 in
theorem translate_function_class (kk : Fin 256) :
    (0x08 ≤ kk.val ∧ kk.val ≤ 0x1B →
      (EVENT_key.translate 0xFF kk.val).vkey = special_key.getD (kk.val - 0x08) 0) ∧
    (0x50 ≤ kk.val ∧ kk.val ≤ 0x57 →
      (EVENT_key.translate 0xFF kk.val).vkey = cursor_key.getD (kk.val - 0x50) 0) ∧
    (0x60 ≤ kk.val ∧ kk.val ≤ 0x6B →
      (EVENT_key.translate 0xFF kk.val).vkey = misc_key.getD (kk.val - 0x60) 0) ∧
    (0x7E ≤ kk.val ∧ kk.val ≤ 0xB9 →
      (EVENT_key.translate 0xFF kk.val).vkey = keypad_key.getD (kk.val - 0x7E) 0) ∧
    (0xBE ≤ kk.val ∧ kk.val ≤ 0xCD →
      (EVENT_key.translate 0xFF kk.val).vkey = function_key.getD (kk.val - 0xBE) 0) ∧
    (0xE1 ≤ kk.val ∧ kk.val ≤ 0xEA →
      (EVENT_key.translate 0xFF kk.val).vkey = modifier_key.getD (kk.val - 0xE1) 0) ∧
    (spec_outsideSubranges kk.val → (EVENT_key.translate 0xFF kk.val).vkey = 0) := by
  revert kk; decide

theorem vkey_function_class (kk : Nat) (h : kk < 256) :
    EVENT_key.vkey (0xFF00 + kk) = (EVENT_key.translate 0xFF kk).vkey := by
  unfold EVENT_key.vkey
  have h1 : HIBYTE (LOWORD (0xFF00 + kk)) = 0xFF := by unfold HIBYTE LOWORD; omega
  have h2 : LOBYTE (LOWORD (0xFF00 + kk)) = kk := by unfold LOBYTE LOWORD; omega
  rw [h1, h2]

theorem vkey_other_class (keysym : Nat) (h0 : HIBYTE (LOWORD keysym) ≠ 0)
    (hFF : HIBYTE (LOWORD keysym) ≠ 0xFF) : EVENT_key.vkey keysym = 0 := by
  unfold EVENT_key.vkey EVENT_key.translate
  rw [if_neg hFF, if_neg h0]

/-- **C7.** For every key symbol 0xFFkk (function class) the virtual-key code of
`EVENT_key` is the entry of the sub-range table selected by `kk`, so that:
BackSpace, Tab, Return, Escape give VK_BACK, VK_TAB, VK_RETURN, VK_ESCAPE; the
cursor keys 0xFF50-0xFF57 give VK_HOME, VK_LEFT, VK_UP, VK_RIGHT, VK_DOWN, VK_PRIOR,
VK_NEXT, VK_END in that order; the keypad digits 0xFFB0+d give VK_NUMPAD0+d and
keypad Enter 0xFF8D gives VK_RETURN; the function keys 0xFFBE+n give VK_F1+n;
Shift_L/R give VK_SHIFT, Control_L/R give VK_CONTROL, Alt_L/R give VK_MENU; Delete
0xFFFF gives VK_DELETE; every 0xFFkk outside the six sub-ranges and 0xFFFF, and
every key symbol whose high byte is neither 0 nor 0xFF, gives 0.  Only the low
16 bits of the looked-up key symbol enter (`xkey = LOWORD(keysym)`). -/
theorem EVENT_key_function_class :
    (∀ keysym, EVENT_key.vkey keysym = EVENT_key.vkey (LOWORD keysym)) ∧
    (∀ kk, kk < 256 →
      (0x08 ≤ kk ∧ kk ≤ 0x1B → EVENT_key.vkey (0xFF00 + kk) = special_key.getD (kk - 0x08) 0) ∧
      (0x50 ≤ kk ∧ kk ≤ 0x57 → EVENT_key.vkey (0xFF00 + kk) = cursor_key.getD (kk - 0x50) 0) ∧
      (0x60 ≤ kk ∧ kk ≤ 0x6B → EVENT_key.vkey (0xFF00 + kk) = misc_key.getD (kk - 0x60) 0) ∧
      (0x7E ≤ kk ∧ kk ≤ 0xB9 → EVENT_key.vkey (0xFF00 + kk) = keypad_key.getD (kk - 0x7E) 0) ∧
      (0xBE ≤ kk ∧ kk ≤ 0xCD →
        EVENT_key.vkey (0xFF00 + kk) = function_key.getD (kk - 0xBE) 0) ∧
      (0xE1 ≤ kk ∧ kk ≤ 0xEA →
        EVENT_key.vkey (0xFF00 + kk) = modifier_key.getD (kk - 0xE1) 0) ∧
      (spec_outsideSubranges kk → EVENT_key.vkey (0xFF00 + kk) = 0)) ∧
    (EVENT_key.vkey 0xFF08 = VK_BACK ∧ EVENT_key.vkey 0xFF09 = VK_TAB ∧
      EVENT_key.vkey 0xFF0D = VK_RETURN ∧ EVENT_key.vkey 0xFF1B = VK_ESCAPE) ∧
    ([0xFF50, 0xFF51, 0xFF52, 0xFF53, 0xFF54, 0xFF55, 0xFF56, 0xFF57].map EVENT_key.vkey =
      [VK_HOME, VK_LEFT, VK_UP, VK_RIGHT, VK_DOWN, VK_PRIOR, VK_NEXT, VK_END]) ∧
    (∀ d, d ≤ 9 → EVENT_key.vkey (0xFFB0 + d) = VK_NUMPAD0 + d) ∧
    EVENT_key.vkey 0xFF8D = VK_RETURN ∧
    (∀ n, n ≤ 15 → EVENT_key.vkey (0xFFBE + n) = VK_F1 + n) ∧
    (EVENT_key.vkey 0xFFE1 = VK_SHIFT ∧ EVENT_key.vkey 0xFFE2 = VK_SHIFT ∧
      EVENT_key.vkey 0xFFE3 = VK_CONTROL ∧ EVENT_key.vkey 0xFFE4 = VK_CONTROL ∧
      EVENT_key.vkey 0xFFE9 = VK_MENU ∧ EVENT_key.vkey 0xFFEA = VK_MENU) ∧
    EVENT_key.vkey 0xFFFF = VK_DELETE ∧
    (∀ keysym, HIBYTE (LOWORD keysym) ≠ 0 → HIBYTE (LOWORD keysym) ≠ 0xFF →
      EVENT_key.vkey keysym = 0) := by
  refine ⟨vkey_LOWORD, ?_, by decide, by decide, by decide, by decide, by decide, by decide,
    by decide, vkey_other_class⟩
  intro kk hkk
  rw [vkey_function_class kk hkk]
  exact translate_function_class ⟨kk, hkk⟩

/-! ## Motion coalescing -/

/-- What `XCheckTypedWindowEvent` returns, in terms of the queue's matching and
non-matching events. -/
theorem XCheckTypedWindowEvent_spec (w type : Nat) (q : List XEvent) :
    match XCheckTypedWindowEvent w type q with
    | none =>
      q.filter (XEvent.isTyped w type) = [] ∧ q.filter (fun e => !XEvent.isTyped w type e) = q
    | some (found, rest) =>
      q.filter (XEvent.isTyped w type) = found :: rest.filter (XEvent.isTyped w type) ∧
      rest.filter (fun e => !XEvent.isTyped w type e) =
        q.filter (fun e => !XEvent.isTyped w type e) ∧
      rest.length + 1 = q.length := by
  induction q with
  | nil => simp [XCheckTypedWindowEvent]
  | cons e q ih =>
    unfold XCheckTypedWindowEvent
    by_cases he : e.window = w ∧ e.type = type
    · have hb : XEvent.isTyped w type e = true := by simp [XEvent.isTyped, he.1, he.2]
      simp [he, hb]
    · have hb : XEvent.isTyped w type e = false := by
        simp only [XEvent.isTyped, Bool.and_eq_false_imp, decide_eq_true_eq, decide_eq_false_iff_not]
        exact fun h1 h2 => he ⟨h1, h2⟩
      rw [if_neg he]
      cases hq : XCheckTypedWindowEvent w type q with
      | none =>
        rw [hq] at ih
        simp [hb, ih.1, ih.2]
      | some r =>
        obtain ⟨found, rest⟩ := r
        rw [hq] at ih
        simp [hb, ih.1, ih.2.1, ih.2.2]

/-- The coalescing loop in closed form: with at least as many iterations allowed
as events are queued, it returns the last queued motion event for the window (the
event it started with if none is queued) and removes all of them from the queue. -/
theorem motionLoop_spec (w : Nat) :
    ∀ (n : Nat) (event : XEvent) (q : List XEvent), q.length ≤ n →
      EVENT_ProcessEvent.motionLoop n w event q =
        (((motionsFor w q).getLast?).getD event, withoutMotionsFor w q) := by
  intro n
  induction n with
  | zero =>
    intro event q hq
    have : q = [] := List.length_eq_zero.mp (Nat.le_zero.mp hq)
    subst this
    rfl
  | succ n ih =>
    intro event q hq
    have hspec := XCheckTypedWindowEvent_spec w MotionNotify q
    unfold EVENT_ProcessEvent.motionLoop
    cases hc : XCheckTypedWindowEvent w MotionNotify q with
    | none =>
      rw [hc] at hspec
      simp only [motionsFor, withoutMotionsFor, hspec.1, hspec.2]
      rfl
    | some r =>
      obtain ⟨found, rest⟩ := r
      rw [hc] at hspec
      simp only []
      rw [ih found rest (by omega)]
      simp only [motionsFor, withoutMotionsFor, hspec.1, hspec.2.1, List.getLast?_cons,
        Option.getD_some]

/-- `EVENT_ProcessEvent` on a `MotionNotify` for a registered window, no journal
playback hook being installed. -/
theorem EVENT_ProcessEvent_motion (env : Env) (event : XEvent) (s : State) (hwnd : Nat)
    (hreg : s.winContext event.window = some hwnd) (hty : event.type = MotionNotify)
    (hhook : env.journalHook = 0) :
    EVENT_ProcessEvent env event s =
      EVENT_MotionNotify env (((motionsFor event.window s.queue).getLast?).getD event)
        { s with queue := withoutMotionsFor event.window s.queue } := by
  unfold EVENT_ProcessEvent
  rw [hreg]
  simp only [hty, hhook, MotionNotify, KeyPress, KeyRelease, ButtonPress, ButtonRelease]
  simp only [Nat.reduceEqDiff, or_self, if_false, if_true]
  rw [motionLoop_spec event.window _ event s.queue le_rfl]

/-- **C8.** For every event queue and every registered window `w`, no journal
playback hook being installed: when `EVENT_ProcessEvent` handles a `MotionNotify`
for `w`, it removes every other `MotionNotify` for `w` still queued and emits
exactly one mouse-move message, carrying the desktop-relative coordinates of the
last such queued event (of the handled event itself if none is queued).  Hence a
dispatch pass of `EVENT_WaitXEvent` over a queue of N ≥ 1 motion events for `w`
(`event :: rest`) emits exactly one mouse-move message, with the coordinates of the
last of them, and leaves the queue empty. -/
theorem EVENT_ProcessEvent_coalesces_motion (env : Env) (event : XEvent) (s : State)
    (hwnd : Nat) (hreg : s.winContext event.window = some hwnd)
    (hty : event.type = MotionNotify) (hhook : env.journalHook = 0) :
    (EVENT_ProcessEvent env event s).queue = withoutMotionsFor event.window s.queue ∧
    (∀ e ∈ (EVENT_ProcessEvent env event s).queue,
      ¬ (e.window = event.window ∧ e.type = MotionNotify)) ∧
    (EVENT_ProcessEvent env event s).out = s.out ++
      [.hardware_event WM_MOUSEMOVE
        (EVENT_XStateToKeyState (((motionsFor event.window s.queue).getLast?).getD event).state) 0
        ((((motionsFor event.window s.queue).getLast?).getD event).x_root - s.desktopX)
        ((((motionsFor event.window s.queue).getLast?).getD event).y_root - s.desktopY)
        (subDWORD (((motionsFor event.window s.queue).getLast?).getD event).time
          env.MSG_WineStartTicks) 0] ∧
    (∀ (rest : List XEvent) (sleep : Bool) (fuel : Nat),
      (∀ e ∈ rest, e.window = event.window ∧ e.type = MotionNotify) → 0 < fuel →
      ∃ s1, EVENT_WaitXEvent env fuel sleep { s with queue := event :: rest } = some (true, s1) ∧
        s1.queue = [] ∧
        s1.out = s.out ++
          [.hardware_event WM_MOUSEMOVE
            (EVENT_XStateToKeyState ((rest.getLast?).getD event).state) 0
            (((rest.getLast?).getD event).x_root - s.desktopX)
            (((rest.getLast?).getD event).y_root - s.desktopY)
            (subDWORD ((rest.getLast?).getD event).time env.MSG_WineStartTicks) 0]) := by
  have hstep := EVENT_ProcessEvent_motion env event s hwnd hreg hty hhook
  refine ⟨by rw [hstep]; rfl, ?_, by rw [hstep]; rfl, ?_⟩
  · intro e he
    rw [hstep] at he
    have he2 : e ∈ withoutMotionsFor event.window s.queue := he
    unfold withoutMotionsFor at he2
    have h2 := (List.mem_filter.mp he2).2
    intro hc
    simp [XEvent.isTyped, hc.1, hc.2] at h2
  · intro rest sleep fuel hall hfuel
    obtain ⟨n, rfl⟩ : ∃ n, fuel = n + 1 := ⟨fuel - 1, by omega⟩
    have hm : motionsFor event.window rest = rest := by
      unfold motionsFor
      rw [List.filter_eq_self]
      intro a ha
      simp [XEvent.isTyped, (hall a ha).1, (hall a ha).2]
    have hw : withoutMotionsFor event.window rest = [] := by
      unfold withoutMotionsFor
      rw [List.filter_eq_nil_iff]
      intro a ha
      simp [XEvent.isTyped, (hall a ha).1, (hall a ha).2]
    have hstep2 := EVENT_ProcessEvent_motion env event { s with queue := rest } hwnd hreg hty hhook
    simp only [hm, hw] at hstep2
    refine ⟨EVENT_MotionNotify env ((rest.getLast?).getD event) { s with queue := [] }, ?_, rfl, rfl⟩
    unfold EVENT_WaitXEvent
    simp only [List.isEmpty_cons, Bool.false_eq_true, if_false]
    unfold EVENT_WaitXEvent.drain
    simp only [hstep2]
    rfl

theorem EVENT_ProcessEvent_coalesces_motion_witness :
    ∃ s1, EVENT_WaitXEvent sampleEnv 1 true
        { sampleState with queue := motion1 :: [motion2, motion3] } = some (true, s1) ∧
      s1.queue = [] ∧
      s1.out = sampleState.out ++
        [.hardware_event WM_MOUSEMOVE
          (EVENT_XStateToKeyState (([motion2, motion3].getLast?).getD motion1).state) 0
          ((([motion2, motion3].getLast?).getD motion1).x_root - sampleState.desktopX)
          ((([motion2, motion3].getLast?).getD motion1).y_root - sampleState.desktopY)
          (subDWORD (([motion2, motion3].getLast?).getD motion1).time
            sampleEnv.MSG_WineStartTicks) 0] :=
  (EVENT_ProcessEvent_coalesces_motion sampleEnv motion1 sampleState 1 (by decide) (by decide)
    (by decide)).2.2.2 [motion2, motion3] true 1 (by decide) (by decide)

/-! ## Frame properties of the handlers -/

theorem Extends.refl (s : State) : s.Extends s := ⟨[], by simp, by simp⟩

theorem Extends.trans {s s1 s2 : State} (h1 : s.Extends s1) (h2 : s1.Extends s2) :
    s.Extends s2 := by
  obtain ⟨l1, e1, n1⟩ := h1
  obtain ⟨l2, e2, n2⟩ := h2
  refine ⟨l1 ++ l2, by rw [e2, e1, List.append_assoc], ?_⟩
  simp [n1, n2]

theorem Extends.of_out {s s1 s2 : State} (h : s.Extends s1) (ho : s2.out = s1.out) :
    s.Extends s2 := by
  obtain ⟨l1, e1, n1⟩ := h
  exact ⟨l1, by rw [ho, e1], n1⟩

theorem entry_frame (env : Env) (event : XEvent) (s : State) :
    (EVENT_key.entry env event s).queue = s.queue ∧ s.Extends (EVENT_key.entry env event s) := by
  unfold State.Extends EVENT_key.entry
  simp only []
  split_ifs <;> simp [State.emit]

theorem press_frame (env : Env) (event : XEvent) (lk : Lookup) (tr : Translation) (s : State) :
    (EVENT_key.press env event lk tr s).queue = s.queue ∧
      s.Extends (EVENT_key.press env event lk tr s) :=
  ⟨rfl, _, press_out env event lk tr s, by simp⟩

theorem release_frame (env : Env) (event : XEvent) (tr : Translation) (s : State) :
    (EVENT_key.release env event tr s).queue = s.queue ∧
      s.Extends (EVENT_key.release env event tr s) :=
  ⟨rfl, _, release_out env event tr s, by simp⟩

theorem EVENT_key_frame (env : Env) (event : XEvent) (s : State) :
    (EVENT_key env event s).queue = s.queue ∧ s.Extends (EVENT_key env event s) := by
  have he := entry_frame env event s
  rw [EVENT_key_eq]
  split_ifs
  · have hp := press_frame env event (env.XLookupString event)
      (EVENT_key.translate (HIBYTE (LOWORD (env.XLookupString event).keysym))
        (LOBYTE (LOWORD (env.XLookupString event).keysym))) (EVENT_key.entry env event s)
    exact ⟨hp.1.trans he.1, Extends.trans he.2 hp.2⟩
  · have hp := release_frame env event
      (EVENT_key.translate (HIBYTE (LOWORD (env.XLookupString event).keysym))
        (LOBYTE (LOWORD (env.XLookupString event).keysym))) (EVENT_key.entry env event s)
    exact ⟨hp.1.trans he.1, Extends.trans he.2 hp.2⟩

theorem EVENT_ButtonPress_frame (env : Env) (event : XEvent) (s : State) :
    (EVENT_ButtonPress env event s).queue = s.queue ∧
      s.Extends (EVENT_ButtonPress env event s) := by
  unfold State.Extends EVENT_ButtonPress
  simp only []
  split_ifs <;> simp [State.emit]

theorem EVENT_ButtonRelease_frame (env : Env) (event : XEvent) (s : State) :
    (EVENT_ButtonRelease env event s).queue = s.queue ∧
      s.Extends (EVENT_ButtonRelease env event s) := by
  unfold State.Extends EVENT_ButtonRelease
  simp only []
  split_ifs <;> simp [State.emit]

theorem EVENT_MotionNotify_frame (env : Env) (event : XEvent) (s : State) :
    (EVENT_MotionNotify env event s).queue = s.queue ∧
      s.Extends (EVENT_MotionNotify env event s) := by
  unfold State.Extends EVENT_MotionNotify
  simp [State.emit]

theorem EVENT_FocusIn_frame (env : Env) (hwnd : Nat) (event : XEvent) (s : State) :
    (EVENT_FocusIn env hwnd event s).queue = s.queue ∧
      s.Extends (EVENT_FocusIn env hwnd event s) := by
  unfold State.Extends EVENT_FocusIn
  simp only []
  split_ifs <;> simp [State.emit]

theorem EVENT_FocusOut_frame (env : Env) (hwnd : Nat) (event : XEvent) (s : State) :
    (EVENT_FocusOut env hwnd event s).queue = s.queue ∧
      s.Extends (EVENT_FocusOut env hwnd event s) := by
  unfold State.Extends EVENT_FocusOut
  simp only []
  split_ifs <;> simp [State.emit]

theorem EVENT_Expose_frame (hwnd : Nat) (event : XEvent) (s : State) :
    (EVENT_Expose hwnd event s).queue = s.queue ∧ s.Extends (EVENT_Expose hwnd event s) := by
  unfold State.Extends EVENT_Expose
  split <;> simp [State.emit]

theorem EVENT_GraphicsExpose_frame (hwnd : Nat) (event : XEvent) (s : State) :
    (EVENT_GraphicsExpose hwnd event s).queue = s.queue ∧
      s.Extends (EVENT_GraphicsExpose hwnd event s) := by
  unfold State.Extends EVENT_GraphicsExpose
  split <;> simp [State.emit]

theorem EVENT_ConfigureNotify_frame (env : Env) (hwnd : Nat) (event : XEvent) (s : State) :
    (EVENT_ConfigureNotify env hwnd event s).queue = s.queue ∧
      s.Extends (EVENT_ConfigureNotify env hwnd event s) := by
  unfold State.Extends EVENT_ConfigureNotify
  by_cases hd : env.desktop = none ∨ env.desktop = some hwnd
  · rw [if_pos hd]; simp
  · rw [if_neg hd]
    cases hw : s.wnd hwnd with
    | none => simp
    | some w =>
      simp only []
      by_cases hm : w.flags &&& env.WIN_MANAGED = 0
      · rw [if_pos hm]; simp
      · rw [if_neg hm]
        by_cases ha : env.segptrAlloc = true
        · simp [ha, State.emit]
        · simp [ha]

theorem EVENT_SelectionRequest_frame (env : Env) (hwnd : Nat) (event : XEvent) (s : State) :
    (EVENT_SelectionRequest env hwnd event s).queue = s.queue ∧
      s.Extends (EVENT_SelectionRequest env hwnd event s) := by
  unfold State.Extends EVENT_SelectionRequest
  simp only []
  split_ifs <;> simp [State.emit]

theorem EVENT_SelectionNotify_frame (event : XEvent) (s : State) :
    (EVENT_SelectionNotify event s).queue = s.queue ∧
      s.Extends (EVENT_SelectionNotify event s) := by
  unfold State.Extends EVENT_SelectionNotify
  simp only []
  split_ifs <;> simp [State.emit]

theorem EVENT_SelectionClear_frame (hwnd : Nat) (event : XEvent) (s : State) :
    (EVENT_SelectionClear hwnd event s).queue = s.queue ∧
      s.Extends (EVENT_SelectionClear hwnd event s) := by
  unfold State.Extends EVENT_SelectionClear
  split_ifs <;> simp [State.emit]

theorem EVENT_ClientMessage_frame (env : Env) (hwnd : Nat) (event : XEvent) (s : State) :
    (EVENT_ClientMessage env hwnd event s).queue = s.queue ∧
      s.Extends (EVENT_ClientMessage env hwnd event s) := by
  unfold State.Extends EVENT_ClientMessage
  split_ifs <;> simp [State.emit]

theorem EVENT_MapNotify_frame (env : Env) (hWnd : Nat) (s : State) :
    (EVENT_MapNotify env hWnd s).queue = s.queue ∧ s.Extends (EVENT_MapNotify env hWnd s) := by
  unfold State.Extends EVENT_MapNotify
  simp only []
  split_ifs <;> simp [State.emit]

theorem withoutMotionsFor_length (w : Nat) (q : List XEvent) :
    (withoutMotionsFor w q).length ≤ q.length := List.length_filter_le _ _

/-- Case analysis on what `EVENT_ProcessEvent` does: a property holds of its
result as soon as it holds of the unchanged state and of the result of every
handler the event can be routed to. -/
theorem EVENT_ProcessEvent_cases (P : State → Prop) (env : Env) (event : XEvent) (s : State)
    (hskip : P s)
    (hkey : P (EVENT_key env event s))
    (hpress : P (EVENT_ButtonPress env event s))
    (hrelease : P (EVENT_ButtonRelease env event s))
    (hmotion : event.type = MotionNotify →
      P (EVENT_MotionNotify env (((motionsFor event.window s.queue).getLast?).getD event)
        { s with queue := withoutMotionsFor event.window s.queue }))
    (hother : ∀ hwnd,
      P (EVENT_FocusIn env hwnd event s) ∧ P (EVENT_FocusOut env hwnd event s) ∧
      P (EVENT_Expose hwnd event s) ∧ P (EVENT_GraphicsExpose hwnd event s) ∧
      P (EVENT_ConfigureNotify env hwnd event s) ∧ P (EVENT_SelectionRequest env hwnd event s) ∧
      P (EVENT_SelectionNotify event s) ∧ P (EVENT_SelectionClear hwnd event s) ∧
      P (EVENT_ClientMessage env hwnd event s) ∧ P (EVENT_MapNotify env hwnd s)) :
    P (EVENT_ProcessEvent env event s) := by
  unfold EVENT_ProcessEvent
  split
  · exact hskip
  · rename_i hwnd _
    obtain ⟨a1, a2, a3, a4, a5, a6, a7, a8, a9, a10⟩ := hother hwnd
    by_cases hk : event.type = KeyPress ∨ event.type = KeyRelease
    · rw [if_pos hk]
      by_cases hj : env.journalHook = 0
      · rw [if_pos hj]; exact hkey
      · rw [if_neg hj]; exact hskip
    rw [if_neg hk]
    by_cases hbp : event.type = ButtonPress
    · rw [if_pos hbp]
      by_cases hj : env.journalHook = 0
      · rw [if_pos hj]; exact hpress
      · rw [if_neg hj]; exact hskip
    rw [if_neg hbp]
    by_cases hbr : event.type = ButtonRelease
    · rw [if_pos hbr]
      by_cases hj : env.journalHook = 0
      · rw [if_pos hj]; exact hrelease
      · rw [if_neg hj]; exact hskip
    rw [if_neg hbr]
    by_cases hm : event.type = MotionNotify
    · rw [if_pos hm]
      by_cases hj : env.journalHook = 0
      · rw [if_pos hj, motionLoop_spec event.window _ event s.queue le_rfl]
        exact hmotion hm
      · rw [if_neg hj]; exact hskip
    rw [if_neg hm]
    by_cases c1 : event.type = FocusIn
    · rw [if_pos c1]; exact a1
    rw [if_neg c1]
    by_cases c2 : event.type = FocusOut
    · rw [if_pos c2]; exact a2
    rw [if_neg c2]
    by_cases c3 : event.type = Expose
    · rw [if_pos c3]; exact a3
    rw [if_neg c3]
    by_cases c4 : event.type = GraphicsExpose
    · rw [if_pos c4]; exact a4
    rw [if_neg c4]
    by_cases c5 : event.type = ConfigureNotify
    · rw [if_pos c5]; exact a5
    rw [if_neg c5]
    by_cases c6 : event.type = SelectionRequest
    · rw [if_pos c6]; exact a6
    rw [if_neg c6]
    by_cases c7 : event.type = SelectionNotify
    · rw [if_pos c7]; exact a7
    rw [if_neg c7]
    by_cases c8 : event.type = SelectionClear
    · rw [if_pos c8]; exact a8
    rw [if_neg c8]
    by_cases c9 : event.type = ClientMessage
    · rw [if_pos c9]; exact a9
    rw [if_neg c9]
    by_cases c10 : event.type = MapNotify
    · rw [if_pos c10]; exact a10
    rw [if_neg c10]
    exact hskip

theorem EVENT_ProcessEvent_frame (env : Env) (event : XEvent) (s : State) :
    ((EVENT_ProcessEvent env event s).queue = s.queue ∨
      (event.type = MotionNotify ∧
        (EVENT_ProcessEvent env event s).queue = withoutMotionsFor event.window s.queue)) ∧
    s.Extends (EVENT_ProcessEvent env event s) := by
  apply EVENT_ProcessEvent_cases
    (fun s1 => (s1.queue = s.queue ∨
      (event.type = MotionNotify ∧ s1.queue = withoutMotionsFor event.window s.queue)) ∧
      s.Extends s1)
  · exact ⟨Or.inl rfl, Extends.refl s⟩
  · exact ⟨Or.inl (EVENT_key_frame _ _ _).1, (EVENT_key_frame _ _ _).2⟩
  · exact ⟨Or.inl (EVENT_ButtonPress_frame _ _ _).1, (EVENT_ButtonPress_frame _ _ _).2⟩
  · exact ⟨Or.inl (EVENT_ButtonRelease_frame _ _ _).1, (EVENT_ButtonRelease_frame _ _ _).2⟩
  · intro hm
    exact ⟨Or.inr ⟨hm, rfl⟩, Extends.of_out
      (EVENT_MotionNotify_frame env (((motionsFor event.window s.queue).getLast?).getD event) s).2
      rfl⟩
  · intro hwnd
    exact ⟨⟨Or.inl (EVENT_FocusIn_frame _ _ _ _).1, (EVENT_FocusIn_frame _ _ _ _).2⟩,
      ⟨Or.inl (EVENT_FocusOut_frame _ _ _ _).1, (EVENT_FocusOut_frame _ _ _ _).2⟩,
      ⟨Or.inl (EVENT_Expose_frame _ _ _).1, (EVENT_Expose_frame _ _ _).2⟩,
      ⟨Or.inl (EVENT_GraphicsExpose_frame _ _ _).1, (EVENT_GraphicsExpose_frame _ _ _).2⟩,
      ⟨Or.inl (EVENT_ConfigureNotify_frame _ _ _ _).1, (EVENT_ConfigureNotify_frame _ _ _ _).2⟩,
      ⟨Or.inl (EVENT_SelectionRequest_frame _ _ _ _).1,
        (EVENT_SelectionRequest_frame _ _ _ _).2⟩,
      ⟨Or.inl (EVENT_SelectionNotify_frame _ _).1, (EVENT_SelectionNotify_frame _ _).2⟩,
      ⟨Or.inl (EVENT_SelectionClear_frame _ _ _).1, (EVENT_SelectionClear_frame _ _ _).2⟩,
      ⟨Or.inl (EVENT_ClientMessage_frame _ _ _ _).1, (EVENT_ClientMessage_frame _ _ _ _).2⟩,
      ⟨Or.inl (EVENT_MapNotify_frame _ _ _).1, (EVENT_MapNotify_frame _ _ _).2⟩⟩

theorem EVENT_ProcessEvent_queue_length (env : Env) (event : XEvent) (s : State) :
    (EVENT_ProcessEvent env event s).queue.length ≤ s.queue.length := by
  rcases (EVENT_ProcessEvent_frame env event s).1 with h | ⟨_, h⟩
  · rw [h]
  · rw [h]; exact withoutMotionsFor_length _ _

theorem EVENT_ProcessEvent_queue (env : Env) (event : XEvent) (s : State)
    (h : event.type ≠ MotionNotify) : (EVENT_ProcessEvent env event s).queue = s.queue := by
  rcases (EVENT_ProcessEvent_frame env event s).1 with h1 | ⟨h1, _⟩
  · exact h1
  · exact absurd h1 h

/-! ## The wait loop -/

/-- The drain loop terminates: with at least as many iterations allowed as events
are queued it returns, the queue is then empty, and no timer was expired. -/
theorem drain_terminates (env : Env) :
    ∀ (fuel : Nat) (s : State), s.queue ≠ [] → s.queue.length ≤ fuel →
      ∃ s1, EVENT_WaitXEvent.drain env fuel s = some s1 ∧ s1.queue = [] ∧ s.Extends s1 := by
  intro fuel
  induction fuel with
  | zero =>
    intro s hne hlen
    exact absurd (List.length_eq_zero.mp (Nat.le_zero.mp hlen)) hne
  | succ n ih =>
    intro s hne hlen
    obtain ⟨event, rest, hq⟩ := List.exists_cons_of_ne_nil hne
    have hlen2 : rest.length ≤ n := by rw [hq] at hlen; simpa using hlen
    have hf := EVENT_ProcessEvent_frame env event { s with queue := rest }
    have hl := EVENT_ProcessEvent_queue_length env event { s with queue := rest }
    have hext : s.Extends (EVENT_ProcessEvent env event { s with queue := rest }) := hf.2
    unfold EVENT_WaitXEvent.drain
    rw [hq]
    simp only []
    by_cases hemp : (EVENT_ProcessEvent env event { s with queue := rest }).queue.isEmpty = true
    · rw [if_pos hemp]
      exact ⟨_, rfl, List.isEmpty_iff.mp hemp, hext⟩
    · rw [if_neg hemp]
      have hne2 : (EVENT_ProcessEvent env event { s with queue := rest }).queue ≠ [] :=
        fun h0 => hemp (List.isEmpty_iff.mpr h0)
      obtain ⟨s1, h1, h2, h3⟩ := ih _ hne2 (le_trans hl hlen2)
      exact ⟨s1, h1, h2, Extends.trans hext h3⟩

/-- Without motion events in the queue, the drain loop passes every queued event
to `EVENT_ProcessEvent`, oldest first. -/
theorem drain_dispatchInOrder (env : Env) :
    ∀ (pending : List XEvent) (fuel : Nat) (s : State), s.queue = pending → pending ≠ [] →
      (∀ e ∈ pending, e.type ≠ MotionNotify) → pending.length ≤ fuel →
      EVENT_WaitXEvent.drain env fuel s = some (dispatchInOrder env pending s) := by
  intro pending
  induction pending with
  | nil => intro fuel s _ hne; exact absurd rfl hne
  | cons event rest ih =>
    intro fuel s hq _ hall hlen
    obtain ⟨n, rfl⟩ : ∃ n, fuel = n + 1 := ⟨fuel - 1, by simp at hlen; omega⟩
    have hlen2 : rest.length ≤ n := by simpa using hlen
    have hqueue : (EVENT_ProcessEvent env event { s with queue := rest }).queue = rest :=
      EVENT_ProcessEvent_queue env event { s with queue := rest }
        (hall event (List.mem_cons_self _ _))
    unfold EVENT_WaitXEvent.drain
    rw [hq]
    simp only []
    by_cases hemp : (EVENT_ProcessEvent env event { s with queue := rest }).queue.isEmpty = true
    · rw [if_pos hemp]
      have hr : rest = [] := by rw [← hqueue]; exact List.isEmpty_iff.mp hemp
      subst hr
      rfl
    · rw [if_neg hemp]
      have hr : rest ≠ [] := by
        intro h0; apply hemp; rw [hqueue, h0]; rfl
      exact ih n _ hqueue hr (fun e he => hall e (List.mem_cons_of_mem _ he)) hlen2

/-- Whenever the drain loop returns, the trace was only continued. -/
theorem drain_extends (env : Env) :
    ∀ (fuel : Nat) (s s1 : State), EVENT_WaitXEvent.drain env fuel s = some s1 →
      s.Extends s1 := by
  intro fuel
  induction fuel with
  | zero => intro s s1 h; simp [EVENT_WaitXEvent.drain] at h
  | succ n ih =>
    intro s s1 h
    unfold EVENT_WaitXEvent.drain at h
    cases hq : s.queue with
    | nil => rw [hq] at h; simp at h
    | cons event rest =>
      rw [hq] at h
      simp only [] at h
      have hext : s.Extends (EVENT_ProcessEvent env event { s with queue := rest }) :=
        (EVENT_ProcessEvent_frame env event { s with queue := rest }).2
      by_cases hemp : (EVENT_ProcessEvent env event { s with queue := rest }).queue.isEmpty = true
      · rw [if_pos hemp] at h
        rw [← Option.some.inj h]
        exact hext
      · rw [if_neg hemp] at h
        exact Extends.trans hext (ih _ _ h)

theorem Extends.of_out_left {s s0 s1 : State} (h : s0.Extends s1) (ho : s0.out = s.out) :
    s.Extends s1 := by
  obtain ⟨l, e, n⟩ := h
  exact ⟨l, by rw [e, ho], n⟩

theorem spec_pendingAfter_length (env : Env) (s : State) (event : XEvent)
    (rest : List XEvent) : (spec_pendingAfter env s event rest).length ≤ rest.length := by
  unfold spec_pendingAfter
  split_ifs
  · exact withoutMotionsFor_length _ _
  · exact le_rfl

/-- The queue `EVENT_ProcessEvent` leaves. -/
theorem EVENT_ProcessEvent_pending (env : Env) (event : XEvent) (s : State)
    (rest : List XEvent) :
    (EVENT_ProcessEvent env event { s with queue := rest }).queue =
      spec_pendingAfter env s event rest := by
  unfold spec_pendingAfter
  by_cases hty : event.type = MotionNotify
  · cases hreg : s.winContext event.window with
    | none =>
      rw [if_neg (by simp)]
      have h : EVENT_ProcessEvent env event { s with queue := rest } =
          { s with queue := rest } := by
        unfold EVENT_ProcessEvent
        simp only [hreg]
      rw [h]
    | some hwnd =>
      by_cases hhook : env.journalHook = 0
      · rw [if_pos ⟨by simp, hty, hhook⟩,
          EVENT_ProcessEvent_motion env event { s with queue := rest } hwnd hreg hty hhook]
        rfl
      · rw [if_neg (fun h => hhook h.2.2)]
        have h : EVENT_ProcessEvent env event { s with queue := rest } =
            { s with queue := rest } := by
          unfold EVENT_ProcessEvent
          simp only [hreg, hty, MotionNotify, KeyPress, KeyRelease, ButtonPress, ButtonRelease]
          simp only [Nat.reduceEqDiff, or_self, if_false, if_true, hhook]
        rw [h]
  · rw [if_neg (fun h => hty h.2.1)]
    exact EVENT_ProcessEvent_queue env event { s with queue := rest } hty

/-- With at least as many iterations allowed as events are pending, the drain loop
returns the state of the dispatch pass. -/
theorem drain_dispatchPass (env : Env) :
    ∀ (n : Nat) (pending : List XEvent) (fuel : Nat) (s : State), s.queue = pending →
      pending ≠ [] → pending.length ≤ n → pending.length ≤ fuel →
      EVENT_WaitXEvent.drain env fuel s = some (spec_dispatchPass env n pending s).2 := by
  intro n
  induction n with
  | zero =>
    intro pending fuel s _ hne hn
    exact absurd (List.length_eq_zero.mp (Nat.le_zero.mp hn)) hne
  | succ n ih =>
    intro pending fuel s hq hne hn hf
    obtain ⟨event, rest, rfl⟩ := List.exists_cons_of_ne_nil hne
    obtain ⟨f, rfl⟩ : ∃ f, fuel = f + 1 := ⟨fuel - 1, by simp at hf; omega⟩
    have hpend := EVENT_ProcessEvent_pending env event s rest
    have hlen := spec_pendingAfter_length env s event rest
    have hn2 : rest.length ≤ n := by simpa using hn
    have hf2 : rest.length ≤ f := by simpa using hf
    unfold EVENT_WaitXEvent.drain
    rw [hq]
    simp only []
    by_cases hemp : (EVENT_ProcessEvent env event { s with queue := rest }).queue.isEmpty = true
    · rw [if_pos hemp]
      have h0 : spec_pendingAfter env s event rest = [] := by
        rw [← hpend]; exact List.isEmpty_iff.mp hemp
      rw [spec_dispatchPass, h0]
      cases n <;> rfl
    · rw [if_neg hemp]
      have hne2 : spec_pendingAfter env s event rest ≠ [] := by
        intro h0; apply hemp; rw [hpend, h0]; rfl
      rw [ih (spec_pendingAfter env s event rest) f _ hpend hne2 (le_trans hlen hn2)
        (le_trans hlen hf2)]
      rfl

/-- The events a dispatch pass hands to `EVENT_ProcessEvent` are pending events, in
the order in which they are pending. -/
theorem spec_dispatchPass_sublist (env : Env) :
    ∀ (n : Nat) (pending : List XEvent) (s : State),
      (spec_dispatchPass env n pending s).1.Sublist pending := by
  intro n
  induction n with
  | zero => intro pending s; exact List.nil_sublist _
  | succ n ih =>
    intro pending s
    cases pending with
    | nil => exact List.nil_sublist _
    | cons event rest =>
      rw [spec_dispatchPass]
      refine List.Sublist.cons₂ event ((ih _ _).trans ?_)
      unfold spec_pendingAfter
      split_ifs
      · exact List.filter_sublist _
      · exact List.Sublist.refl _

/-- A pending event that a dispatch pass does not hand to `EVENT_ProcessEvent` is a
motion event for a window for which the pass dispatches a motion event. -/
theorem spec_dispatchPass_skipped (env : Env) :
    ∀ (n : Nat) (pending : List XEvent) (s : State), pending.length ≤ n →
      ∀ e ∈ pending, e ∉ (spec_dispatchPass env n pending s).1 →
        e.type = MotionNotify ∧
        ∃ d ∈ (spec_dispatchPass env n pending s).1,
          d.type = MotionNotify ∧ d.window = e.window := by
  intro n
  induction n with
  | zero =>
    intro pending s hn e he
    rw [List.length_eq_zero.mp (Nat.le_zero.mp hn)] at he
    simp at he
  | succ n ih =>
    intro pending s hn e he hnot
    cases pending with
    | nil => simp at he
    | cons event rest =>
      rw [spec_dispatchPass] at hnot ⊢
      simp only [List.mem_cons, not_or] at hnot
      have hn2 : rest.length ≤ n := by simpa using hn
      have hlen := spec_pendingAfter_length env s event rest
      rcases List.mem_cons.mp he with rfl | herest
      · exact absurd rfl hnot.1
      · by_cases hin : e ∈ spec_pendingAfter env s event rest
        · obtain ⟨h1, d, hd, h2, h3⟩ := ih _ _ (le_trans hlen hn2) e hin hnot.2
          exact ⟨h1, d, List.mem_cons_of_mem _ hd, h2, h3⟩
        · unfold spec_pendingAfter at hin
          by_cases hc : (s.winContext event.window).isSome ∧ event.type = MotionNotify ∧
              env.journalHook = 0
          · rw [if_pos hc] at hin
            unfold withoutMotionsFor at hin
            have ht : XEvent.isTyped event.window MotionNotify e = true := by
              by_contra hcon
              exact hin (List.mem_filter.mpr ⟨herest, by simp [hcon]⟩)
            simp only [XEvent.isTyped, Bool.and_eq_true, decide_eq_true_eq] at ht
            exact ⟨ht.2, event, List.mem_cons_self _ _, hc.2.1, ht.1.symm⟩
          · rw [if_neg hc] at hin
            exact absurd herest hin

/-- **C9.** `EVENT_WaitXEvent` (the build without `CONFIG_IPC`) returns TRUE
exactly when at least one event was available, already queued or reported by
`select` before the timeout.  In that case the drain loop terminates (for every
iteration bound from the number of pending events on), no event is left pending,
no timer is expired, and the state is that of one dispatch pass over the pending
events (`spec_dispatchPass`): the oldest pending event is passed to
`EVENT_ProcessEvent` with the others queued behind it, and so on with what is then
still pending.  The events passed to `EVENT_ProcessEvent` are pending events in
their pending order, beginning with the oldest, and a pending event that is not
passed is a motion event for a window for which a motion event is passed (it was
coalesced); with no motion event pending, every pending event is passed to
`EVENT_ProcessEvent`, oldest first.  A backlog of a motion event, a key press and a
key release is dispatched as three messages.
Otherwise (`select` timing out or failing with nothing queued) no event is
dispatched, `TIMER_ExpireTimers` is called exactly once and the result is FALSE.
When `sleep` is false the timeout handed to `select` is zero. -/
theorem EVENT_WaitXEvent_result (env : Env) (sleep : Bool) (s : State) :
    (s.queue ≠ [] → ∀ fuel, s.queue.length ≤ fuel →
      ∃ s1, EVENT_WaitXEvent env fuel sleep s = some (true, s1) ∧ s1.queue = [] ∧
        s.Extends s1 ∧
        s1 = (spec_dispatchPass env s.queue.length s.queue s).2 ∧
        ((∀ e ∈ s.queue, e.type ≠ MotionNotify) → s1 = dispatchInOrder env s.queue s)) ∧
    (s.queue = [] → ∀ arrived, env.selectResult = .ready arrived → arrived ≠ [] →
      ∀ fuel, arrived.length ≤ fuel →
      ∃ s1, EVENT_WaitXEvent env fuel sleep s = some (true, s1) ∧ s1.queue = [] ∧
        (s.emit (.select ((if sleep then env.TIMER_GetNextExpiration else 0).tdiv 1000)
          ((if sleep then env.TIMER_GetNextExpiration else 0).tmod 1000 * 1000))).Extends s1 ∧
        s1 = (spec_dispatchPass env arrived.length arrived
          { s.emit (.select ((if sleep then env.TIMER_GetNextExpiration else 0).tdiv 1000)
              ((if sleep then env.TIMER_GetNextExpiration else 0).tmod 1000 * 1000)) with
            queue := arrived }).2 ∧
        ((∀ e ∈ arrived, e.type ≠ MotionNotify) →
          s1 = dispatchInOrder env arrived
            { s.emit (.select ((if sleep then env.TIMER_GetNextExpiration else 0).tdiv 1000)
                ((if sleep then env.TIMER_GetNextExpiration else 0).tmod 1000 * 1000)) with
              queue := arrived })) ∧
    (s.queue = [] → env.selectResult = .timeout ∨ env.selectResult = .error →
      ∀ fuel, EVENT_WaitXEvent env fuel sleep s =
        some (false,
          (s.emit (.select ((if sleep then env.TIMER_GetNextExpiration else 0).tdiv 1000)
            ((if sleep then env.TIMER_GetNextExpiration else 0).tmod 1000 * 1000))).emit
            .TIMER_ExpireTimers)) ∧
    (∀ fuel s1, EVENT_WaitXEvent env fuel sleep s = some (true, s1) →
      s.queue ≠ [] ∨ ∃ arrived, env.selectResult = .ready arrived ∧ arrived ≠ []) ∧
    (s.queue = [] → ∀ fuel r, EVENT_WaitXEvent env fuel false s = some r →
      s.out ++ [.select 0 0] <+: r.2.out) ∧
    (∀ (pending : List XEvent) (s0 : State),
      (spec_dispatchPass env pending.length pending s0).1.Sublist pending ∧
      (spec_dispatchPass env pending.length pending s0).1.head? = pending.head? ∧
      ∀ e ∈ pending, e ∉ (spec_dispatchPass env pending.length pending s0).1 →
        e.type = MotionNotify ∧
        ∃ d ∈ (spec_dispatchPass env pending.length pending s0).1,
          d.type = MotionNotify ∧ d.window = e.window) ∧
    (EVENT_WaitXEvent sampleEnv 3 false { sampleState with queue := sampleBacklog }).map
        (fun r => (r.1, r.2.messages.map Effect.msg, r.2.queue)) =
      some (true, [WM_MOUSEMOVE, WM_KEYDOWN, WM_KEYUP], []) := by
  refine ⟨?_, ?_, ?_, ?_, ?_, ?_, by decide⟩
  · intro hne fuel hlen
    have hemp : s.queue.isEmpty = false := by
      cases hq : s.queue with
      | nil => exact absurd hq hne
      | cons a l => rfl
    obtain ⟨s1, h1, h2, h3⟩ := drain_terminates env fuel s hne hlen
    refine ⟨s1, ?_, h2, h3, ?_, ?_⟩
    · unfold EVENT_WaitXEvent
      rw [hemp, h1]
      rfl
    · have hd := drain_dispatchPass env s.queue.length s.queue fuel s rfl hne le_rfl hlen
      rw [h1] at hd
      exact Option.some.inj hd
    · intro hall
      have hd := drain_dispatchInOrder env s.queue fuel s rfl hne hall hlen
      rw [h1] at hd
      exact Option.some.inj hd
  · intro hq arrived hsel hne fuel hlen
    have hemp : s.queue.isEmpty = true := by rw [hq]; rfl
    obtain ⟨s1, h1, h2, h3⟩ := drain_terminates env fuel
      { s.emit (.select ((if sleep then env.TIMER_GetNextExpiration else 0).tdiv 1000)
          ((if sleep then env.TIMER_GetNextExpiration else 0).tmod 1000 * 1000)) with
        queue := arrived } hne hlen
    have hrun : EVENT_WaitXEvent env fuel sleep s = some (true, s1) := by
      unfold EVENT_WaitXEvent
      rw [if_pos hemp]
      simp only [hsel, emit_queue, hq, List.nil_append]
      rw [h1]
      rfl
    refine ⟨s1, hrun, h2, Extends.of_out_left h3 rfl, ?_, ?_⟩
    · have hd := drain_dispatchPass env arrived.length arrived fuel
        { s.emit (.select ((if sleep then env.TIMER_GetNextExpiration else 0).tdiv 1000)
            ((if sleep then env.TIMER_GetNextExpiration else 0).tmod 1000 * 1000)) with
          queue := arrived } rfl hne le_rfl hlen
      rw [h1] at hd
      exact Option.some.inj hd
    intro hall
    have hd := drain_dispatchInOrder env arrived fuel
      { s.emit (.select ((if sleep then env.TIMER_GetNextExpiration else 0).tdiv 1000)
          ((if sleep then env.TIMER_GetNextExpiration else 0).tmod 1000 * 1000)) with
        queue := arrived } rfl hne hall hlen
    rw [h1] at hd
    exact Option.some.inj hd
  · intro hq hsel fuel
    have hemp : s.queue.isEmpty = true := by rw [hq]; rfl
    unfold EVENT_WaitXEvent
    rw [if_pos hemp]
    rcases hsel with h | h <;> simp only [h]
  · intro fuel s1 hrun
    by_cases hq : s.queue = []
    · right
      have hemp : s.queue.isEmpty = true := by rw [hq]; rfl
      unfold EVENT_WaitXEvent at hrun
      rw [if_pos hemp] at hrun
      cases hsel : env.selectResult with
      | ready arrived =>
        refine ⟨arrived, rfl, ?_⟩
        intro h0
        subst h0
        simp only [hsel, emit_queue, hq, List.append_nil] at hrun
        cases fuel <;> simp [EVENT_WaitXEvent.drain] at hrun
      | timeout => simp [hsel] at hrun
      | error => simp [hsel] at hrun
    · exact Or.inl hq
  · intro hq fuel r hrun
    have hemp : s.queue.isEmpty = true := by rw [hq]; rfl
    unfold EVENT_WaitXEvent at hrun
    rw [if_pos hemp] at hrun
    simp only [Bool.false_eq_true, if_false, Int.zero_tmod, Int.zero_tdiv, zero_mul] at hrun
    cases hsel : env.selectResult with
    | ready arrived =>
      simp only [hsel, emit_queue, hq, List.nil_append, Option.map_eq_some'] at hrun
      obtain ⟨s2, hs2, rfl⟩ := hrun
      obtain ⟨l, hl, _⟩ := drain_extends env fuel _ _ hs2
      exact ⟨l, hl.symm⟩
    | timeout =>
      simp only [hsel, Option.some.injEq] at hrun
      subst hrun
      exact ⟨[.TIMER_ExpireTimers], by simp [State.emit]⟩
    | error =>
      simp only [hsel, Option.some.injEq] at hrun
      subst hrun
      exact ⟨[.TIMER_ExpireTimers], by simp [State.emit]⟩
  · intro pending s0
    refine ⟨spec_dispatchPass_sublist env _ _ _, ?_,
      spec_dispatchPass_skipped env _ _ _ le_rfl⟩
    cases pending <;> rfl

/-! ## Events that are dropped -/

/-- **C10.** `EVENT_ProcessEvent` has no effect at all (the whole state, with the
trace of emitted messages, `KeyStateTable`, the button-state arrays, the capture
holder, the desktop offset, the window rectangles and the event queue, is left as
it is) for every event whose X window has no registered window record; and
likewise for every key, button and motion event, on a registered window or not,
while a journal playback hook is installed. -/
theorem EVENT_ProcessEvent_drops (env : Env) (event : XEvent) (s : State) :
    (s.winContext event.window = none → EVENT_ProcessEvent env event s = s) ∧
    (env.journalHook ≠ 0 →
      event.type = KeyPress ∨ event.type = KeyRelease ∨ event.type = ButtonPress ∨
        event.type = ButtonRelease ∨ event.type = MotionNotify →
      EVENT_ProcessEvent env event s = s) := by
  constructor
  · intro h
    unfold EVENT_ProcessEvent
    rw [h]
  · intro hj ht
    unfold EVENT_ProcessEvent
    split
    · rfl
    · rcases ht with h | h | h | h | h
      · rw [if_pos (Or.inl h), if_neg hj]
      · rw [if_pos (Or.inr h), if_neg hj]
      · have n1 : ¬ (event.type = KeyPress ∨ event.type = KeyRelease) := by rw [h]; decide
        rw [if_neg n1, if_pos h, if_neg hj]
      · have n1 : ¬ (event.type = KeyPress ∨ event.type = KeyRelease) := by rw [h]; decide
        have n2 : ¬ event.type = ButtonPress := by rw [h]; decide
        rw [if_neg n1, if_neg n2, if_pos h, if_neg hj]
      · have n1 : ¬ (event.type = KeyPress ∨ event.type = KeyRelease) := by rw [h]; decide
        have n2 : ¬ event.type = ButtonPress := by rw [h]; decide
        have n3 : ¬ event.type = ButtonRelease := by rw [h]; decide
        rw [if_neg n1, if_neg n2, if_neg n3, if_pos h, if_neg hj]

/-! ## Buttons -/

theorem buttonNumOf_of_fit (b : Nat) (h1 : 1 ≤ b) (h2 : b ≤ 2147483648) :
    buttonNumOf b = (b : Int) - 1 := by
  unfold buttonNumOf
  have hb : b % 4294967296 = b := Nat.mod_eq_of_lt (by omega)
  simp only [hb]
  rw [if_neg (by omega), if_pos (by omega)]
  simp only [Int.ofNat_eq_coe]
  omega

theorem EVENT_ButtonPress_eq (env : Env) (event : XEvent) (s : State) :
    EVENT_ButtonPress env event s =
      if buttonNumOf event.button ≥ NB_BUTTONS then s
      else
        { s with
          MouseButtonsStates :=
            Function.update s.MouseButtonsStates (buttonNumOf event.button) 0x8000
          AsyncMouseButtonsStates :=
            Function.update s.AsyncMouseButtonsStates (buttonNumOf event.button) 0x8000
          out := s.out ++
            [.hardware_event
              (messageAt [WM_LBUTTONDOWN, WM_MBUTTONDOWN, WM_RBUTTONDOWN]
                (buttonNumOf event.button))
              (EVENT_XStateToKeyState event.state) 0
              (event.x_root - s.desktopX) (event.y_root - s.desktopY)
              (subDWORD event.time env.MSG_WineStartTicks) 0] } := rfl

theorem EVENT_ButtonRelease_eq (env : Env) (event : XEvent) (s : State) :
    EVENT_ButtonRelease env event s =
      if buttonNumOf event.button ≥ NB_BUTTONS then s
      else
        { s with
          MouseButtonsStates := Function.update s.MouseButtonsStates (buttonNumOf event.button) 0
          out := s.out ++
            [.hardware_event
              (messageAt [WM_LBUTTONUP, WM_MBUTTONUP, WM_RBUTTONUP] (buttonNumOf event.button))
              (EVENT_XStateToKeyState event.state) 0
              (event.x_root - s.desktopX) (event.y_root - s.desktopY)
              (subDWORD event.time env.MSG_WineStartTicks) 0] } := rfl

/-- **C11.** For every button press or release event whose button index
`buttonNum` is 3 or higher, `EVENT_ButtonPress` and `EVENT_ButtonRelease` return
the state as it is: no message is emitted and `MouseButtonsStates` and
`AsyncMouseButtonsStates` are unchanged.  Every native button number from 4 on has
such an index (as long as the number minus one fits the `int` it is stored in; an X
button number is 8 bits wide). -/
theorem EVENT_Button_ignores_fourth_button (env : Env) (event : XEvent) (s : State) :
    (buttonNumOf event.button ≥ NB_BUTTONS →
      EVENT_ButtonPress env event s = s ∧ EVENT_ButtonRelease env event s = s) ∧
    (4 ≤ event.button → event.button ≤ 2147483648 →
      buttonNumOf event.button ≥ NB_BUTTONS ∧
      EVENT_ButtonPress env event s = s ∧ EVENT_ButtonRelease env event s = s) := by
  have key : buttonNumOf event.button ≥ NB_BUTTONS →
      EVENT_ButtonPress env event s = s ∧ EVENT_ButtonRelease env event s = s := by
    intro h
    rw [EVENT_ButtonPress_eq, EVENT_ButtonRelease_eq, if_pos h, if_pos h]
    exact ⟨rfl, rfl⟩
  refine ⟨key, ?_⟩
  intro h4 hfit
  have hidx : buttonNumOf event.button ≥ NB_BUTTONS := by
    rw [buttonNumOf_of_fit _ (by omega) hfit]
    unfold NB_BUTTONS
    omega
  exact ⟨hidx, key hidx⟩

/-- **C12.** For every button event with native button number 1, 2 or 3:
`EVENT_ButtonPress` sets entry `button - 1` of both `MouseButtonsStates` and
`AsyncMouseButtonsStates` to pressed (0x8000) and emits the left/middle/right
button-down message for button 1/2/3; `EVENT_ButtonRelease` clears entry
`button - 1` of `MouseButtonsStates` only, leaves `AsyncMouseButtonsStates` as it is
and emits the matching button-up message; in both cases the message carries
`EVENT_XStateToKeyState (state)` as its flags and the coordinates
`(x_root - desktopX, y_root - desktopY)`, and nothing else changes (the arrays
are updated at that one index, the trace gains that one message). -/
theorem EVENT_Button_tracks_state (env : Env) (event : XEvent) (s : State)
    (hb : event.button = 1 ∨ event.button = 2 ∨ event.button = 3) :
    EVENT_ButtonPress env event s =
      { s with
        MouseButtonsStates :=
          Function.update s.MouseButtonsStates ((event.button : Int) - 1) 0x8000
        AsyncMouseButtonsStates :=
          Function.update s.AsyncMouseButtonsStates ((event.button : Int) - 1) 0x8000
        out := s.out ++
          [.hardware_event
            (if event.button = 1 then WM_LBUTTONDOWN
              else if event.button = 2 then WM_MBUTTONDOWN else WM_RBUTTONDOWN)
            (EVENT_XStateToKeyState event.state) 0
            (event.x_root - s.desktopX) (event.y_root - s.desktopY)
            (subDWORD event.time env.MSG_WineStartTicks) 0] } ∧
    EVENT_ButtonRelease env event s =
      { s with
        MouseButtonsStates := Function.update s.MouseButtonsStates ((event.button : Int) - 1) 0
        out := s.out ++
          [.hardware_event
            (if event.button = 1 then WM_LBUTTONUP
              else if event.button = 2 then WM_MBUTTONUP else WM_RBUTTONUP)
            (EVENT_XStateToKeyState event.state) 0
            (event.x_root - s.desktopX) (event.y_root - s.desktopY)
            (subDWORD event.time env.MSG_WineStartTicks) 0] } := by
  have hidx : buttonNumOf event.button = (event.button : Int) - 1 :=
    buttonNumOf_of_fit _ (by omega) (by omega)
  have hlt : ¬ buttonNumOf event.button ≥ NB_BUTTONS := by
    rw [hidx]; unfold NB_BUTTONS; omega
  rw [EVENT_ButtonPress_eq, EVENT_ButtonRelease_eq, if_neg hlt, if_neg hlt, hidx]
  rcases hb with h | h | h <;> rw [h] <;> exact ⟨rfl, rfl⟩

/-- **C12, witness.** Button 2 is pressed with the shift key held, from the
start-up state: entry 1 of both arrays becomes 0x8000, entry 0 stays 0, and the one
message is WM_MBUTTONDOWN with flag MK_SHIFT at (40, 30).  Its release clears
entry 1 of `MouseButtonsStates` only and adds WM_MBUTTONUP at (41, 30). -/
theorem EVENT_Button_tracks_state_witness :
    (pressButton2.button = 1 ∨ pressButton2.button = 2 ∨ pressButton2.button = 3) ∧
    (EVENT_ButtonPress sampleEnv pressButton2 sampleState).MouseButtonsStates 1 = 0x8000 ∧
    (EVENT_ButtonPress sampleEnv pressButton2 sampleState).AsyncMouseButtonsStates 1 = 0x8000 ∧
    (EVENT_ButtonPress sampleEnv pressButton2 sampleState).MouseButtonsStates 0 = 0 ∧
    (EVENT_ButtonPress sampleEnv pressButton2 sampleState).out =
      [.hardware_event WM_MBUTTONDOWN MK_SHIFT 0 40 30 0 0] ∧
    (EVENT_ButtonRelease sampleEnv releaseButton2
      (EVENT_ButtonPress sampleEnv pressButton2 sampleState)).MouseButtonsStates 1 = 0 ∧
    (EVENT_ButtonRelease sampleEnv releaseButton2
      (EVENT_ButtonPress sampleEnv pressButton2 sampleState)).AsyncMouseButtonsStates 1 =
        0x8000 ∧
    (EVENT_ButtonRelease sampleEnv releaseButton2
      (EVENT_ButtonPress sampleEnv pressButton2 sampleState)).out =
      [.hardware_event WM_MBUTTONDOWN MK_SHIFT 0 40 30 0 0,
        .hardware_event WM_MBUTTONUP (MK_MBUTTON ||| MK_SHIFT) 0 41 30 0 0] :=
  have h := (EVENT_Button_tracks_state sampleEnv pressButton2 sampleState (by decide)).1
  have h2 := (EVENT_Button_tracks_state sampleEnv releaseButton2
    (EVENT_ButtonPress sampleEnv pressButton2 sampleState) (by decide)).2
  ⟨by decide, by rw [h]; decide, by rw [h]; decide, by rw [h]; decide, by rw [h]; decide,
    by rw [h2]; decide, by rw [h2]; decide, by rw [h2]; decide⟩

/-! ## Modifier and button masks -/

/-- A one-bit mask selects a non-zero value exactly when that bit is set. -/
theorem and_two_pow_ne_zero (s i : Nat) : s &&& 2 ^ i ≠ 0 ↔ s.testBit i = true := by
  constructor
  · intro h
    obtain ⟨j, hj⟩ := Nat.ne_zero_implies_bit_true h
    rw [Nat.testBit_and, Bool.and_eq_true, Nat.testBit_two_pow, decide_eq_true_eq] at hj
    rw [hj.2]
    exact hj.1
  · intro h h0
    have : (s &&& 2 ^ i).testBit i = true := by
      rw [Nat.testBit_and, h, Nat.testBit_two_pow_self]
      rfl
    rw [h0] at this
    simp at this

theorem EVENT_XStateToKeyState_tests (s : Nat) :
    EVENT_XStateToKeyState s =
      keyStateOfTests (s.testBit 8) (s.testBit 9) (s.testBit 10) (s.testBit 0) (s.testBit 2) := by
  have h1 : (s &&& Button1Mask ≠ 0) ↔ s.testBit 8 = true := and_two_pow_ne_zero s 8
  have h2 : (s &&& Button2Mask ≠ 0) ↔ s.testBit 9 = true := and_two_pow_ne_zero s 9
  have h3 : (s &&& Button3Mask ≠ 0) ↔ s.testBit 10 = true := and_two_pow_ne_zero s 10
  have h4 : (s &&& ShiftMask ≠ 0) ↔ s.testBit 0 = true := and_two_pow_ne_zero s 0
  have h5 : (s &&& ControlMask ≠ 0) ↔ s.testBit 2 = true := and_two_pow_ne_zero s 2
  unfold EVENT_XStateToKeyState
  simp only [h1, h2, h3, h4, h5]
  generalize s.testBit 8 = b1
  generalize s.testBit 9 = b2
  generalize s.testBit 10 = b3
  generalize s.testBit 0 = sh
  generalize s.testBit 2 = ct
  revert b1 b2 b3 sh ct
  decide

/-- **C13.** For every native modifier/button bitmask `a`,
`EVENT_XStateToKeyState a` contains MK_LBUTTON, MK_MBUTTON, MK_RBUTTON, MK_SHIFT,
MK_CONTROL exactly when `a` contains Button1Mask, Button2Mask, Button3Mask,
ShiftMask, ControlMask respectively, and contains no other bit; consequently it
ignores all other bits of `a` and maps a union of masks to the union of the
results. -/
theorem EVENT_XStateToKeyState_bits (a b : Nat) :
    (EVENT_XStateToKeyState a &&& MK_LBUTTON ≠ 0 ↔ a &&& Button1Mask ≠ 0) ∧
    (EVENT_XStateToKeyState a &&& MK_MBUTTON ≠ 0 ↔ a &&& Button2Mask ≠ 0) ∧
    (EVENT_XStateToKeyState a &&& MK_RBUTTON ≠ 0 ↔ a &&& Button3Mask ≠ 0) ∧
    (EVENT_XStateToKeyState a &&& MK_SHIFT ≠ 0 ↔ a &&& ShiftMask ≠ 0) ∧
    (EVENT_XStateToKeyState a &&& MK_CONTROL ≠ 0 ↔ a &&& ControlMask ≠ 0) ∧
    EVENT_XStateToKeyState a &&&
        (MK_LBUTTON ||| MK_MBUTTON ||| MK_RBUTTON ||| MK_SHIFT ||| MK_CONTROL) =
      EVENT_XStateToKeyState a ∧
    EVENT_XStateToKeyState
        (a &&& (Button1Mask ||| Button2Mask ||| Button3Mask ||| ShiftMask ||| ControlMask)) =
      EVENT_XStateToKeyState a ∧
    EVENT_XStateToKeyState (a ||| b) = EVENT_XStateToKeyState a ||| EVENT_XStateToKeyState b := by
  have h1 : (a &&& Button1Mask ≠ 0) ↔ a.testBit 8 = true := and_two_pow_ne_zero a 8
  have h2 : (a &&& Button2Mask ≠ 0) ↔ a.testBit 9 = true := and_two_pow_ne_zero a 9
  have h3 : (a &&& Button3Mask ≠ 0) ↔ a.testBit 10 = true := and_two_pow_ne_zero a 10
  have h4 : (a &&& ShiftMask ≠ 0) ↔ a.testBit 0 = true := and_two_pow_ne_zero a 0
  have h5 : (a &&& ControlMask ≠ 0) ↔ a.testBit 2 = true := and_two_pow_ne_zero a 2
  have m8 : (Button1Mask ||| Button2Mask ||| Button3Mask ||| ShiftMask ||| ControlMask).testBit 8
      = true := by decide
  have m9 : (Button1Mask ||| Button2Mask ||| Button3Mask ||| ShiftMask ||| ControlMask).testBit 9
      = true := by decide
  have m10 : (Button1Mask ||| Button2Mask ||| Button3Mask ||| ShiftMask ||| ControlMask).testBit 10
      = true := by decide
  have m0 : (Button1Mask ||| Button2Mask ||| Button3Mask ||| ShiftMask ||| ControlMask).testBit 0
      = true := by decide
  have m2 : (Button1Mask ||| Button2Mask ||| Button3Mask ||| ShiftMask ||| ControlMask).testBit 2
      = true := by decide
  rw [h1, h2, h3, h4, h5]
  simp only [EVENT_XStateToKeyState_tests, Nat.testBit_and, Nat.testBit_or, m8, m9, m10, m0, m2,
    Bool.and_true]
  generalize a.testBit 8 = a1
  generalize a.testBit 9 = a2
  generalize a.testBit 10 = a3
  generalize a.testBit 0 = a4
  generalize a.testBit 2 = a5
  generalize b.testBit 8 = b1
  generalize b.testBit 9 = b2
  generalize b.testBit 10 = b3
  generalize b.testBit 0 = b4
  generalize b.testBit 2 = b5
  refine ⟨?_, ?_, ?_, ?_, ?_, ?_, trivial, ?_⟩
  · revert a1 a2 a3 a4 a5; decide
  · revert a1 a2 a3 a4 a5; decide
  · revert a1 a2 a3 a4 a5; decide
  · revert a1 a2 a3 a4 a5; decide
  · revert a1 a2 a3 a4 a5; decide
  · revert a1 a2 a3 a4 a5; decide
  · revert a1 a2 a3 a4 a5 b1 b2 b3 b4 b5; decide

/-! ## Capture -/

/-- **C14.** For every window `W` for which the pointer grab succeeds and every
prior capture state: `SetCapture (W)` makes `GetCapture ()` return `W`; the
subsequent `SetCapture (0)` returns `W` and leaves exactly the state that
`ReleaseCapture ()` would leave, with no capture holder and the pointer ungrabbed;
and from any state `GetCapture ()` after `ReleaseCapture ()` returns 0. -/
theorem SetCapture_then_release (env : Env) (W : Nat) (s : State)
    (hW : W ≠ 0) (hwin : env.WIN_GetXWindow W ≠ 0)
    (hgrab : env.grabSucceeds (env.WIN_GetXWindow W) = true) :
    GetCapture (SetCapture env W s).2 = W ∧
    (SetCapture env 0 (SetCapture env W s).2).1 = W ∧
    (SetCapture env 0 (SetCapture env W s).2).2 = ReleaseCapture (SetCapture env W s).2 ∧
    GetCapture (SetCapture env 0 (SetCapture env W s).2).2 = 0 ∧
    (SetCapture env 0 (SetCapture env W s).2).2.out =
      (SetCapture env W s).2.out ++ [.XUngrabPointer] ∧
    (∀ s0 : State, GetCapture (ReleaseCapture s0) = 0) := by
  have hset : SetCapture env W s =
      (s.captureWnd, { s.emit (.XGrabPointer (env.WIN_GetXWindow W)) with captureWnd := W }) := by
    unfold SetCapture
    simp only []
    rw [if_neg hW, if_neg hwin, if_pos hgrab]
  have hrel : ∀ s0 : State, GetCapture (ReleaseCapture s0) = 0 := by
    intro s0
    unfold ReleaseCapture GetCapture
    by_cases h0 : s0.captureWnd = 0
    · rw [if_pos h0]; exact h0
    · rw [if_neg h0]
  rw [hset]
  refine ⟨rfl, rfl, rfl, hrel _, ?_, hrel⟩
  show (ReleaseCapture _).out = _
  unfold ReleaseCapture
  rw [if_neg hW]
  rfl

/-- **C14, witness.** Window 5 takes the capture from the start-up state and gives
it up again. -/
theorem SetCapture_then_release_witness :
    GetCapture (SetCapture sampleEnv 5 sampleState).2 = 5 ∧
    (SetCapture sampleEnv 0 (SetCapture sampleEnv 5 sampleState).2).1 = 5 ∧
    GetCapture (SetCapture sampleEnv 0 (SetCapture sampleEnv 5 sampleState).2).2 = 0 :=
  have h := SetCapture_then_release sampleEnv 5 sampleState (by decide) (by decide) (by decide)
  ⟨h.1, h.2.1, h.2.2.2.1⟩

/-- **C15.** For every non-null window handle and every prior capture state, if
`SetCapture` cannot acquire the pointer grab (the window has no X window, or the
grab is denied), it returns 0 and leaves the capture holder unchanged, so
`GetCapture ()` returns the same value as before the call. -/
theorem SetCapture_failure (env : Env) (hwnd : Nat) (s : State) (hW : hwnd ≠ 0)
    (hfail : env.WIN_GetXWindow hwnd = 0 ∨
      env.grabSucceeds (env.WIN_GetXWindow hwnd) = false) :
    (SetCapture env hwnd s).1 = 0 ∧
    (SetCapture env hwnd s).2.captureWnd = s.captureWnd ∧
    GetCapture (SetCapture env hwnd s).2 = GetCapture s := by
  unfold SetCapture GetCapture
  simp only []
  rw [if_neg hW]
  by_cases hwin : env.WIN_GetXWindow hwnd = 0
  · rw [if_pos hwin]
    exact ⟨rfl, rfl, rfl⟩
  · rw [if_neg hwin]
    have hg : ¬ env.grabSucceeds (env.WIN_GetXWindow hwnd) = true := by
      rcases hfail with h | h
      · exact absurd h hwin
      · rw [h]; decide
    rw [if_neg hg]
    exact ⟨rfl, rfl, rfl⟩

/-- **C15, witness.** While window 5 holds the capture, window 9 (grab denied) and
window 8 (no X window) ask for it: both calls return 0 and window 5 keeps it. -/
theorem SetCapture_failure_witness :
    (SetCapture captureEnv 9 (SetCapture captureEnv 5 sampleState).2).1 = 0 ∧
    GetCapture (SetCapture captureEnv 9 (SetCapture captureEnv 5 sampleState).2).2 = 5 ∧
    (SetCapture captureEnv 8 (SetCapture captureEnv 5 sampleState).2).1 = 0 ∧
    GetCapture (SetCapture captureEnv 8 (SetCapture captureEnv 5 sampleState).2).2 = 5 :=
  have h9 := SetCapture_failure captureEnv 9 (SetCapture captureEnv 5 sampleState).2
    (by decide) (Or.inr (by decide))
  have h8 := SetCapture_failure captureEnv 8 (SetCapture captureEnv 5 sampleState).2
    (by decide) (Or.inl (by decide))
  ⟨h9.1, h9.2.2.trans (by decide), h8.1, h8.2.2.trans (by decide)⟩

/-! ## Hardware input -/

/-- **C16 (as the code has it).** For every prior input-enabled state `p` and
every argument `b`, `EnableHardwareInput (b)` sets the input-enabled state to `b`
and returns TRUE exactly when `p` was TRUE and `b` is FALSE; it returns the previous
state `p` whenever `b` is FALSE or `p` is FALSE. -/
theorem EnableHardwareInput_result (b : Bool) (s : State) :
    (EnableHardwareInput b s).2.InputEnabled = b ∧
    ((EnableHardwareInput b s).1 = true ↔ s.InputEnabled = true ∧ b = false) ∧
    (b = false ∨ s.InputEnabled = false → (EnableHardwareInput b s).1 = s.InputEnabled) ∧
    (EnableHardwareInput b s).2 = { s with InputEnabled := b } := by
  unfold EnableHardwareInput
  refine ⟨rfl, ?_, ?_, rfl⟩
  · cases b <;> cases s.InputEnabled <;> simp
  · cases b <;> cases s.InputEnabled <;> simp

/-- **C16, counterexample.** Input is enabled at start-up; enabling it again
returns FALSE, not the previous state TRUE. -/
theorem EnableHardwareInput_counterexample :
    sampleState.InputEnabled = true ∧ (EnableHardwareInput true sampleState).1 = false := by
  decide

/-! ## Selection requests -/

/-- The trace `EVENT_SelectionRequest` leaves when it serves the text. -/
theorem EVENT_SelectionRequest_served (env : Env) (hwnd : Nat) (event : XEvent) (s : State)
    (htarget : event.target = XA_STRING) (hsel : event.selection = XA_PRIMARY)
    (htext : env.clipboardHasText = true) :
    (EVENT_SelectionRequest env hwnd event s).out =
      s.out ++ [.OpenClipboard hwnd,
        .XChangeProperty event.requestor
          (if event.property = None then event.target else event.property)
          XA_STRING 8 PropModeReplace env.clipboardText] ++
        (if env.clipboardOpens then [.CloseClipboard] else []) ++
        [.XSendEvent event.requestor
          (selectionReply event
            (if event.property = None then event.target else event.property))] := by
  unfold EVENT_SelectionRequest selectionReply
  simp only []
  rw [if_pos htarget, if_neg (by rw [hsel]; exact fun h => h rfl), if_neg (by rw [htext]; simp)]
  by_cases ho : env.clipboardOpens = true
  · simp [ho, State.emit]
  · simp [ho, State.emit]

/-- The state `EVENT_SelectionRequest` leaves when it cannot serve the request. -/
theorem EVENT_SelectionRequest_refused (env : Env) (hwnd : Nat) (event : XEvent) (s : State)
    (h : event.target ≠ XA_STRING ∨ event.selection ≠ XA_PRIMARY ∨
      env.clipboardHasText = false) :
    EVENT_SelectionRequest env hwnd event s =
      s.emit (.XSendEvent event.requestor (selectionReply event None)) := by
  unfold EVENT_SelectionRequest selectionReply
  simp only []
  by_cases htarget : event.target = XA_STRING
  · rw [if_pos htarget]
    by_cases hsel : event.selection ≠ XA_PRIMARY
    · rw [if_pos hsel]
    · rw [if_neg hsel]
      have ht : env.clipboardHasText = false := by
        rcases h with h | h | h
        · exact absurd htarget h
        · exact absurd h hsel
        · exact h
      rw [if_pos (by rw [ht]; simp)]
  · rw [if_neg htarget]

/-- **C17.** For every selection-request event, `EVENT_SelectionRequest` sends
exactly one selection-notify reply to the requestor, echoing the selection, target
and time of the request; whenever the target is not plain text (`XA_STRING`), or
the selection is not the primary selection, or no text is present in the
clipboard, the property of the reply is `None` and the reply is the only
collaborator call made, so that no property is written on the requestor. -/
theorem EVENT_SelectionRequest_always_replies (env : Env) (hwnd : Nat) (event : XEvent)
    (s : State) :
    (∃ rprop,
      (EVENT_SelectionRequest env hwnd event s).out.filter Effect.isXSendEvent =
        s.out.filter Effect.isXSendEvent ++
          [.XSendEvent event.requestor
            { type := SelectionNotify, window := event.requestor,
              requestor := event.requestor, selection := event.selection,
              property := rprop, target := event.target, time := event.time }]) ∧
    (event.target ≠ XA_STRING ∨ event.selection ≠ XA_PRIMARY ∨ env.clipboardHasText = false →
      EVENT_SelectionRequest env hwnd event s =
        s.emit (.XSendEvent event.requestor
          { type := SelectionNotify, window := event.requestor,
            requestor := event.requestor, selection := event.selection,
            property := None, target := event.target, time := event.time }) ∧
      (EVENT_SelectionRequest env hwnd event s).out.filter Effect.isXChangeProperty =
        s.out.filter Effect.isXChangeProperty) := by
  constructor
  · by_cases h : event.target ≠ XA_STRING ∨ event.selection ≠ XA_PRIMARY ∨
        env.clipboardHasText = false
    · refine ⟨None, ?_⟩
      rw [EVENT_SelectionRequest_refused env hwnd event s h]
      simp [State.emit, selectionReply, Effect.isXSendEvent, List.filter_append]
    · have h1 : event.target = XA_STRING := by
        by_contra hc; exact h (Or.inl hc)
      have h2 : event.selection = XA_PRIMARY := by
        by_contra hc; exact h (Or.inr (Or.inl hc))
      have h3 : env.clipboardHasText = true := by
        cases ht : env.clipboardHasText
        · exact absurd (Or.inr (Or.inr ht)) h
        · rfl
      refine ⟨if event.property = None then event.target else event.property, ?_⟩
      rw [EVENT_SelectionRequest_served env hwnd event s h1 h2 h3]
      by_cases ho : env.clipboardOpens = true <;>
        simp [ho, selectionReply, Effect.isXSendEvent, List.filter_append]
  · intro h
    rw [EVENT_SelectionRequest_refused env hwnd event s h]
    refine ⟨rfl, ?_⟩
    simp [State.emit, Effect.isXChangeProperty, List.filter_append]

/-- **C18 (as the code has it).** For every selection request with target plain
text and selection primary, while the clipboard contains a text `T`: the property
of the notify reply is the property named in the request, or the target atom
`XA_STRING` when the request names none (`None`), and the payload written to that
property on the requestor is `T`, all of its bytes, as 8-bit `XA_STRING` data in
mode `PropModeReplace`. -/
theorem EVENT_SelectionRequest_serves_text (env : Env) (hwnd : Nat) (event : XEvent)
    (s : State) (T : List Nat)
    (htarget : event.target = XA_STRING) (hsel : event.selection = XA_PRIMARY)
    (htext : env.clipboardHasText = true) (hT : env.clipboardText = T) :
    ∃ rprop,
      (event.property ≠ None → rprop = event.property) ∧
      (event.property = None → rprop = XA_STRING) ∧
      (EVENT_SelectionRequest env hwnd event s).out.filter Effect.isXChangeProperty =
        s.out.filter Effect.isXChangeProperty ++
          [.XChangeProperty event.requestor rprop XA_STRING 8 PropModeReplace T] ∧
      (EVENT_SelectionRequest env hwnd event s).out.filter Effect.isXSendEvent =
        s.out.filter Effect.isXSendEvent ++
          [.XSendEvent event.requestor
            { type := SelectionNotify, window := event.requestor,
              requestor := event.requestor, selection := event.selection,
              property := rprop, target := event.target, time := event.time }] := by
  refine ⟨if event.property = None then event.target else event.property, ?_, ?_, ?_, ?_⟩
  · intro h; rw [if_neg h]
  · intro h; rw [if_pos h, htarget]
  · rw [EVENT_SelectionRequest_served env hwnd event s htarget hsel htext, hT]
    by_cases ho : env.clipboardOpens = true <;>
      simp [ho, Effect.isXChangeProperty, List.filter_append]
  · rw [EVENT_SelectionRequest_served env hwnd event s htarget hsel htext]
    by_cases ho : env.clipboardOpens = true <;>
      simp [ho, selectionReply, Effect.isXSendEvent, List.filter_append]

/-- **C18, witness.** The clipboard holds `hello`; a request for the primary
selection as plain text into property 77 is answered by writing `hello` to property
77 of the requestor and a reply naming property 77. -/
theorem EVENT_SelectionRequest_serves_text_witness :
    (EVENT_SelectionRequest clipboardEnv 1 requestText sampleState).out =
      [.OpenClipboard 1,
        .XChangeProperty 9 77 XA_STRING 8 PropModeReplace [0x68, 0x65, 0x6C, 0x6C, 0x6F],
        .CloseClipboard,
        .XSendEvent 9 (selectionReply requestText 77)] ∧
    ∃ rprop,
      (requestText.property ≠ None → rprop = requestText.property) ∧
      (requestText.property = None → rprop = XA_STRING) ∧
      (EVENT_SelectionRequest clipboardEnv 1 requestText sampleState).out.filter
          Effect.isXChangeProperty =
        sampleState.out.filter Effect.isXChangeProperty ++
          [.XChangeProperty requestText.requestor rprop XA_STRING 8 PropModeReplace
            [0x68, 0x65, 0x6C, 0x6C, 0x6F]] ∧
      (EVENT_SelectionRequest clipboardEnv 1 requestText sampleState).out.filter
          Effect.isXSendEvent =
        sampleState.out.filter Effect.isXSendEvent ++
          [.XSendEvent requestText.requestor
            { type := SelectionNotify, window := requestText.requestor,
              requestor := requestText.requestor, selection := requestText.selection,
              property := rprop, target := requestText.target, time := requestText.time }] :=
  ⟨by decide,
    EVENT_SelectionRequest_serves_text clipboardEnv 1 requestText sampleState
      [0x68, 0x65, 0x6C, 0x6C, 0x6F] (by decide) (by decide) (by decide) (by decide)⟩

/-- **C18, counterexample.** A request that names no property (`None`, as an
obsolete client sends it) is answered with the target atom as the property: the
property of the reply is `XA_STRING`, not the property named in the request. -/
theorem EVENT_SelectionRequest_property_counterexample :
    requestTextNoProperty.target = XA_STRING ∧
    requestTextNoProperty.selection = XA_PRIMARY ∧
    clipboardEnv.clipboardHasText = true ∧
    (EVENT_SelectionRequest clipboardEnv 1 requestTextNoProperty sampleState).out.getLast? =
      some (.XSendEvent 9 (selectionReply requestTextNoProperty XA_STRING)) ∧
    (selectionReply requestTextNoProperty XA_STRING).property ≠
      requestTextNoProperty.property := by
  decide

/-! ## Configure notifications -/

/-- **C19.** For every configure notification: if the window is the desktop
window, or no desktop window exists yet, `EVENT_ConfigureNotify` sets the cached
desktop offset to the `(x, y)` of the event and changes nothing else (no message,
no window rectangle); if the window is any other window that is unknown or not
flagged as managed, it changes nothing at all (no message, no rectangle, no
desktop offset). -/
theorem EVENT_ConfigureNotify_unmanaged (env : Env) (hwnd : Nat) (event : XEvent) (s : State) :
    (env.desktop = none ∨ env.desktop = some hwnd →
      EVENT_ConfigureNotify env hwnd event s =
        { s with desktopX := event.x, desktopY := event.y }) ∧
    (∀ d, env.desktop = some d → d ≠ hwnd →
      (s.wnd hwnd = none ∨ ∃ w, s.wnd hwnd = some w ∧ w.flags &&& env.WIN_MANAGED = 0) →
      EVENT_ConfigureNotify env hwnd event s = s) := by
  constructor
  · intro h
    unfold EVENT_ConfigureNotify
    rw [if_pos h]
  · intro d hd hne hw
    have hcond : ¬ (env.desktop = none ∨ env.desktop = some hwnd) := by
      rw [hd]
      rintro (h | h)
      · exact absurd h (by simp)
      · exact hne (Option.some.inj h)
    unfold EVENT_ConfigureNotify
    rw [if_neg hcond]
    rcases hw with h0 | ⟨w, h1, h2⟩
    · rw [h0]
    · rw [h1]
      simp only []
      rw [if_pos h2]

theorem toINT16_of_fits (v : Int) (h : fitsINT16 v) : toINT16 v = v := by
  unfold fitsINT16 at h
  unfold toINT16
  omega

/-- The flags of the descriptor, given the two comparisons for unchanged
attributes. -/
theorem winpos_flags (c1 c2 : Prop) [Decidable c1] [Decidable c2] :
    ((if c2 then (if c1 then (SWP_NOACTIVATE ||| SWP_NOZORDER) ||| SWP_NOMOVE
            else SWP_NOACTIVATE ||| SWP_NOZORDER) ||| SWP_NOSIZE
        else (if c1 then (SWP_NOACTIVATE ||| SWP_NOZORDER) ||| SWP_NOMOVE
            else SWP_NOACTIVATE ||| SWP_NOZORDER)) &&& SWP_NOACTIVATE ≠ 0) ∧
    ((if c2 then (if c1 then (SWP_NOACTIVATE ||| SWP_NOZORDER) ||| SWP_NOMOVE
            else SWP_NOACTIVATE ||| SWP_NOZORDER) ||| SWP_NOSIZE
        else (if c1 then (SWP_NOACTIVATE ||| SWP_NOZORDER) ||| SWP_NOMOVE
            else SWP_NOACTIVATE ||| SWP_NOZORDER)) &&& SWP_NOZORDER ≠ 0) ∧
    ((if c2 then (if c1 then (SWP_NOACTIVATE ||| SWP_NOZORDER) ||| SWP_NOMOVE
            else SWP_NOACTIVATE ||| SWP_NOZORDER) ||| SWP_NOSIZE
        else (if c1 then (SWP_NOACTIVATE ||| SWP_NOZORDER) ||| SWP_NOMOVE
            else SWP_NOACTIVATE ||| SWP_NOZORDER)) &&& SWP_NOMOVE ≠ 0 ↔ c1) ∧
    ((if c2 then (if c1 then (SWP_NOACTIVATE ||| SWP_NOZORDER) ||| SWP_NOMOVE
            else SWP_NOACTIVATE ||| SWP_NOZORDER) ||| SWP_NOSIZE
        else (if c1 then (SWP_NOACTIVATE ||| SWP_NOZORDER) ||| SWP_NOMOVE
            else SWP_NOACTIVATE ||| SWP_NOZORDER)) &&& SWP_NOSIZE ≠ 0 ↔ c2) := by
  by_cases h1 : c1 <;> by_cases h2 : c2 <;>
    simp only [h1, h2, if_true, if_false, iff_true, iff_false, not_not] <;> decide

/-- The descriptor `EVENT_ConfigureNotify` fills in, for geometry that fits its
16-bit fields. -/
theorem winpos_fields (hwnd : Nat) (event : XEvent) (w : WND)
    (hx : fitsINT16 event.x) (hy : fitsINT16 event.y)
    (hcx : fitsINT16 event.width) (hcy : fitsINT16 event.height) :
    (EVENT_ConfigureNotify.winpos hwnd event w).hwnd = hwnd ∧
    (EVENT_ConfigureNotify.winpos hwnd event w).x = event.x ∧
    (EVENT_ConfigureNotify.winpos hwnd event w).y = event.y ∧
    (EVENT_ConfigureNotify.winpos hwnd event w).cx = event.width ∧
    (EVENT_ConfigureNotify.winpos hwnd event w).cy = event.height ∧
    (EVENT_ConfigureNotify.winpos hwnd event w).flags &&& SWP_NOACTIVATE ≠ 0 ∧
    (EVENT_ConfigureNotify.winpos hwnd event w).flags &&& SWP_NOZORDER ≠ 0 ∧
    ((EVENT_ConfigureNotify.winpos hwnd event w).flags &&& SWP_NOMOVE ≠ 0 ↔
      event.x = w.rectWindow.left ∧ event.y = w.rectWindow.top) ∧
    ((EVENT_ConfigureNotify.winpos hwnd event w).flags &&& SWP_NOSIZE ≠ 0 ↔
      event.width = w.rectWindow.right - w.rectWindow.left ∧
      event.height = w.rectWindow.bottom - w.rectWindow.top) := by
  unfold EVENT_ConfigureNotify.winpos
  simp only [toINT16_of_fits _ hx, toINT16_of_fits _ hy, toINT16_of_fits _ hcx,
    toINT16_of_fits _ hcy]
  have hf := winpos_flags (event.x = w.rectWindow.left ∧ event.y = w.rectWindow.top)
    (event.width = w.rectWindow.right - w.rectWindow.left ∧
      event.height = w.rectWindow.bottom - w.rectWindow.top)
  exact ⟨trivial, trivial, trivial, trivial, trivial, hf.1, hf.2.1, hf.2.2.1, hf.2.2.2⟩

/-- `EVENT_ConfigureNotify` on a managed window, the descriptor being allocated. -/
theorem EVENT_ConfigureNotify_managed_eq (env : Env) (hwnd d : Nat) (event : XEvent)
    (s : State) (w : WND)
    (hdesk : env.desktop = some d) (hne : d ≠ hwnd) (hw : s.wnd hwnd = some w)
    (hman : w.flags &&& env.WIN_MANAGED ≠ 0) (halloc : env.segptrAlloc = true) :
    EVENT_ConfigureNotify env hwnd event s =
      ((({ (s.emit (.SendMessage16 hwnd WM_WINDOWPOSCHANGING 0
              (some (EVENT_ConfigureNotify.winpos hwnd event w)))).emit
            (.WINPOS_SendNCCalcSize
              (env.afterPosChanging (EVENT_ConfigureNotify.winpos hwnd event w)).hwnd
              { left := toINT16 event.x, top := toINT16 event.y,
                right := toINT16 (event.x + event.width),
                bottom := toINT16 (event.y + event.height) }
              w.rectWindow w.rectClient) with
          wnd := Function.update s.wnd hwnd
            (some { w with
              rectWindow :=
                { left := toINT16 event.x, top := toINT16 event.y,
                  right := toINT16 (event.x + event.width),
                  bottom := toINT16 (event.y + event.height) }
              rectClient :=
                env.WINPOS_SendNCCalcSize
                  (env.afterPosChanging (EVENT_ConfigureNotify.winpos hwnd event w)).hwnd
                  { left := toINT16 event.x, top := toINT16 event.y,
                    right := toINT16 (event.x + event.width),
                    bottom := toINT16 (event.y + event.height) }
                  w.rectWindow w.rectClient
                  (env.afterPosChanging (EVENT_ConfigureNotify.winpos hwnd event w)) }) }.emit
          (.SendMessage16 hwnd WM_WINDOWPOSCHANGED 0
            (some (env.afterPosChanging (EVENT_ConfigureNotify.winpos hwnd event w))))).emit
          (.PAINT_RedrawWindow 0 none
            (some (Rgn.diff (Rgn.rect w.rectWindow)
              (Rgn.rect
                { left := toINT16 event.x, top := toINT16 event.y,
                  right := toINT16 (event.x + event.width),
                  bottom := toINT16 (event.y + event.height) })))
            (RDW_INVALIDATE ||| RDW_ALLCHILDREN ||| RDW_ERASE ||| RDW_ERASENOW)
            env.RDW_C_USEHRGN)).emit
          (.DeleteObject (Rgn.diff (Rgn.rect w.rectWindow)
            (Rgn.rect
              { left := toINT16 event.x, top := toINT16 event.y,
                right := toINT16 (event.x + event.width),
                bottom := toINT16 (event.y + event.height) })))).emit
        (.DeleteObject
          (Rgn.rect
            { left := toINT16 event.x, top := toINT16 event.y,
              right := toINT16 (event.x + event.width),
              bottom := toINT16 (event.y + event.height) })) := by
  have hcond : ¬ (env.desktop = none ∨ env.desktop = some hwnd) := by
    rw [hdesk]
    rintro (h | h)
    · exact absurd h (by simp)
    · exact hne (Option.some.inj h)
  unfold EVENT_ConfigureNotify
  rw [if_neg hcond, hw]
  simp only []
  rw [if_neg hman, if_neg (not_not.mpr halloc)]
  rfl

/-- **C20 (as the code has it).** For every configure notification
`(x, y, width, height)` whose values, with `x + width` and `y + height`, fit the
signed 16-bit fields of `WINDOWPOS16` and `RECT16`, on a managed top-level window
with current window rectangle `R = w.rectWindow`: if the descriptor can be
allocated, the descriptor sent with WM_WINDOWPOSCHANGING carries `x`, `y`, `width`,
`height` and flags that always include SWP_NOACTIVATE and SWP_NOZORDER, include
SWP_NOMOVE exactly when `(x, y) = (R.left, R.top)` and SWP_NOSIZE exactly when
`(width, height) = (R.right - R.left, R.bottom - R.top)`; WM_WINDOWPOSCHANGING is
sent (and the client rectangle computed) on the state that still holds `R`, then
the window rectangle is committed to `(x, y, x + width, y + height)`, then
WM_WINDOWPOSCHANGED is sent; and the region handed to `PAINT_RedrawWindow` for the
erasing repaint is `R` minus the new rectangle.  If the descriptor cannot be
allocated, nothing is sent and nothing changes. -/
theorem EVENT_ConfigureNotify_managed (env : Env) (hwnd d : Nat) (event : XEvent)
    (s : State) (w : WND)
    (hdesk : env.desktop = some d) (hne : d ≠ hwnd) (hw : s.wnd hwnd = some w)
    (hman : w.flags &&& env.WIN_MANAGED ≠ 0)
    (hx : fitsINT16 event.x) (hy : fitsINT16 event.y)
    (hcx : fitsINT16 event.width) (hcy : fitsINT16 event.height)
    (hr : fitsINT16 (event.x + event.width)) (hb : fitsINT16 (event.y + event.height)) :
    (env.segptrAlloc = true →
      ∃ (winpos : WINDOWPOS) (newClientRect : RECT),
        winpos.hwnd = hwnd ∧
        winpos.x = event.x ∧ winpos.y = event.y ∧
        winpos.cx = event.width ∧ winpos.cy = event.height ∧
        winpos.flags &&& SWP_NOACTIVATE ≠ 0 ∧
        winpos.flags &&& SWP_NOZORDER ≠ 0 ∧
        (winpos.flags &&& SWP_NOMOVE ≠ 0 ↔
          event.x = w.rectWindow.left ∧ event.y = w.rectWindow.top) ∧
        (winpos.flags &&& SWP_NOSIZE ≠ 0 ↔
          event.width = w.rectWindow.right - w.rectWindow.left ∧
          event.height = w.rectWindow.bottom - w.rectWindow.top) ∧
        EVENT_ConfigureNotify env hwnd event s =
          ((({ (s.emit (.SendMessage16 hwnd WM_WINDOWPOSCHANGING 0 (some winpos))).emit
                (.WINPOS_SendNCCalcSize (env.afterPosChanging winpos).hwnd
                  { left := event.x, top := event.y,
                    right := event.x + event.width, bottom := event.y + event.height }
                  w.rectWindow w.rectClient) with
              wnd := Function.update s.wnd hwnd
                (some { w with
                  rectWindow :=
                    { left := event.x, top := event.y,
                      right := event.x + event.width, bottom := event.y + event.height }
                  rectClient := newClientRect }) }.emit
              (.SendMessage16 hwnd WM_WINDOWPOSCHANGED 0
                (some (env.afterPosChanging winpos)))).emit
              (.PAINT_RedrawWindow 0 none
                (some (Rgn.diff (Rgn.rect w.rectWindow)
                  (Rgn.rect
                    { left := event.x, top := event.y,
                      right := event.x + event.width, bottom := event.y + event.height })))
                (RDW_INVALIDATE ||| RDW_ALLCHILDREN ||| RDW_ERASE ||| RDW_ERASENOW)
                env.RDW_C_USEHRGN)).emit
              (.DeleteObject (Rgn.diff (Rgn.rect w.rectWindow)
                (Rgn.rect
                  { left := event.x, top := event.y,
                    right := event.x + event.width, bottom := event.y + event.height })))).emit
            (.DeleteObject
              (Rgn.rect
                { left := event.x, top := event.y,
                  right := event.x + event.width, bottom := event.y + event.height }))) ∧
    (env.segptrAlloc = false → EVENT_ConfigureNotify env hwnd event s = s) := by
  have hcond : ¬ (env.desktop = none ∨ env.desktop = some hwnd) := by
    rw [hdesk]
    rintro (h | h)
    · exact absurd h (by simp)
    · exact hne (Option.some.inj h)
  constructor
  · intro halloc
    have hf := winpos_fields hwnd event w hx hy hcx hcy
    have heq := EVENT_ConfigureNotify_managed_eq env hwnd d event s w hdesk hne hw hman halloc
    rw [toINT16_of_fits _ hx, toINT16_of_fits _ hy, toINT16_of_fits _ hr,
      toINT16_of_fits _ hb] at heq
    exact ⟨EVENT_ConfigureNotify.winpos hwnd event w, _, hf.1, hf.2.1, hf.2.2.1, hf.2.2.2.1,
      hf.2.2.2.2.1, hf.2.2.2.2.2.1, hf.2.2.2.2.2.2.1, hf.2.2.2.2.2.2.2.1,
      hf.2.2.2.2.2.2.2.2, heq⟩
  · intro halloc
    unfold EVENT_ConfigureNotify
    rw [if_neg hcond, hw]
    simp only []
    rw [if_neg hman, if_pos (by rw [halloc]; simp)]

/-- **C20, witness.** The managed window 7, at (10, 20) with size 100 by 60, is
reported at (30, 20) with the same size: the descriptor carries SWP_NOSIZE and not
SWP_NOMOVE, the messages are sent in order, the window rectangle becomes
(30, 20, 130, 80) and the repainted region is the old rectangle minus the new one. -/
theorem EVENT_ConfigureNotify_managed_witness :
    (EVENT_ConfigureNotify managedEnv 7 configureMove managedState).out =
      [.SendMessage16 7 WM_WINDOWPOSCHANGING 0
          (some { hwnd := 7, x := 30, y := 20, cx := 100, cy := 60,
                  flags := SWP_NOACTIVATE ||| SWP_NOZORDER ||| SWP_NOSIZE }),
        .WINPOS_SendNCCalcSize 7 { left := 30, top := 20, right := 130, bottom := 80 }
          { left := 10, top := 20, right := 110, bottom := 80 }
          { left := 12, top := 40, right := 108, bottom := 78 },
        .SendMessage16 7 WM_WINDOWPOSCHANGED 0
          (some { hwnd := 7, x := 30, y := 20, cx := 100, cy := 60,
                  flags := SWP_NOACTIVATE ||| SWP_NOZORDER ||| SWP_NOSIZE }),
        .PAINT_RedrawWindow 0 none
          (some (Rgn.diff (Rgn.rect { left := 10, top := 20, right := 110, bottom := 80 })
            (Rgn.rect { left := 30, top := 20, right := 130, bottom := 80 })))
          (RDW_INVALIDATE ||| RDW_ALLCHILDREN ||| RDW_ERASE ||| RDW_ERASENOW) 0,
        .DeleteObject
          (Rgn.diff (Rgn.rect { left := 10, top := 20, right := 110, bottom := 80 })
            (Rgn.rect { left := 30, top := 20, right := 130, bottom := 80 })),
        .DeleteObject (Rgn.rect { left := 30, top := 20, right := 130, bottom := 80 })] ∧
    ((EVENT_ConfigureNotify managedEnv 7 configureMove managedState).wnd 7).map WND.rectWindow =
      some { left := 30, top := 20, right := 130, bottom := 80 } ∧
    ∃ winpos : WINDOWPOS,
      winpos.x = configureMove.x ∧ winpos.cx = configureMove.width ∧
      winpos.flags &&& SWP_NOSIZE ≠ 0 ∧ ¬ winpos.flags &&& SWP_NOMOVE ≠ 0 :=
  have h := (EVENT_ConfigureNotify_managed managedEnv 7 50 configureMove managedState
    { window := 7, rectWindow := { left := 10, top := 20, right := 110, bottom := 80 },
      rectClient := { left := 12, top := 40, right := 108, bottom := 78 }, flags := 0x80 }
    (by decide) (by decide) (by decide) (by decide) (by decide) (by decide) (by decide)
    (by decide) (by decide) (by decide)).1 (by decide)
  ⟨by decide, by decide,
    h.elim fun winpos h1 => h1.elim fun _ h2 =>
      ⟨winpos, h2.2.1, h2.2.2.2.1, (h2.2.2.2.2.2.2.2.2.1).mpr (by decide),
        fun hm => absurd ((h2.2.2.2.2.2.2.2.1).mp hm).1 (by decide)⟩⟩

/-- **C20, counterexample.** With `SEGPTR_NEW` failing, a configure notification
for the managed window 7 sends no message and leaves the window rectangle as it
was; and a notification with width 40000 would be carried in the descriptor as
-25536. -/
theorem EVENT_ConfigureNotify_managed_counterexample :
    managedEnvNoMemory.desktop = some 50 ∧
    ((managedState.wnd 7).map fun w => decide (w.flags &&& managedEnvNoMemory.WIN_MANAGED ≠ 0)) =
      some true ∧
    (EVENT_ConfigureNotify managedEnvNoMemory 7 configureMove managedState).out = [] ∧
    ((EVENT_ConfigureNotify managedEnvNoMemory 7 configureMove managedState).wnd 7).map
        WND.rectWindow =
      some { left := 10, top := 20, right := 110, bottom := 80 } ∧
    ((managedState.wnd 7).map fun w => (EVENT_ConfigureNotify.winpos 7 configureWide w).cx) =
      some (-25536) := by
  decide

/-! ## Bounds of the table lookups -/

set_option maxRecDepth 100000 in
theorem translate_function_vkey_lt (k : Fin 256) :
    (EVENT_key.translate 0xFF k.val).vkey < 256 := by
  revert k; decide

set_option maxRecDepth 100000 in
theorem translate_character_vkey_lt (k : Fin 256) :
    (EVENT_key.translate 0 k.val).vkey < 256 := by
  revert k; decide

theorem vkey_lt (keysym : Nat) : EVENT_key.vkey keysym < 256 := by
  have hk : LOBYTE (LOWORD keysym) < 256 := Nat.mod_lt _ (by decide)
  by_cases hFF : HIBYTE (LOWORD keysym) = 0xFF
  · unfold EVENT_key.vkey
    rw [hFF]
    exact translate_function_vkey_lt ⟨_, hk⟩
  · by_cases h0 : HIBYTE (LOWORD keysym) = 0
    · unfold EVENT_key.vkey
      rw [h0]
      exact translate_character_vkey_lt ⟨_, hk⟩
    · rw [vkey_other_class keysym h0 hFF]
      decide

set_option maxRecDepth 100000 in
theorem translateChecked_function (k : Fin 256) :
    EVENT_key.translateChecked 0xFF k.val = some (EVENT_key.translate 0xFF k.val) := by
  revert k; decide

theorem translateChecked_other (key_type key : Nat) (h : key_type ≠ 0xFF) :
    EVENT_key.translateChecked key_type key = some (EVENT_key.translate key_type key) := by
  unfold EVENT_key.translateChecked EVENT_key.translate
  rw [if_neg h, if_neg h]
  by_cases h0 : key_type = 0
  · rw [if_pos h0, if_pos h0]
    by_cases h1 : isalnum key = true
    · rw [if_pos h1, if_pos h1]
    · rw [if_neg h1, if_neg h1]
      by_cases h2 : isspace key = true
      · rw [if_pos h2, if_pos h2]
      · rw [if_neg h2, if_neg h2]
        cases EVENT_key.punctuation key <;> rfl
  · rw [if_neg h0, if_neg h0]

/-- Every table read of the classification is inside its table: the checked
translation of the two bytes of a key symbol word is never `none`. -/
theorem translateChecked_eq (keysym : Nat) :
    EVENT_key.translateChecked (HIBYTE (LOWORD keysym)) (LOBYTE (LOWORD keysym)) =
      some (EVENT_key.translate (HIBYTE (LOWORD keysym)) (LOBYTE (LOWORD keysym))) := by
  have hk : LOBYTE (LOWORD keysym) < 256 := Nat.mod_lt _ (by decide)
  by_cases hFF : HIBYTE (LOWORD keysym) = 0xFF
  · rw [hFF]
    exact translateChecked_function ⟨_, hk⟩
  · exact translateChecked_other _ _ hFF

/-- **C26.** The six static tables have the lengths of their C initialisers
(`special_key` 20, `cursor_key` 8, `misc_key` 12, `keypad_key` 60, `function_key` 16,
`modifier_key` 10 entries).  For every key symbol, the classification of
`EVENT_key` with every table read checked against the length of the table
(`EVENT_key.translateChecked`) never reads outside a table: it returns what the
classification computes.  With `key` the low byte of the key symbol, as `EVENT_key`
takes it, the index `key - base` of each table lookup, made under the guard of its
sub-range, is strictly below the length of the table read; and the virtual-key
code computed from the key symbol is below 256, as is `VK_MENU`, so that every
`KeyStateTable[vkey]` and `KeyStateTable[VK_MENU]` access is inside the 256-entry
table. -/
theorem EVENT_key_lookups_in_bounds (keysym : Nat) :
    (special_key.length = 20 ∧ cursor_key.length = 8 ∧ misc_key.length = 12 ∧
      keypad_key.length = 60 ∧ function_key.length = 16 ∧ modifier_key.length = 10) ∧
    EVENT_key.translateChecked (HIBYTE (LOWORD keysym)) (LOBYTE (LOWORD keysym)) =
      some (EVENT_key.translate (HIBYTE (LOWORD keysym)) (LOBYTE (LOWORD keysym))) ∧
    (EVENT_key.translateChecked (HIBYTE (LOWORD keysym)) (LOBYTE (LOWORD keysym))).map
      Translation.vkey = some (EVENT_key.vkey keysym) ∧
    (0x08 ≤ LOBYTE (LOWORD keysym) ∧ LOBYTE (LOWORD keysym) ≤ 0x1B →
      LOBYTE (LOWORD keysym) - 0x08 < special_key.length) ∧
    (0x50 ≤ LOBYTE (LOWORD keysym) ∧ LOBYTE (LOWORD keysym) ≤ 0x57 →
      LOBYTE (LOWORD keysym) - 0x50 < cursor_key.length) ∧
    (0x60 ≤ LOBYTE (LOWORD keysym) ∧ LOBYTE (LOWORD keysym) ≤ 0x6B →
      LOBYTE (LOWORD keysym) - 0x60 < misc_key.length) ∧
    (0x7E ≤ LOBYTE (LOWORD keysym) ∧ LOBYTE (LOWORD keysym) ≤ 0xB9 →
      LOBYTE (LOWORD keysym) - 0x7E < keypad_key.length) ∧
    (0xBE ≤ LOBYTE (LOWORD keysym) ∧ LOBYTE (LOWORD keysym) ≤ 0xCD →
      LOBYTE (LOWORD keysym) - 0xBE < function_key.length) ∧
    (0xE1 ≤ LOBYTE (LOWORD keysym) ∧ LOBYTE (LOWORD keysym) ≤ 0xEA →
      LOBYTE (LOWORD keysym) - 0xE1 < modifier_key.length) ∧
    EVENT_key.vkey keysym < 256 ∧ VK_MENU < 256 := by
  have h1 : special_key.length = 20 := rfl
  have h2 : cursor_key.length = 8 := rfl
  have h3 : misc_key.length = 12 := rfl
  have h4 : keypad_key.length = 60 := rfl
  have h5 : function_key.length = 16 := rfl
  have h6 : modifier_key.length = 10 := rfl
  refine ⟨⟨h1, h2, h3, h4, h5, h6⟩, translateChecked_eq keysym, ?_, ?_, ?_, ?_, ?_, ?_, ?_,
    vkey_lt keysym, by decide⟩
  · rw [translateChecked_eq keysym]
    rfl
  · rw [h1]; omega
  · rw [h2]; omega
  · rw [h3]; omega
  · rw [h4]; omega
  · rw [h5]; omega
  · rw [h6]; omega

/-! ## The miscellaneous keys -/

/-- **C27.** The virtual keys `EVENT_key` computes in the miscellaneous sub-range:
Select, Print, Execute and Insert give VK_SELECT, VK_SNAPSHOT, VK_EXECUTE and
VK_INSERT, but Cancel (0xFF69) gives VK_HELP (0x2F) and Help (0xFF6A) gives
VK_CANCEL (0x03): the second row of `misc_key` starts at Find (0xFF68), one key
before Cancel.  A press of the Cancel key is therefore reported as a key-down of
VK_HELP, and a press of the Help key as a key-down of VK_CANCEL. -/
theorem EVENT_key_misc_keys :
    EVENT_key.vkey 0xFF60 = VK_SELECT ∧ EVENT_key.vkey 0xFF61 = VK_SNAPSHOT ∧
    EVENT_key.vkey 0xFF62 = VK_EXECUTE ∧ EVENT_key.vkey 0xFF63 = VK_INSERT ∧
    EVENT_key.vkey 0xFF69 = VK_HELP ∧ EVENT_key.vkey 0xFF69 ≠ VK_CANCEL ∧
    EVENT_key.vkey 0xFF6A = VK_CANCEL ∧ EVENT_key.vkey 0xFF6A ≠ VK_HELP ∧
    VK_CANCEL = 0x03 ∧ VK_HELP = 0x2F ∧
    (miscKeyEnv.XLookupString pressCancel).keysym = 0xFF69 ∧
    (EVENT_key miscKeyEnv pressCancel sampleState).messages.map
      (fun e => match e with
        | .hardware_event msg wParam _ _ _ _ _ => (msg, wParam)
        | _ => (0, 0)) = [(WM_KEYDOWN, VK_HELP)] ∧
    (miscKeyEnv.XLookupString pressHelp).keysym = 0xFF6A ∧
    (EVENT_key miscKeyEnv pressHelp sampleState).messages.map
      (fun e => match e with
        | .hardware_event msg wParam _ _ _ _ _ => (msg, wParam)
        | _ => (0, 0)) = [(WM_KEYDOWN, VK_CANCEL)] := by
  decide

/-! ## Painting the desktop -/

theorem lt_ceilDiv (a b : Int) (hb : 1 ≤ b) (i : Nat) : (i : Int) * b < a ↔ i < ceilDiv a b := by
  unfold ceilDiv
  rw [Int.lt_toNat]
  have h : (i : Int) + 1 ≤ (a + b - 1) / b ↔ ((i : Int) + 1) * b ≤ a + b - 1 :=
    Int.le_ediv_iff_mul_le (by omega)
  have h2 : ((i : Int) + 1) * b = (i : Int) * b + b := by ring
  rw [h2] at h
  constructor
  · intro hlt
    have := h.2 (by omega)
    omega
  · intro hlt
    have := h.1 (by omega)
    omega

theorem toINT32_of_fits (v : Int) (h0 : -2147483648 ≤ v) (h1 : v ≤ 2147483647) :
    toINT32 v = v := by
  unfold toINT32
  omega

/-- A step of a loop counter that stays below the last value `n * b` does not
overflow. -/
theorem toINT32_step (b : Int) (hb : 1 ≤ b) (n i : Nat) (hi : i + 1 ≤ n)
    (hfit : (n : Int) * b ≤ 2147483647) :
    toINT32 ((i : Int) * b + b) = ((i + 1 : Nat) : Int) * b := by
  have hv : (i : Int) * b + b = ((i + 1 : Nat) : Int) * b := by push_cast; ring
  have hnn : 0 ≤ ((i + 1 : Nat) : Int) * b := Int.mul_nonneg (by omega) (by omega)
  have hle : ((i + 1 : Nat) : Int) * b ≤ (n : Int) * b :=
    Int.mul_le_mul_of_nonneg_right (by omega) (by omega)
  rw [hv]
  exact toINT32_of_fits _ (by omega) (by omega)

theorem rowLoop_eq (hdc hMemDC : Nat) (size : SIZE) (right y : Int) (hcx : 1 ≤ size.cx)
    (hfit : (ceilDiv right size.cx : Int) * size.cx ≤ 2147483647) :
    ∀ (m fuel i : Nat), i + m = ceilDiv right size.cx → m ≤ fuel →
      DESKTOP_DoEraseBkgnd.rowLoop hdc hMemDC size right y fuel ((i : Int) * size.cx) =
        some ((List.range' i m).map fun (k : Nat) =>
          DesktopCall.BitBlt32 hdc ((k : Int) * size.cx) y size.cx size.cy hMemDC 0 0 SRCCOPY) := by
  intro m
  induction m with
  | zero =>
    intro fuel i hi _
    have hn : ¬ (i : Int) * size.cx < right := by
      rw [lt_ceilDiv right size.cx hcx i]; omega
    cases fuel with
    | zero => simp [DESKTOP_DoEraseBkgnd.rowLoop, hn]
    | succ f => simp [DESKTOP_DoEraseBkgnd.rowLoop, hn]
  | succ m ih =>
    intro fuel i hi hf
    have hlt : (i : Int) * size.cx < right := by
      rw [lt_ceilDiv right size.cx hcx i]; omega
    cases fuel with
    | zero => omega
    | succ f =>
      have hstep := toINT32_step size.cx hcx (ceilDiv right size.cx) i (by omega) hfit
      rw [DESKTOP_DoEraseBkgnd.rowLoop, if_pos hlt, hstep, ih f (i + 1) (by omega) (by omega)]
      simp [List.range'_succ]

theorem tileLoop_eq (hdc hMemDC : Nat) (size : SIZE) (right bottom : Int)
    (hcx : 1 ≤ size.cx) (hcy : 1 ≤ size.cy)
    (hfitx : (ceilDiv right size.cx : Int) * size.cx ≤ 2147483647)
    (hfity : (ceilDiv bottom size.cy : Int) * size.cy ≤ 2147483647) (fuel0 : Nat)
    (h0 : ceilDiv right size.cx ≤ fuel0) :
    ∀ (m fuel j : Nat), j + m = ceilDiv bottom size.cy → m ≤ fuel →
      DESKTOP_DoEraseBkgnd.tileLoop hdc hMemDC size right bottom fuel0 fuel
          ((j : Int) * size.cy) =
        some ((List.range' j m).flatMap fun r =>
          (List.range (ceilDiv right size.cx)).map fun i => tileAt hdc hMemDC size i r) := by
  intro m
  induction m with
  | zero =>
    intro fuel j hj _
    have hn : ¬ (j : Int) * size.cy < bottom := by
      rw [lt_ceilDiv bottom size.cy hcy j]; omega
    cases fuel with
    | zero => simp [DESKTOP_DoEraseBkgnd.tileLoop, hn]
    | succ f => simp [DESKTOP_DoEraseBkgnd.tileLoop, hn]
  | succ m ih =>
    intro fuel j hj hf
    have hlt : (j : Int) * size.cy < bottom := by
      rw [lt_ceilDiv bottom size.cy hcy j]; omega
    cases fuel with
    | zero => omega
    | succ f =>
      have hstep := toINT32_step size.cy hcy (ceilDiv bottom size.cy) j (by omega) hfity
      have hrow := rowLoop_eq hdc hMemDC size right ((j : Int) * size.cy) hcx hfitx
        (ceilDiv right size.cx) fuel0 0 (by omega) h0
      have hz : ((0 : Nat) : Int) * size.cx = 0 := by simp
      rw [hz] at hrow
      rw [DESKTOP_DoEraseBkgnd.tileLoop, if_pos hlt, hstep, ih f (j + 1) (by omega) (by omega),
        hrow]
      simp [List.range'_succ, List.range_eq_range', tileAt]

theorem tiles_length (hdc hMemDC : Nat) (size : SIZE) (columns rows : Nat) :
    (tiles hdc hMemDC size columns rows).length = columns * rows := by
  unfold tiles
  induction rows with
  | zero => simp
  | succ n ih =>
    rw [List.range_succ, List.flatMap_append, List.length_append, ih]
    simp [Nat.mul_succ]

theorem mem_tiles (hdc hMemDC : Nat) (size : SIZE) (columns rows : Nat) (c : DesktopCall) :
    c ∈ tiles hdc hMemDC size columns rows ↔
      ∃ i j, i < columns ∧ j < rows ∧ c = tileAt hdc hMemDC size i j := by
  unfold tiles
  simp only [List.mem_flatMap, List.mem_map, List.mem_range]
  constructor
  · rintro ⟨j, hj, i, hi, rfl⟩
    exact ⟨i, j, hi, hj, rfl⟩
  · rintro ⟨i, j, hi, hj, rfl⟩
    exact ⟨j, hj, i, hi, rfl⟩

theorem tiles_cover (a b : Int) (hb : 1 ≤ b) (p : Int) (h0 : 0 ≤ p) (hp : p < a) :
    ∃ i : Nat, i < ceilDiv a b ∧ (i : Int) * b ≤ p ∧ p < ((i : Int) + 1) * b := by
  have hb0 : (0 : Int) < b := by omega
  have hq : 0 ≤ p / b := Int.ediv_nonneg h0 (by omega)
  have h1 : p / b * b ≤ p := Int.ediv_mul_le p (by omega)
  have h2 : p < (p / b + 1) * b := Int.lt_ediv_add_one_mul_self p hb0
  refine ⟨(p / b).toNat, ?_, ?_, ?_⟩
  · rw [← lt_ceilDiv a b hb, Int.toNat_of_nonneg hq]; omega
  · rw [Int.toNat_of_nonneg hq]; exact h1
  · rw [Int.toNat_of_nonneg hq]; exact h2
theorem filter_isFillRect32_of_isBitBlt32 (l : List DesktopCall)
    (h : ∀ c ∈ l, DesktopCall.isBitBlt32 c = true) :
    l.filter DesktopCall.isFillRect32 = [] := by
  rw [List.filter_eq_nil_iff]
  intro c hc hf
  have := h c hc
  cases c <;> simp [DesktopCall.isBitBlt32, DesktopCall.isFillRect32] at this hf

theorem rowLoop_isBitBlt32 (hdc hMemDC : Nat) (size : SIZE) (right y : Int) :
    ∀ (fuel : Nat) (x : Int) (l : List DesktopCall),
      DESKTOP_DoEraseBkgnd.rowLoop hdc hMemDC size right y fuel x = some l →
      ∀ c ∈ l, DesktopCall.isBitBlt32 c = true := by
  intro fuel
  induction fuel with
  | zero =>
    intro x l h c hc
    by_cases hx : x < right
    · simp [DESKTOP_DoEraseBkgnd.rowLoop, hx] at h
    · simp [DESKTOP_DoEraseBkgnd.rowLoop, hx] at h
      subst h
      simp at hc
  | succ f ih =>
    intro x l h c hc
    by_cases hx : x < right
    · rw [DESKTOP_DoEraseBkgnd.rowLoop, if_pos hx] at h
      cases hr : DESKTOP_DoEraseBkgnd.rowLoop hdc hMemDC size right y f
          (toINT32 (x + size.cx)) with
      | none => rw [hr] at h; simp at h
      | some l1 =>
        rw [hr] at h
        simp at h
        subst h
        rcases List.mem_cons.1 hc with rfl | hc1
        · rfl
        · exact ih _ _ hr c hc1
    · simp [DESKTOP_DoEraseBkgnd.rowLoop, hx] at h
      subst h
      simp at hc

theorem tileLoop_isBitBlt32 (hdc hMemDC : Nat) (size : SIZE) (right bottom : Int)
    (fuel0 : Nat) :
    ∀ (fuel : Nat) (y : Int) (l : List DesktopCall),
      DESKTOP_DoEraseBkgnd.tileLoop hdc hMemDC size right bottom fuel0 fuel y = some l →
      ∀ c ∈ l, DesktopCall.isBitBlt32 c = true := by
  intro fuel
  induction fuel with
  | zero =>
    intro y l h c hc
    by_cases hy : y < bottom
    · simp [DESKTOP_DoEraseBkgnd.tileLoop, hy] at h
    · simp [DESKTOP_DoEraseBkgnd.tileLoop, hy] at h
      subst h
      simp at hc
  | succ f ih =>
    intro y l h c hc
    by_cases hy : y < bottom
    · rw [DESKTOP_DoEraseBkgnd.tileLoop, if_pos hy] at h
      cases hr : DESKTOP_DoEraseBkgnd.rowLoop hdc hMemDC size right y fuel0 0 with
      | none => rw [hr] at h; simp at h
      | some row =>
        cases ht : DESKTOP_DoEraseBkgnd.tileLoop hdc hMemDC size right bottom fuel0 f
            (toINT32 (y + size.cy)) with
        | none => rw [hr, ht] at h; simp at h
        | some rest =>
          rw [hr, ht] at h
          simp at h
          subst h
          rcases List.mem_append.1 hc with h1 | h2
          · exact rowLoop_isBitBlt32 hdc hMemDC size right y fuel0 0 row hr c h1
          · exact ih _ _ ht c h2
    · simp [DESKTOP_DoEraseBkgnd.tileLoop, hy] at h
      subst h
      simp at hc

/-- The calls of the first half of `DESKTOP_DoEraseBkgnd`. -/
theorem pattern_calls (env : DesktopEnv) (hwnd hdc : Nat) (s : DesktopState) :
    (DESKTOP_DoEraseBkgnd.pattern env hwnd hdc s).calls =
      s.calls ++ (if s.hrgnUpdate > 1 then [.DeleteObject32 s.hrgnUpdate] else []) ++
        (if s.desktop.hbitmapWallPaper = 0 ∨
            (s.desktop.fTileWallPaper = 0 ∧
              (s.desktop.bitmapSize.cx < (env.GetClientRect32 hwnd).right ∨
                s.desktop.bitmapSize.cy < (env.GetClientRect32 hwnd).bottom)) then
          [.SetBkColor32 hdc 0, .SetTextColor32 hdc (env.GetSysColor32 COLOR_BACKGROUND),
            .FillRect32 hdc (env.GetClientRect32 hwnd) s.desktop.hbrushPattern]
        else []) := by
  unfold DESKTOP_DoEraseBkgnd.pattern
  by_cases h1 : s.hrgnUpdate > 1 <;>
  by_cases h2 : s.desktop.hbitmapWallPaper = 0 ∨
            (s.desktop.fTileWallPaper = 0 ∧
              (s.desktop.bitmapSize.cx < (env.GetClientRect32 hwnd).right ∨
                s.desktop.bitmapSize.cy < (env.GetClientRect32 hwnd).bottom)) <;>
  simp only [h1, h2, if_true, if_false, DesktopState.call, List.append_assoc, List.append_nil,
    List.cons_append, List.nil_append, List.singleton_append]
theorem DoEraseBkgnd_no_wallpaper (env : DesktopEnv) (fuel hwnd hdc : Nat) (s : DesktopState)
    (h : s.desktop.hbitmapWallPaper = 0) :
    DESKTOP_DoEraseBkgnd env fuel hwnd hdc s =
      some (1, DESKTOP_DoEraseBkgnd.pattern env hwnd hdc s) := by
  unfold DESKTOP_DoEraseBkgnd
  simp only [h, ne_eq, not_true_eq_false, if_false]

theorem DoEraseBkgnd_centred (env : DesktopEnv) (fuel hwnd hdc : Nat) (s : DesktopState)
    (hw : s.desktop.hbitmapWallPaper ≠ 0) (ht : s.desktop.fTileWallPaper = 0) :
    DESKTOP_DoEraseBkgnd env fuel hwnd hdc s =
      some (1, ((((DESKTOP_DoEraseBkgnd.pattern env hwnd hdc s).call
        (.CreateCompatibleDC32 hdc)).call
        (.SelectObject32 (env.CreateCompatibleDC32 hdc) s.desktop.hbitmapWallPaper)).call
        (.BitBlt32 hdc
          (max 0 (((env.GetClientRect32 hwnd).left + (env.GetClientRect32 hwnd).right -
            s.desktop.bitmapSize.cx).tdiv 2))
          (max 0 (((env.GetClientRect32 hwnd).top + (env.GetClientRect32 hwnd).bottom -
            s.desktop.bitmapSize.cy).tdiv 2))
          s.desktop.bitmapSize.cx s.desktop.bitmapSize.cy (env.CreateCompatibleDC32 hdc)
          0 0 SRCCOPY)).call (.DeleteDC32 (env.CreateCompatibleDC32 hdc))) := by
  have hmax : ∀ v : Int, (if v < 0 then 0 else v) = max 0 v := by
    intro v
    by_cases hv : v < 0
    · rw [if_pos hv, max_eq_left (by omega)]
    · rw [if_neg hv, max_eq_right (by omega)]
  unfold DESKTOP_DoEraseBkgnd
  simp only [hw, ht, ne_eq, not_false_eq_true, not_true_eq_false, if_true, if_false, hmax]

theorem DoEraseBkgnd_tiled (env : DesktopEnv) (fuel hwnd hdc : Nat) (s : DesktopState)
    (hw : s.desktop.hbitmapWallPaper ≠ 0) (ht : s.desktop.fTileWallPaper ≠ 0) :
    DESKTOP_DoEraseBkgnd env fuel hwnd hdc s =
      (DESKTOP_DoEraseBkgnd.tileLoop hdc (env.CreateCompatibleDC32 hdc) s.desktop.bitmapSize
        (env.GetClientRect32 hwnd).right (env.GetClientRect32 hwnd).bottom fuel fuel 0).map
        fun blits => (1, (({ ((DESKTOP_DoEraseBkgnd.pattern env hwnd hdc s).call
          (.CreateCompatibleDC32 hdc)).call
          (.SelectObject32 (env.CreateCompatibleDC32 hdc) s.desktop.hbitmapWallPaper) with
          calls := (((DESKTOP_DoEraseBkgnd.pattern env hwnd hdc s).call
            (.CreateCompatibleDC32 hdc)).call
            (.SelectObject32 (env.CreateCompatibleDC32 hdc) s.desktop.hbitmapWallPaper)).calls
              ++ blits } : DesktopState).call (.DeleteDC32 (env.CreateCompatibleDC32 hdc)))) := by
  unfold DESKTOP_DoEraseBkgnd
  simp only [hw, ht, ne_eq, not_false_eq_true, if_true]
  cases DESKTOP_DoEraseBkgnd.tileLoop hdc (env.CreateCompatibleDC32 hdc) s.desktop.bitmapSize
        (env.GetClientRect32 hwnd).right (env.GetClientRect32 hwnd).bottom fuel fuel 0 <;> rfl

theorem pattern_fills (env : DesktopEnv) (hwnd hdc : Nat) (s : DesktopState) :
    (DESKTOP_DoEraseBkgnd.pattern env hwnd hdc s).calls.filter DesktopCall.isFillRect32 =
      s.calls.filter DesktopCall.isFillRect32 ++
        (if ¬ spec_wallpaperCovers s.desktop (env.GetClientRect32 hwnd) then
          [.FillRect32 hdc (env.GetClientRect32 hwnd) s.desktop.hbrushPattern]
        else []) := by
  rw [pattern_calls]
  have hiff : (s.desktop.hbitmapWallPaper = 0 ∨
            (s.desktop.fTileWallPaper = 0 ∧
              (s.desktop.bitmapSize.cx < (env.GetClientRect32 hwnd).right ∨
                s.desktop.bitmapSize.cy < (env.GetClientRect32 hwnd).bottom))) ↔
      ¬ spec_wallpaperCovers s.desktop (env.GetClientRect32 hwnd) := by
    unfold spec_wallpaperCovers
    rw [← not_lt, ← not_lt]
    tauto
  rw [if_congr hiff rfl rfl]
  by_cases h2 : ¬ spec_wallpaperCovers s.desktop (env.GetClientRect32 hwnd)
  · rw [if_pos h2, if_pos h2]
    by_cases h1 : s.hrgnUpdate > 1
    · rw [if_pos h1]
      simp [List.filter_append, List.filter_cons, DesktopCall.isFillRect32]
    · rw [if_neg h1]
      simp [List.filter_append, List.filter_cons, DesktopCall.isFillRect32]
  · rw [if_neg h2, if_neg h2]
    by_cases h1 : s.hrgnUpdate > 1
    · rw [if_pos h1]
      simp [List.filter_append, List.filter_cons, DesktopCall.isFillRect32]
    · rw [if_neg h1]
      simp [List.filter_append, List.filter_cons, DesktopCall.isFillRect32]

theorem pattern_blits (env : DesktopEnv) (hwnd hdc : Nat) (s : DesktopState) :
    (DESKTOP_DoEraseBkgnd.pattern env hwnd hdc s).calls.filter DesktopCall.isBitBlt32 =
      s.calls.filter DesktopCall.isBitBlt32 := by
  rw [pattern_calls]
  by_cases h2 : s.desktop.hbitmapWallPaper = 0 ∨
            (s.desktop.fTileWallPaper = 0 ∧
              (s.desktop.bitmapSize.cx < (env.GetClientRect32 hwnd).right ∨
                s.desktop.bitmapSize.cy < (env.GetClientRect32 hwnd).bottom))
  · rw [if_pos h2]
    by_cases h1 : s.hrgnUpdate > 1
    · rw [if_pos h1]
      simp [List.filter_append, List.filter_cons, DesktopCall.isBitBlt32]
    · rw [if_neg h1]
      simp [List.filter_append, List.filter_cons, DesktopCall.isBitBlt32]
  · rw [if_neg h2]
    by_cases h1 : s.hrgnUpdate > 1
    · rw [if_pos h1]
      simp [List.filter_append, List.filter_cons, DesktopCall.isBitBlt32]
    · rw [if_neg h1]
      simp [List.filter_append, List.filter_cons, DesktopCall.isBitBlt32]

theorem filter_isBitBlt32_of_isBitBlt32 (l : List DesktopCall)
    (h : ∀ c ∈ l, DesktopCall.isBitBlt32 c = true) :
    l.filter DesktopCall.isBitBlt32 = l :=
  List.filter_eq_self.2 h

theorem tiles_isBitBlt32 (hdc hMemDC : Nat) (size : SIZE) (columns rows : Nat) :
    ∀ c ∈ tiles hdc hMemDC size columns rows, DesktopCall.isBitBlt32 c = true := by
  intro c hc
  obtain ⟨i, j, _, _, rfl⟩ := (mem_tiles hdc hMemDC size columns rows c).1 hc
  rfl

/-- Enough fuel lets the tiling loops of a wallpaper of positive size end, when the
loop counters stay within `INT32`. -/
theorem tileLoop_tiles (hdc hMemDC : Nat) (size : SIZE) (right bottom : Int)
    (hcx : 1 ≤ size.cx) (hcy : 1 ≤ size.cy)
    (hfitx : (ceilDiv right size.cx : Int) * size.cx ≤ 2147483647)
    (hfity : (ceilDiv bottom size.cy : Int) * size.cy ≤ 2147483647) (fuel : Nat)
    (h1 : ceilDiv right size.cx ≤ fuel) (h2 : ceilDiv bottom size.cy ≤ fuel) :
    DESKTOP_DoEraseBkgnd.tileLoop hdc hMemDC size right bottom fuel fuel 0 =
      some (tiles hdc hMemDC size (ceilDiv right size.cx) (ceilDiv bottom size.cy)) := by
  have h := tileLoop_eq hdc hMemDC size right bottom hcx hcy hfitx hfity fuel h1
    (ceilDiv bottom size.cy) fuel 0 (by omega) h2
  have hz : ((0 : Nat) : Int) * size.cy = 0 := by simp
  rw [hz] at h
  rw [h, tiles, ← List.range_eq_range']

/-- The last value of a loop counter is below the bound plus one step: the
counters stay within `INT32` whenever `a + b ≤ 2 ^ 31`. -/
theorem ceilDiv_mul_lt (a b : Int) (ha : 0 ≤ a) (hb : 1 ≤ b) :
    (ceilDiv a b : Int) * b < a + b := by
  rcases Nat.eq_zero_or_pos (ceilDiv a b) with h0 | hpos
  · rw [h0]; simp; omega
  · have hlow : ((ceilDiv a b - 1 : Nat) : Int) * b < a := by
      rw [lt_ceilDiv a b hb]; omega
    have hc : ((ceilDiv a b - 1 : Nat) : Int) = (ceilDiv a b : Int) - 1 := by omega
    rw [hc] at hlow
    have : ((ceilDiv a b : Int) - 1) * b = (ceilDiv a b : Int) * b - b := by ring
    omega

theorem ceilDiv_eq_ceil (a b : Int) (ha : 0 ≤ a) (hb : 1 ≤ b) :
    (ceilDiv a b : Int) = Int.ceil ((a : ℚ) / (b : ℚ)) := by
  have hbq : (0 : ℚ) < (b : ℚ) := by exact_mod_cast (by omega : (0 : Int) < b)
  symm
  rw [Int.ceil_eq_iff]
  have hup : ¬ ((ceilDiv a b : Nat) : Int) * b < a := by
    rw [lt_ceilDiv a b hb]; omega
  constructor
  · rw [lt_div_iff₀ hbq]
    rcases Nat.eq_zero_or_pos (ceilDiv a b) with h0 | hpos
    · rw [h0]
      have : (0 : ℚ) ≤ (a : ℚ) := by exact_mod_cast ha
      have : ((((0 : Nat) : Int) : ℚ) - 1) * (b : ℚ) < 0 := by
        simp only [Nat.cast_zero, Int.cast_zero, zero_sub, neg_mul, one_mul, neg_neg_iff_pos]
        exact hbq
      linarith
    · have hlow : ((ceilDiv a b - 1 : Nat) : Int) * b < a := by
        rw [lt_ceilDiv a b hb]; omega
      have hc : ((ceilDiv a b - 1 : Nat) : Int) = (ceilDiv a b : Int) - 1 := by omega
      rw [hc] at hlow
      exact_mod_cast hlow
  · rw [div_le_iff₀ hbq]
    have : a ≤ ((ceilDiv a b : Nat) : Int) * b := by omega
    exact_mod_cast this
/-- Whenever `DESKTOP_DoEraseBkgnd` returns, it returns 1 and has made the
`FillRect32` calls of its first half and no other. -/
theorem DoEraseBkgnd_returns (env : DesktopEnv) (fuel hwnd hdc : Nat) (s : DesktopState)
    (r : Int) (s1 : DesktopState)
    (h : DESKTOP_DoEraseBkgnd env fuel hwnd hdc s = some (r, s1)) :
    r = 1 ∧
    s1.calls.filter DesktopCall.isFillRect32 =
      (DESKTOP_DoEraseBkgnd.pattern env hwnd hdc s).calls.filter DesktopCall.isFillRect32 := by
  by_cases hw : s.desktop.hbitmapWallPaper = 0
  · rw [DoEraseBkgnd_no_wallpaper env fuel hwnd hdc s hw] at h
    simp only [Option.some.injEq, Prod.mk.injEq] at h
    obtain ⟨h1, h2⟩ := h
    subst h2
    exact ⟨h1.symm, rfl⟩
  · by_cases ht : s.desktop.fTileWallPaper = 0
    · rw [DoEraseBkgnd_centred env fuel hwnd hdc s hw ht] at h
      simp only [Option.some.injEq, Prod.mk.injEq] at h
      obtain ⟨h1, h2⟩ := h
      subst h2
      refine ⟨h1.symm, ?_⟩
      simp [DesktopState.call, List.filter_append, List.filter_cons, DesktopCall.isFillRect32]
    · rw [DoEraseBkgnd_tiled env fuel hwnd hdc s hw ht] at h
      cases hl : DESKTOP_DoEraseBkgnd.tileLoop hdc (env.CreateCompatibleDC32 hdc)
          s.desktop.bitmapSize (env.GetClientRect32 hwnd).right
          (env.GetClientRect32 hwnd).bottom fuel fuel 0 with
      | none => rw [hl] at h; simp at h
      | some blits =>
        rw [hl] at h
        simp only [Option.map_some', Option.some.injEq, Prod.mk.injEq] at h
        obtain ⟨h1, h2⟩ := h
        subst h2
        refine ⟨h1.symm, ?_⟩
        have hb := filter_isFillRect32_of_isBitBlt32 blits
          (tileLoop_isBitBlt32 _ _ _ _ _ _ _ _ _ hl)
        simp [DesktopState.call, List.filter_append, List.filter_cons,
          DesktopCall.isFillRect32, hb]

/-- **C22.** For every wallpaper of size `cx ≥ 1` by `cy ≥ 1` with tiling enabled
and every client rectangle `(0, 0, W, H)` with `W, H ≥ 0` such that the `INT32`
loop counters do not overflow, that is, such that their last values
`ceilDiv W cx * cx` and `ceilDiv H cy * cy` are at most 2147483647 (as they are
whenever `W + cx ≤ 2 ^ 31` and `H + cy ≤ 2 ^ 31`, see `ceilDiv_mul_lt`), the tiling
loops of `DESKTOP_DoEraseBkgnd` end, for every fuel that is at least the number of
columns `ceilDiv W cx` and of rows `ceilDiv H cy`, and the routine returns 1.  Between
selecting the wallpaper into the memory context and deleting that context it
issues the blits `tiles`, and these are all its blits: there are
`ceilDiv W cx * ceilDiv H cy` of them, where `ceilDiv W cx` is `W / cx` rounded up
and `ceilDiv H cy` is `H / cy` rounded up; a call is one of them exactly when it is
the blit of the `cx` by `cy` bitmap to `(i * cx, j * cy)` for some column
`i < ceilDiv W cx` and row `j < ceilDiv H cy`; and every point of the client
rectangle lies in the target of one of them. -/
theorem DESKTOP_DoEraseBkgnd_tiles (env : DesktopEnv) (hwnd hdc : Nat) (s : DesktopState)
    (W H : Int) (fuel : Nat)
    (hwall : s.desktop.hbitmapWallPaper ≠ 0) (htile : s.desktop.fTileWallPaper ≠ 0)
    (hcx : 1 ≤ s.desktop.bitmapSize.cx) (hcy : 1 ≤ s.desktop.bitmapSize.cy)
    (hrect : env.GetClientRect32 hwnd = { left := 0, top := 0, right := W, bottom := H })
    (hW : 0 ≤ W) (hH : 0 ≤ H)
    (hfit : (ceilDiv W s.desktop.bitmapSize.cx : Int) * s.desktop.bitmapSize.cx ≤ 2147483647 ∧
      (ceilDiv H s.desktop.bitmapSize.cy : Int) * s.desktop.bitmapSize.cy ≤ 2147483647)
    (hfuel : ceilDiv W s.desktop.bitmapSize.cx ≤ fuel ∧
      ceilDiv H s.desktop.bitmapSize.cy ≤ fuel) :
    ∃ s1, DESKTOP_DoEraseBkgnd env fuel hwnd hdc s = some (1, s1) ∧
      s1.calls = (DESKTOP_DoEraseBkgnd.pattern env hwnd hdc s).calls ++
        [.CreateCompatibleDC32 hdc,
          .SelectObject32 (env.CreateCompatibleDC32 hdc) s.desktop.hbitmapWallPaper] ++
        tiles hdc (env.CreateCompatibleDC32 hdc) s.desktop.bitmapSize
          (ceilDiv W s.desktop.bitmapSize.cx) (ceilDiv H s.desktop.bitmapSize.cy) ++
        [.DeleteDC32 (env.CreateCompatibleDC32 hdc)] ∧
      s1.calls.filter DesktopCall.isBitBlt32 = s.calls.filter DesktopCall.isBitBlt32 ++
        tiles hdc (env.CreateCompatibleDC32 hdc) s.desktop.bitmapSize
          (ceilDiv W s.desktop.bitmapSize.cx) (ceilDiv H s.desktop.bitmapSize.cy) ∧
      (tiles hdc (env.CreateCompatibleDC32 hdc) s.desktop.bitmapSize
          (ceilDiv W s.desktop.bitmapSize.cx) (ceilDiv H s.desktop.bitmapSize.cy)).length =
        ceilDiv W s.desktop.bitmapSize.cx * ceilDiv H s.desktop.bitmapSize.cy ∧
      (ceilDiv W s.desktop.bitmapSize.cx : Int) =
        Int.ceil ((W : ℚ) / (s.desktop.bitmapSize.cx : ℚ)) ∧
      (ceilDiv H s.desktop.bitmapSize.cy : Int) =
        Int.ceil ((H : ℚ) / (s.desktop.bitmapSize.cy : ℚ)) ∧
      (∀ c, c ∈ tiles hdc (env.CreateCompatibleDC32 hdc) s.desktop.bitmapSize
            (ceilDiv W s.desktop.bitmapSize.cx) (ceilDiv H s.desktop.bitmapSize.cy) ↔
        ∃ i j : Nat, i < ceilDiv W s.desktop.bitmapSize.cx ∧
          j < ceilDiv H s.desktop.bitmapSize.cy ∧
          c = .BitBlt32 hdc ((i : Int) * s.desktop.bitmapSize.cx)
            ((j : Int) * s.desktop.bitmapSize.cy) s.desktop.bitmapSize.cx
            s.desktop.bitmapSize.cy (env.CreateCompatibleDC32 hdc) 0 0 SRCCOPY) ∧
      (∀ px py : Int, 0 ≤ px → px < W → 0 ≤ py → py < H →
        ∃ i j : Nat, i < ceilDiv W s.desktop.bitmapSize.cx ∧
          j < ceilDiv H s.desktop.bitmapSize.cy ∧
          (i : Int) * s.desktop.bitmapSize.cx ≤ px ∧
          px < (i : Int) * s.desktop.bitmapSize.cx + s.desktop.bitmapSize.cx ∧
          (j : Int) * s.desktop.bitmapSize.cy ≤ py ∧
          py < (j : Int) * s.desktop.bitmapSize.cy + s.desktop.bitmapSize.cy) := by
  have hr : (env.GetClientRect32 hwnd).right = W := by rw [hrect]
  have hb : (env.GetClientRect32 hwnd).bottom = H := by rw [hrect]
  have hrun := DoEraseBkgnd_tiled env fuel hwnd hdc s hwall htile
  rw [hr, hb, tileLoop_tiles _ _ _ _ _ hcx hcy hfit.1 hfit.2 fuel hfuel.1 hfuel.2] at hrun
  refine ⟨_, hrun, ?_, ?_, tiles_length _ _ _ _ _, ceilDiv_eq_ceil W _ hW hcx,
    ceilDiv_eq_ceil H _ hH hcy, ?_, ?_⟩
  · simp [DesktopState.call, List.append_assoc]
  · have ht := filter_isBitBlt32_of_isBitBlt32 _
      (tiles_isBitBlt32 hdc (env.CreateCompatibleDC32 hdc) s.desktop.bitmapSize
        (ceilDiv W s.desktop.bitmapSize.cx) (ceilDiv H s.desktop.bitmapSize.cy))
    simp [DesktopState.call, List.filter_append, List.filter_cons, DesktopCall.isBitBlt32,
      pattern_blits, ht]
  · intro c
    exact mem_tiles _ _ _ _ _ c
  · intro px py hx0 hx1 hy0 hy1
    obtain ⟨i, hi, hi1, hi2⟩ := tiles_cover W s.desktop.bitmapSize.cx hcx px hx0 hx1
    obtain ⟨j, hj, hj1, hj2⟩ := tiles_cover H s.desktop.bitmapSize.cy hcy py hy0 hy1
    refine ⟨i, j, hi, hj, hi1, ?_, hj1, ?_⟩
    · have : ((i : Int) + 1) * s.desktop.bitmapSize.cx =
          (i : Int) * s.desktop.bitmapSize.cx + s.desktop.bitmapSize.cx := by ring
      omega
    · have : ((j : Int) + 1) * s.desktop.bitmapSize.cy =
          (j : Int) * s.desktop.bitmapSize.cy + s.desktop.bitmapSize.cy := by ring
      omega

/-- **C22, witness.** The 300 by 200 wallpaper tiled over the 640 by 480 client
rectangle: three columns and three rows, nine blits. -/
theorem DESKTOP_DoEraseBkgnd_tiles_witness :
    ceilDiv 640 300 = 3 ∧ ceilDiv 480 200 = 3 ∧
    ∃ s1, DESKTOP_DoEraseBkgnd desktopEnv 3 0 5 tiledState = some (1, s1) ∧
      (s1.calls.filter DesktopCall.isBitBlt32).length = 9 := by
  obtain ⟨s1, h1, _, h3, h4, _⟩ :=
    DESKTOP_DoEraseBkgnd_tiles desktopEnv 0 5 tiledState 640 480 3 (by decide) (by decide)
      (by decide) (by decide) rfl (by decide) (by decide) (by decide) (by decide)
  refine ⟨by decide, by decide, s1, h1, ?_⟩
  rw [h3, List.length_append, h4]
  rfl
/-- With a bitmap width of `2 ^ 30` and a client width of `3 * 2 ^ 29` the column
counter runs through 0, `2 ^ 30`, `-2 ^ 31`, `-2 ^ 30` and 0 again, all below the
client width: the inner loop does not end. -/
theorem rowLoop_wide (hdc hMemDC : Nat) (y : Int) :
    ∀ (fuel : Nat) (x : Int),
      x = 0 ∨ x = 1073741824 ∨ x = -2147483648 ∨ x = -1073741824 →
      DESKTOP_DoEraseBkgnd.rowLoop hdc hMemDC { cx := 1073741824, cy := 1 } 1610612736 y
        fuel x = none := by
  intro fuel
  induction fuel with
  | zero =>
    intro x hx
    have hlt : x < 1610612736 := by omega
    rw [DESKTOP_DoEraseBkgnd.rowLoop, if_pos hlt]
  | succ f ih =>
    intro x hx
    have hlt : x < 1610612736 := by omega
    have hnext : toINT32 (x + 1073741824) = 0 ∨ toINT32 (x + 1073741824) = 1073741824 ∨
        toINT32 (x + 1073741824) = -2147483648 ∨ toINT32 (x + 1073741824) = -1073741824 := by
      unfold toINT32
      omega
    rw [DESKTOP_DoEraseBkgnd.rowLoop, if_pos hlt]
    show Option.map _ (DESKTOP_DoEraseBkgnd.rowLoop hdc hMemDC { cx := 1073741824, cy := 1 }
      1610612736 y f (toINT32 (x + 1073741824))) = none
    rw [ih _ hnext]
    rfl

theorem tileLoop_wide (hdc hMemDC : Nat) (fuel0 fuel : Nat) :
    DESKTOP_DoEraseBkgnd.tileLoop hdc hMemDC { cx := 1073741824, cy := 1 } 1610612736 1
      fuel0 fuel 0 = none := by
  cases fuel with
  | zero => rw [DESKTOP_DoEraseBkgnd.tileLoop, if_pos (by decide)]
  | succ f =>
    rw [DESKTOP_DoEraseBkgnd.tileLoop, if_pos (by decide),
      rowLoop_wide hdc hMemDC 0 fuel0 0 (Or.inl rfl)]

/-- **C22, counterexample.** A wallpaper `2 ^ 30` wide and 1 high, tiled over the
client rectangle `(0, 0, 3 * 2 ^ 29, 1)`: two columns and one row would cover it,
but after the second blit of the row the `INT32` column counter is
`2 ^ 30 + 2 ^ 30`, which wraps to `-2 ^ 31` and is again below the width; the
counter then returns to 0, and `DESKTOP_DoEraseBkgnd` does not return, whatever
the fuel. -/
theorem DESKTOP_DoEraseBkgnd_tiles_counterexample :
    wideState.desktop.hbitmapWallPaper ≠ 0 ∧ wideState.desktop.fTileWallPaper ≠ 0 ∧
    1 ≤ wideState.desktop.bitmapSize.cx ∧ 1 ≤ wideState.desktop.bitmapSize.cy ∧
    wideEnv.GetClientRect32 0 = { left := 0, top := 0, right := 1610612736, bottom := 1 } ∧
    ceilDiv 1610612736 wideState.desktop.bitmapSize.cx = 2 ∧
    ceilDiv 1 wideState.desktop.bitmapSize.cy = 1 ∧
    toINT32 (1073741824 + wideState.desktop.bitmapSize.cx) = -2147483648 ∧
    toINT32 (-2147483648 + wideState.desktop.bitmapSize.cx) = -1073741824 ∧
    toINT32 (-1073741824 + wideState.desktop.bitmapSize.cx) = 0 ∧
    ∀ fuel, DESKTOP_DoEraseBkgnd wideEnv fuel 0 5 wideState = none := by
  refine ⟨by decide, by decide, by decide, by decide, rfl, by decide, by decide, by decide,
    by decide, by decide, ?_⟩
  intro fuel
  rw [DoEraseBkgnd_tiled wideEnv fuel 0 5 wideState (by decide) (by decide)]
  have h : DESKTOP_DoEraseBkgnd.tileLoop 5 (wideEnv.CreateCompatibleDC32 5)
      wideState.desktop.bitmapSize (wideEnv.GetClientRect32 0).right
      (wideEnv.GetClientRect32 0).bottom fuel fuel 0 = none :=
    tileLoop_wide 5 (wideEnv.CreateCompatibleDC32 5) fuel fuel
  rw [h]
  rfl

/-- The sums of the centring offsets do not leave `INT32` for a client rectangle
and a bitmap size with extents from 0 to 2147483647. -/
theorem centre_fits (env : DesktopEnv) (hwnd : Nat) (cx cy : Int)
    (hW : 0 ≤ (env.clientArea hwnd).cx ∧ (env.clientArea hwnd).cx ≤ 2147483647)
    (hH : 0 ≤ (env.clientArea hwnd).cy ∧ (env.clientArea hwnd).cy ≤ 2147483647)
    (hcx : 0 ≤ cx ∧ cx ≤ 2147483647) (hcy : 0 ≤ cy ∧ cy ≤ 2147483647) :
    toINT32 (toINT32 ((env.GetClientRect32 hwnd).left + (env.GetClientRect32 hwnd).right) - cx) =
      (env.GetClientRect32 hwnd).left + (env.GetClientRect32 hwnd).right - cx ∧
    toINT32 (toINT32 ((env.GetClientRect32 hwnd).top + (env.GetClientRect32 hwnd).bottom) - cy) =
      (env.GetClientRect32 hwnd).top + (env.GetClientRect32 hwnd).bottom - cy := by
  have h1 : (env.GetClientRect32 hwnd).left + (env.GetClientRect32 hwnd).right =
      (env.clientArea hwnd).cx := by
    show 0 + (env.clientArea hwnd).cx = _
    omega
  have h2 : (env.GetClientRect32 hwnd).top + (env.GetClientRect32 hwnd).bottom =
      (env.clientArea hwnd).cy := by
    show 0 + (env.clientArea hwnd).cy = _
    omega
  rw [h1, h2]
  unfold toINT32
  omega

theorem tdiv_two_nonpos (n : Int) (h : n ≤ 0) : n.tdiv 2 ≤ 0 := by
  obtain ⟨m, rfl⟩ : ∃ m : Int, n = -m := ⟨-n, by omega⟩
  rw [Int.neg_tdiv]
  have := Int.tdiv_nonneg (by omega : 0 ≤ m) (by decide : (0 : Int) ≤ 2)
  omega

theorem max_zero_tdiv_two (n : Int) : max 0 (n.tdiv 2) = max 0 (n / 2) := by
  by_cases h : 0 ≤ n
  · rw [Int.tdiv_eq_ediv h (by decide)]
  · have h1 := tdiv_two_nonpos n (by omega)
    rw [max_eq_left h1, max_eq_left (by omega)]

theorem sscanf_blank (text : List Nat) (h : text.all isspace = true) :
    sscanf text = (-1, []) := by
  have hd : text.dropWhile isspace = [] := by
    rw [List.dropWhile_eq_nil_iff]
    exact List.all_eq_true.1 h
  unfold sscanf
  rw [sscanf.conversions, sscanf.d, hd]
  rfl

theorem sscanf_not_numeric (text : List Nat) (c : Nat) (rest : List Nat)
    (h : text.dropWhile isspace = c :: rest) (hd : isdigit c = false)
    (hm : c ≠ 0x2D) (hp : c ≠ 0x2B) :
    sscanf text = (0, []) := by
  unfold sscanf
  rw [sscanf.conversions, sscanf.d, h]
  simp [hm, hp, List.takeWhile_cons, hd]

/-- What `DESKTOP_SetPattern` does when the condition `pattern && sscanf(...)` is
false. -/
theorem SetPattern_solid (env : DesktopEnv) (pattern : Option (List Nat)) (s : DesktopState)
    (h : pattern = none ∨ ∃ text, pattern = some text ∧ (sscanf text).1 = 0) :
    (DESKTOP_SetPattern env pattern s).1 = true ∧
    (DESKTOP_SetPattern env pattern s).2.desktop.hbrushPattern =
      env.CreateSolidBrush32 (env.GetSysColor32 COLOR_BACKGROUND) ∧
    (DESKTOP_SetPattern env pattern s).2.calls = s.calls ++
      (if s.desktop.hbrushPattern ≠ 0 then [.DeleteObject32 s.desktop.hbrushPattern] else []) ++
      [.CreateSolidBrush32 (env.GetSysColor32 COLOR_BACKGROUND)] := by
  have hs : DESKTOP_SetPattern.scanned pattern = none := by
    rcases h with rfl | ⟨text, rfl, h0⟩
    · rfl
    · simp [DESKTOP_SetPattern.scanned, h0]
  unfold DESKTOP_SetPattern
  rw [hs]
  by_cases hb : s.desktop.hbrushPattern ≠ 0
  · simp [hb, DesktopState.call, DESKTOP_SetPattern.solidBrush]
  · simp [hb, DesktopState.call, DESKTOP_SetPattern.solidBrush]

/-- What `DESKTOP_SetPattern` does when `sscanf` returns a value other than 0
without having stored a number. -/
theorem SetPattern_nothing_stored (env : DesktopEnv) (text : List Nat) (s : DesktopState)
    (r : Int) (hr : r ≠ 0) (h : sscanf text = (r, [])) :
    (DESKTOP_SetPattern env (some text) s).1 = true ∧
    (DESKTOP_SetPattern env (some text) s).2.desktop.hbrushPattern =
      env.CreatePatternBrush32 (env.CreateBitmap32 [0, 0, 0, 0, 0, 0, 0, 0]) ∧
    (DESKTOP_SetPattern env (some text) s).2.calls = s.calls ++
      (if s.desktop.hbrushPattern ≠ 0 then [.DeleteObject32 s.desktop.hbrushPattern] else []) ++
      [.CreateBitmap32 8 8 1 1 [0, 0, 0, 0, 0, 0, 0, 0],
        .CreatePatternBrush32 (env.CreateBitmap32 [0, 0, 0, 0, 0, 0, 0, 0]),
        .DeleteObject32 (env.CreateBitmap32 [0, 0, 0, 0, 0, 0, 0, 0])] := by
  have hs : DESKTOP_SetPattern.scanned (some text) = some [] := by
    simp [DESKTOP_SetPattern.scanned, h, hr]
  have hw : ((List.range 8).map (fun i => ([] : List Int).getD i 0)).map
      (fun v => (v % 65536).toNat) = [0, 0, 0, 0, 0, 0, 0, 0] := by decide
  unfold DESKTOP_SetPattern
  rw [hs]
  unfold DESKTOP_SetPattern.patternBrush
  simp only [hw]
  by_cases hb : s.desktop.hbrushPattern ≠ 0
  · simp [hb, DesktopState.call]
  · simp [hb, DesktopState.call]

/-- **C24.** `DESKTOP_SetPattern` always returns TRUE.  For a null pattern, for
`"(None)"`, and for every text whose first character after the white space is not
a digit or a sign, the condition `pattern && sscanf(...)` is false (`sscanf`
returns 0 for such a text): the old brush is destroyed and a solid brush of the
background system colour is installed, with no pattern brush created.  For the
empty string and for every text of white space only, `sscanf` returns `EOF`, which
is -1 and so counts as true: `DESKTOP_SetPattern` creates an 8 by 8 bitmap of
eight zero words and installs a pattern brush made from it, and no solid brush
is created; so does `SetDeskPattern` when the profile entry `Pattern` is present
and empty. -/
theorem DESKTOP_SetPattern_fallback (env : DesktopEnv) (s : DesktopState) :
    (∀ pattern, (DESKTOP_SetPattern env pattern s).1 = true) ∧
    (∀ pattern,
      (pattern = none ∨ pattern = some (cstr "(None)") ∨
        ∃ text c rest, pattern = some text ∧ text.dropWhile isspace = c :: rest ∧
          isdigit c = false ∧ c ≠ 0x2D ∧ c ≠ 0x2B) →
      (DESKTOP_SetPattern env pattern s).2.desktop.hbrushPattern =
        env.CreateSolidBrush32 (env.GetSysColor32 COLOR_BACKGROUND) ∧
      (DESKTOP_SetPattern env pattern s).2.calls = s.calls ++
        (if s.desktop.hbrushPattern ≠ 0 then [.DeleteObject32 s.desktop.hbrushPattern]
          else []) ++
        [.CreateSolidBrush32 (env.GetSysColor32 COLOR_BACKGROUND)]) ∧
    (∀ text, text.all isspace = true →
      sscanf text = (-1, []) ∧
      (DESKTOP_SetPattern env (some text) s).2.desktop.hbrushPattern =
        env.CreatePatternBrush32 (env.CreateBitmap32 [0, 0, 0, 0, 0, 0, 0, 0]) ∧
      (DESKTOP_SetPattern env (some text) s).2.calls = s.calls ++
        (if s.desktop.hbrushPattern ≠ 0 then [.DeleteObject32 s.desktop.hbrushPattern]
          else []) ++
        [.CreateBitmap32 8 8 1 1 [0, 0, 0, 0, 0, 0, 0, 0],
          .CreatePatternBrush32 (env.CreateBitmap32 [0, 0, 0, 0, 0, 0, 0, 0]),
          .DeleteObject32 (env.CreateBitmap32 [0, 0, 0, 0, 0, 0, 0, 0])]) ∧
    (cstr "").all isspace = true ∧ (cstr "  ").all isspace = true ∧
    (DESKTOP_SetPattern desktopEnv (some (cstr "")) desktopState).2.desktop.hbrushPattern = 72 ∧
    (DESKTOP_SetPattern desktopEnv (some (cstr "")) desktopState).2.calls =
      [.DeleteObject32 71, .CreateBitmap32 8 8 1 1 [0, 0, 0, 0, 0, 0, 0, 0],
        .CreatePatternBrush32 73, .DeleteObject32 73] ∧
    (SetDeskPattern emptyPatternEnv desktopState).2.calls =
      [.DeleteObject32 71, .CreateBitmap32 8 8 1 1 [0, 0, 0, 0, 0, 0, 0, 0],
        .CreatePatternBrush32 73, .DeleteObject32 73] ∧
    (SetDeskPattern desktopEnv desktopState).2.calls =
      [.DeleteObject32 71, .CreateSolidBrush32 0x808000] := by
  refine ⟨?_, ?_, ?_, by decide, by decide, by decide, by decide, by decide, by decide⟩
  · intro pattern
    unfold DESKTOP_SetPattern
    cases DESKTOP_SetPattern.scanned pattern <;> rfl
  · intro pattern h
    have h0 : pattern = none ∨ ∃ text, pattern = some text ∧ (sscanf text).1 = 0 := by
      rcases h with h | h | ⟨text, c, rest, h1, h2, h3, h4, h5⟩
      · exact Or.inl h
      · exact Or.inr ⟨_, h, by decide⟩
      · exact Or.inr ⟨text, h1, by rw [sscanf_not_numeric text c rest h2 h3 h4 h5]⟩
    exact (SetPattern_solid env pattern s h0).2
  · intro text h
    exact ⟨sscanf_blank text h,
      (SetPattern_nothing_stored env text s (-1) (by decide) (sscanf_blank text h)).2⟩
/-! ## The desktop wallpaper -/

theorem LoadBitmap_read_frame (env : DesktopEnv) (hdc file : Nat) (s : DesktopState) :
    (DESKTOP_LoadBitmap.read env hdc file s).2.desktop = s.desktop ∧
    (DESKTOP_LoadBitmap.read env hdc file s).2.calls.filter DesktopCall.isDeleteObject32 =
      s.calls.filter DesktopCall.isDeleteObject32 := by
  unfold DESKTOP_LoadBitmap.read
  by_cases h1 : env.allocFile file = false
  · rw [if_pos h1]
    simp [DesktopState.call, List.filter_append, List.filter_cons,
      DesktopCall.isDeleteObject32]
  · rw [if_neg h1]
    by_cases h2 : env.bfType file ≠ 0x4d42 ∨ env.lread32 file < env.bfSize file
    · simp only [h2, if_true]
      simp [DesktopState.call, List.filter_append, List.filter_cons,
        DesktopCall.isDeleteObject32]
    · simp only [h2, if_false]
      simp [DesktopState.call, List.filter_append, List.filter_cons,
        DesktopCall.isDeleteObject32]

theorem LoadBitmap_read_fails (env : DesktopEnv) (hdc file : Nat) (s : DesktopState)
    (h : env.allocFile file = false ∨ env.bfType file ≠ 0x4d42 ∨
      env.lread32 file < env.bfSize file) :
    (DESKTOP_LoadBitmap.read env hdc file s).1 = 0 := by
  unfold DESKTOP_LoadBitmap.read
  by_cases h1 : env.allocFile file = false
  · rw [if_pos h1]
  · rw [if_neg h1]
    have h2 : env.bfType file ≠ 0x4d42 ∨ env.lread32 file < env.bfSize file := by
      rcases h with h | h | h
      · exact absurd h h1
      · exact Or.inl h
      · exact Or.inr h
    simp only [h2, if_true]

/-- `DESKTOP_LoadBitmap` leaves the `DESKTOP` record alone and destroys no object. -/
theorem LoadBitmap_frame (env : DesktopEnv) (hdc : Nat) (name : List Nat) (s : DesktopState) :
    (DESKTOP_LoadBitmap env hdc name s).2.desktop = s.desktop ∧
    (DESKTOP_LoadBitmap env hdc name s).2.calls.filter DesktopCall.isDeleteObject32 =
      s.calls.filter DesktopCall.isDeleteObject32 := by
  unfold DESKTOP_LoadBitmap
  cases h1 : env.lopen32 name with
  | some file =>
    simp only
    obtain ⟨ha, hb⟩ := LoadBitmap_read_frame env hdc file (s.call (.lopen32 name))
    rw [ha, hb]
    simp [DesktopState.call, List.filter_append, List.filter_cons,
      DesktopCall.isDeleteObject32]
  | none =>
    simp only
    by_cases h2 : env.allocPath = false
    · rw [if_pos h2]
      simp [DesktopState.call, List.filter_append, List.filter_cons,
        DesktopCall.isDeleteObject32]
    · rw [if_neg h2]
      cases h3 : env.lopen32 (DESKTOP_LoadBitmap.path env name) with
      | none =>
        simp [DesktopState.call, List.filter_append, List.filter_cons,
          DesktopCall.isDeleteObject32]
      | some file =>
        simp only
        obtain ⟨ha, hb⟩ := LoadBitmap_read_frame env hdc file
          ((s.call (.lopen32 name)).call (.lopen32 (DESKTOP_LoadBitmap.path env name)))
        rw [ha, hb]
        simp [DesktopState.call, List.filter_append, List.filter_cons,
          DesktopCall.isDeleteObject32]

/-- Each listed cause makes `DESKTOP_LoadBitmap` return 0. -/
theorem LoadBitmap_fails (env : DesktopEnv) (hdc : Nat) (name : List Nat) (s : DesktopState)
    (h : spec_loadFails env name) :
    (DESKTOP_LoadBitmap env hdc name s).1 = 0 := by
  unfold DESKTOP_LoadBitmap
  rcases h with ⟨h1, h2⟩ | ⟨h1, h2⟩ | ⟨file, hopen, hbad⟩
  · rw [h1]
    simp only
    by_cases h3 : env.allocPath = false
    · rw [if_pos h3]
    · rw [if_neg h3, h2]
  · rw [h1]
    simp only
    rw [if_pos h2]
  · rcases hopen with h1 | ⟨h1, h2, h3⟩
    · rw [h1]
      exact LoadBitmap_read_fails env hdc file _ hbad
    · rw [h1]
      simp only
      rw [if_neg (by rw [h2]; decide), h3]
      exact LoadBitmap_read_fails env hdc file _ hbad

/-- What `SetDeskWallPaper32` does when the load returns 0. -/
theorem SetDeskWallPaper32_of_load_zero (env : DesktopEnv) (filename : Option (List Nat))
    (s : DesktopState)
    (h : (DESKTOP_LoadBitmap env (env.GetDC32 0) (SetDeskWallPaper32.filename env filename)
      (s.call (.GetDC32 0))).1 = 0) :
    (SetDeskWallPaper32 env filename s).1 = true ∧
    (SetDeskWallPaper32 env filename s).2.desktop.hbitmapWallPaper = 0 ∧
    (SetDeskWallPaper32 env filename s).2.desktop.bitmapSize = s.desktop.bitmapSize ∧
    (SetDeskWallPaper32 env filename s).2.desktop.hbrushPattern = s.desktop.hbrushPattern ∧
    (SetDeskWallPaper32 env filename s).2.calls.filter DesktopCall.isDeleteObject32 =
      s.calls.filter DesktopCall.isDeleteObject32 ++
        (if s.desktop.hbitmapWallPaper ≠ 0 then [.DeleteObject32 s.desktop.hbitmapWallPaper]
          else []) := by
  obtain ⟨_, hb⟩ := LoadBitmap_frame env (env.GetDC32 0)
    (SetDeskWallPaper32.filename env filename) (s.call (.GetDC32 0))
  unfold SetDeskWallPaper32
  simp only [h, ne_eq, not_true_eq_false, if_false, true_and]
  have hc : ∀ (x : DesktopState) (c : DesktopCall), (x.call c).calls = x.calls ++ [c] :=
    fun _ _ => rfl
  by_cases hw : s.desktop.hbitmapWallPaper = 0
  · simp only [hw, not_true_eq_false, if_false]
    rw [hc, List.filter_append, hb, hc, List.filter_append]
    simp [List.filter_cons, DesktopCall.isDeleteObject32]
  · simp only [hw, not_false_eq_true, if_true]
    rw [hc, List.filter_append, hc, List.filter_append, hb, hc, List.filter_append]
    simp [List.filter_cons, DesktopCall.isDeleteObject32]

/-- **C25.** For every prior desktop state and every file name (given, or read
from the profile when the argument is `(LPSTR)-1`) whose bitmap load fails, for one
of the listed causes (`spec_loadFails`: missing file, bad signature, declared size
larger than the bytes read, allocation failure) or because `DESKTOP_LoadBitmap`
returns 0 for any other reason: `DESKTOP_LoadBitmap` returns 0, and
`SetDeskWallPaper32` returns TRUE, leaves the wallpaper handle 0 and the cached
bitmap size and the pattern brush as they were, and destroys exactly one object,
the previous wallpaper bitmap, when there was one, and no object when there was
none. -/
theorem SetDeskWallPaper32_load_failure (env : DesktopEnv) (filename : Option (List Nat))
    (s : DesktopState)
    (h : spec_loadFails env (SetDeskWallPaper32.filename env filename) ∨
      (DESKTOP_LoadBitmap env (env.GetDC32 0) (SetDeskWallPaper32.filename env filename)
        (s.call (.GetDC32 0))).1 = 0) :
    (DESKTOP_LoadBitmap env (env.GetDC32 0) (SetDeskWallPaper32.filename env filename)
      (s.call (.GetDC32 0))).1 = 0 ∧
    (SetDeskWallPaper32 env filename s).1 = true ∧
    (SetDeskWallPaper32 env filename s).2.desktop.hbitmapWallPaper = 0 ∧
    (SetDeskWallPaper32 env filename s).2.desktop.bitmapSize = s.desktop.bitmapSize ∧
    (SetDeskWallPaper32 env filename s).2.desktop.hbrushPattern = s.desktop.hbrushPattern ∧
    (SetDeskWallPaper32 env filename s).2.calls.filter DesktopCall.isDeleteObject32 =
      s.calls.filter DesktopCall.isDeleteObject32 ++
        (if s.desktop.hbitmapWallPaper ≠ 0 then [.DeleteObject32 s.desktop.hbitmapWallPaper]
          else []) := by
  have h0 : (DESKTOP_LoadBitmap env (env.GetDC32 0) (SetDeskWallPaper32.filename env filename)
      (s.call (.GetDC32 0))).1 = 0 := by
    rcases h with h | h
    · exact LoadBitmap_fails env _ _ _ h
    · exact h
  exact ⟨h0, SetDeskWallPaper32_of_load_zero env filename s h0⟩

/-- **C25, witness.** With the 300 by 200 wallpaper set, `SetDeskWallPaper32` of a
file that is missing under both paths destroys the old bitmap (handle 76), leaves
the handle 0 and the size 300 by 200. -/
theorem SetDeskWallPaper32_load_failure_witness :
    spec_loadFails desktopEnv (SetDeskWallPaper32.filename desktopEnv (some (cstr "none.bmp"))) ∧
    (SetDeskWallPaper32 desktopEnv (some (cstr "none.bmp")) tiledState).1 = true ∧
    (SetDeskWallPaper32 desktopEnv (some (cstr "none.bmp")) tiledState).2.desktop.hbitmapWallPaper
      = 0 ∧
    (SetDeskWallPaper32 desktopEnv (some (cstr "none.bmp")) tiledState).2.desktop.bitmapSize =
      { cx := 300, cy := 200 } ∧
    (SetDeskWallPaper32 desktopEnv (some (cstr "none.bmp")) tiledState).2.calls.filter
      DesktopCall.isDeleteObject32 = [.DeleteObject32 76] :=
  have hf : spec_loadFails desktopEnv
      (SetDeskWallPaper32.filename desktopEnv (some (cstr "none.bmp"))) :=
    Or.inl ⟨by decide, by decide⟩
  have h := SetDeskWallPaper32_load_failure desktopEnv (some (cstr "none.bmp")) tiledState
    (Or.inl hf)
  ⟨hf, h.2.1, h.2.2.1, h.2.2.2.1, h.2.2.2.2.2⟩

end Wine
